import Mathlib

/-!
# Power-measurement firmware: timestamp log and phase sequencer

A shallow embedding of `Src/pwr_timestamp.c` (the telemetry log), of the
application loop of `Src/main.c`, of the frequency-scaling step of
`Src/system_clock.c`, of the display pipe set-up and the frame callback of
`Src/app_cam.c` and of `Src/trace_gpio.c`, followed by the properties checked
on them.

Conventions of the embedding:

* C objects of type `uint32_t` are natural numbers; where the C arithmetic can
  wrap, the reduction modulo `2 ^ 32` is written out.
* File-scope variables and the peripheral registers they talk to are fields of
  one explicit state record that every operation takes and returns.
* A call that may fail to return (a failed `assert`, a `while(1);` after a HAL
  error) yields an `Outcome`, which records the state at the halting point.
* What a call into the vendor HAL reports, and what the timer set-up calls
  leave in the timer, is an input of the operation that makes the call.
* `printf` is a small interpreter of the conversion specifications the log
  uses, run on the very format strings of the source.
-/

namespace N6Power

/-! ## Outcomes -/

/-- The reasons for which a call does not return. -/
inductive Halt where
  /-- An `assert(...)` evaluated to false. -/
  | assertion
  /-- A `while(1);` entered after a HAL call reported an error. -/
  | infiniteLoop
  /-- An array was indexed outside its bounds (undefined behaviour in C). -/
  | outOfBounds
deriving DecidableEq, Repr

/-- The result of running a piece of code from a state: it either returns in
state `s`, or stops for good in state `s`. -/
inductive Outcome (σ : Type) where
  | ret (s : σ)
  | halt (why : Halt) (s : σ)
deriving DecidableEq, Repr

/-- Sequencing: the continuation runs only if the first part returned. -/
def Outcome.andThen {σ : Type} (o : Outcome σ) (k : σ → Outcome σ) : Outcome σ :=
  match o with
  | .ret s => k s
  | .halt why s => .halt why s

/-- The state in which control was last seen. -/
def Outcome.state {σ : Type} : Outcome σ → σ
  | .ret s => s
  | .halt _ s => s

/-! ## `printf` -/

/-- The variadic arguments the log passes to `printf`. -/
inductive PrintfArg where
  /-- A `const char *`; `none` is the null pointer. -/
  | str (s : Option String)
  /-- An `unsigned long` (32 bits on this target). -/
  | ulong (v : Nat)
deriving DecidableEq, Repr

/-- Scanner state of the format interpreter. -/
inductive FmtMode where
  /-- Copying ordinary characters. -/
  | text
  /-- Inside a conversion specification, after `%`: the precision read so far
  and whether its digits are still being read. -/
  | spec (prec : Option Nat) (inPrec : Bool)
deriving DecidableEq, Repr

/-- The characters of a C string: everything before the first NUL. -/
def cstr (s : String) : List Char :=
  s.toList.takeWhile (fun c => c != Char.ofNat 0)

/-- The C library's `strlen`. -/
def strlen (s : String) : Nat := (cstr s).length

/-- Unsigned decimal rendering, as `%lu` prints it. -/
def decimal (v : Nat) : List Char := Nat.toDigits 10 v

/-- The text printed for a `%s` argument; a null pointer prints as `(null)`,
which is what the C library of the toolchain does. -/
def strArgText : Option String → List Char
  | some t => cstr t
  | none => "(null)".toList

/-- Applies an optional precision to the text of a `%s` conversion. -/
def applyPrecision : Option Nat → List Char → List Char
  | some p, body => body.take p
  | none, body => body

/-- The format interpreter: handles ordinary characters, `%%`, and the
conversions `%s` and `%u` with an optional `.precision` and an optional `l`
length modifier. A conversion without a matching argument, or an unknown
conversion character, ends the output. -/
def vprintf : FmtMode → List Char → List PrintfArg → List Char
  | _, [], _ => []
  | .text, c :: fmt, args =>
    if c = '%' then vprintf (.spec none false) fmt args
    else c :: vprintf .text fmt args
  | .spec prec inPrec, c :: fmt, args =>
    if c = '.' then vprintf (.spec (some 0) true) fmt args
    else if c.isDigit && inPrec then
      vprintf (.spec (prec.map (fun p => p * 10 + (c.toNat - 48))) true) fmt args
    else if c = 'l' then vprintf (.spec prec false) fmt args
    else if c = 's' then
      match args with
      | .str s :: rest => applyPrecision prec (strArgText s) ++ vprintf .text fmt rest
      | _ => []
    else if c = 'u' then
      match args with
      | .ulong v :: rest => decimal v ++ vprintf .text fmt rest
      | _ => []
    else if c = '%' then '%' :: vprintf .text fmt args
    else []

/-- The characters `printf(fmt, args...)` writes to the standard output. -/
def printf (fmt : String) (args : List PrintfArg) : List Char :=
  vprintf .text (cstr fmt) args

/-! ## `pwr_timestamp.c`: data -/

/-- `PRESCALER_VALUE`: 400 MHz timer clock divided down to 1 MHz. -/
def PRESCALER_VALUE : Nat := ((400000000) / (1000000)) - 1

/-- `MAX_LOG_ENTRIES`. -/
def MAX_LOG_ENTRIES : Nat := 100

/-- `LogEntry_t`. -/
structure LogEntry_t where
  name : Option String
  timestamp : Nat
  divenr : Nat
  miscenr : Nat
  memenr : Nat
  ahb1enr : Nat
  ahb2enr : Nat
  ahb3enr : Nat
  ahb4enr : Nat
  ahb5enr : Nat
  apb1lenr : Nat
  apb1henr : Nat
  apb2enr : Nat
  apb3enr : Nat
  apb4lenr : Nat
  apb4henr : Nat
  apb5enr : Nat
deriving DecidableEq, Repr

/-- An all-zero `LogEntry_t`, as `memset(..., 0, ...)` leaves it. -/
def LogEntry_t.zero : LogEntry_t :=
  { name := none, timestamp := 0, divenr := 0, miscenr := 0, memenr := 0,
    ahb1enr := 0, ahb2enr := 0, ahb3enr := 0, ahb4enr := 0, ahb5enr := 0,
    apb1lenr := 0, apb1henr := 0, apb2enr := 0, apb3enr := 0, apb4lenr := 0,
    apb4henr := 0, apb5enr := 0 }

/-- The clock-enable registers of the `RCC` block that the log reads. -/
structure RCC_TypeDef where
  DIVENR : Nat
  MISCENR : Nat
  MEMENR : Nat
  AHB1ENR : Nat
  AHB2ENR : Nat
  AHB3ENR : Nat
  AHB4ENR : Nat
  AHB5ENR : Nat
  APB1ENR1 : Nat
  APB1ENR2 : Nat
  APB2ENR : Nat
  APB3ENR : Nat
  APB4ENR1 : Nat
  APB4ENR2 : Nat
  APB5ENR : Nat
deriving DecidableEq, Repr

/-- `HAL_StatusTypeDef` (`stm32n6xx_hal_def.h`). -/
inductive HAL_StatusTypeDef where
  | HAL_OK
  | HAL_ERROR
  | HAL_BUSY
  | HAL_TIMEOUT
deriving DecidableEq, Repr

/-- Counting direction of a timer. -/
inductive TIM_CounterMode where
  | TIM_COUNTERMODE_UP
  | TIM_COUNTERMODE_DOWN
deriving DecidableEq, Repr

/-- The fields of `htim2.Init` that `timer_init` sets. -/
structure TIM_Base_InitTypeDef where
  Prescaler : Nat
  CounterMode : TIM_CounterMode
  Period : Nat
deriving DecidableEq, Repr

/-- The statuses the three HAL configuration calls of `timer_init` report, in
call order. They are inputs of the model: the HAL is not part of the
application. -/
structure TimerInitStatus where
  baseInit : HAL_StatusTypeDef
  configClockSource : HAL_StatusTypeDef
  masterConfigSynchronization : HAL_StatusTypeDef
deriving DecidableEq, Repr

/-- All three HAL calls succeed. -/
def TimerInitStatus.allOk : TimerInitStatus :=
  { baseInit := .HAL_OK, configClockSource := .HAL_OK,
    masterConfigSynchronization := .HAL_OK }

/-- What the HAL configuration calls of `timer_init` leave in the timer whose
handle they are given: the value of its counter and its counter-enable bit
when `timer_init` is over. The calls belong to the vendor HAL, which is not
part of the application, and nothing in the application says what they do to
the count, so both are inputs of the model and nothing is assumed about
them. -/
structure TimerInitEffect where
  /-- `TIM2->CNT` after the HAL calls. -/
  CNT : Nat
  /-- Counter-enable bit of `TIM2` after the HAL calls. -/
  CEN : Bool
deriving DecidableEq, Repr

/-- The state the timestamp module works on: its file-scope variables, the
timer and clock registers it touches, and the characters written so far to the
standard output (the UART). -/
structure TsState where
  /-- `logBuffer[MAX_LOG_ENTRIES]`. -/
  logBuffer : Fin MAX_LOG_ENTRIES → LogEntry_t
  /-- `static uint32_t tim_started`. -/
  tim_started : Nat
  /-- `static uint32_t logIndex`. -/
  logIndex : Nat
  /-- `htim2.Init`. -/
  htim2Init : TIM_Base_InitTypeDef
  /-- `TIM2->CNT`, the counter of the timer. -/
  CNT : Nat
  /-- Counter-enable bit of `TIM2`: the counter advances only while it is set. -/
  CEN : Bool
  /-- `RCC`. -/
  RCC : RCC_TypeDef
  /-- Characters written to the standard output, oldest first. -/
  uart : List Char

/-- `LOG_FORMAT`. -/
def LOG_FORMAT : String :=
  "[SLP_SOL]%.30s:%lu:us:" ++
  "DIVENR=%lu:" ++
  "MISCENR=%lu:" ++
  "MEMENR=%lu:" ++
  "AHB1ENR=%lu:" ++
  "AHB2ENR=%lu:" ++
  "AHB3ENR=%lu:" ++
  "AHB4ENR=%lu:" ++
  "AHB5ENR=%lu:" ++
  "APB1LENR=%lu:" ++
  "APB1HENR=%lu:" ++
  "APB2ENR=%lu:" ++
  "APB3ENR=%lu:" ++
  "APB4LENR=%lu:" ++
  "APB4HENR=%lu:" ++
  "APB5ENR=%lu[SLP_EOL]"

/-- `END_OF_LOG`; the literal of the source ends in an explicit NUL. -/
def END_OF_LOG : String := "[SLP_SOL]END_OF_LOG[SLP_EOL]\x00"

/-! ## `pwr_timestamp.c`: hardware primitives -/

/-- Modelled from the spec: the macro `__HAL_RCC_TIM2_CLK_ENABLE` belongs to
the vendor HAL, which is outside the application; it switches on the clock of
`TIM2`, whose enable bit is bit 0 of `APB1ENR1`. -/
def HAL_RCC_TIM2_CLK_ENABLE (r : RCC_TypeDef) : RCC_TypeDef :=
  { r with APB1ENR1 := r.APB1ENR1 ||| 1 }

/-- Modelled from the spec: `HAL_TIM_Base_Start` belongs to the vendor HAL;
the spec says `start` "(re)starts the counter". -/
def HAL_TIM_Base_Start (s : TsState) : TsState :=
  { s with CEN := true }

/-- Modelled from the spec: `HAL_TIM_Base_Stop` belongs to the vendor HAL;
the spec says `stop` "halts the counter". -/
def HAL_TIM_Base_Stop (s : TsState) : TsState :=
  { s with CEN := false }

/-- Modelled from the spec: the macro `__HAL_TIM_SET_COUNTER` belongs to the
vendor HAL; `__HAL_TIM_SET_COUNTER(&htim2, v)` writes `v` to the counter
register (the spec: `start` "zeroes the counter"). -/
def HAL_TIM_SET_COUNTER (v : Nat) (s : TsState) : TsState :=
  { s with CNT := v }

/-- Modelled from the spec: the macro `__HAL_TIM_GET_COUNTER` belongs to the
vendor HAL; `__HAL_TIM_GET_COUNTER(&htim2)` reads the counter register (the
spec: `log` "captures current tick count"). -/
def HAL_TIM_GET_COUNTER (s : TsState) : Nat := s.CNT

/-! ## `pwr_timestamp.c`: functions -/

/-- `timer_init`: enables the timer clock, fills `htim2.Init` and runs the
three HAL configuration calls, spinning forever on the first that fails. The
HAL calls act on the timer through `htim2`: the statuses `st` they report and
the count and enable bit `hw` they leave in the timer are inputs. -/
def timer_init (st : TimerInitStatus) (hw : TimerInitEffect) (s : TsState) :
    Outcome TsState :=
  let s1 : TsState := { s with RCC := HAL_RCC_TIM2_CLK_ENABLE s.RCC }
  let s2 : TsState :=
    { s1 with htim2Init :=
        { Prescaler := PRESCALER_VALUE,
          CounterMode := .TIM_COUNTERMODE_UP,
          Period := 0xffffffff } }
  let s3 : TsState := { s2 with CNT := hw.CNT, CEN := hw.CEN }
  if st.baseInit ≠ .HAL_OK then .halt .infiniteLoop s3
  else if st.configClockSource ≠ .HAL_OK then .halt .infiniteLoop s3
  else if st.masterConfigSynchronization ≠ .HAL_OK then .halt .infiniteLoop s3
  else .ret s3

/-- `pwr_timestamp_start`. -/
def pwr_timestamp_start (s : TsState) : TsState :=
  let s1 : TsState :=
    if s.tim_started = 0 then
      HAL_TIM_SET_COUNTER 0 { s with tim_started := 1 }
    else s
  let s2 : TsState := { s1 with logIndex := 0 }
  HAL_TIM_Base_Start s2

/-- `pwr_timestamp_stop`. -/
def pwr_timestamp_stop (s : TsState) : TsState :=
  let s1 := HAL_TIM_Base_Stop s
  { s1 with tim_started := 0 }

/-- `pwr_timestamp_init`. -/
def pwr_timestamp_init (st : TimerInitStatus) (hw : TimerInitEffect) (s : TsState) :
    Outcome TsState :=
  (timer_init st hw s).andThen fun s1 =>
    .ret { s1 with logBuffer := fun _ => LogEntry_t.zero }

/-- The entry `pwr_timestamp_log` stores: the label, the counter value read
first, and the fifteen registers in the order of the assignments. -/
def snapshot (stepName : String) (s : TsState) : LogEntry_t :=
  let timer_cnt_val := HAL_TIM_GET_COUNTER s
  { name := some stepName
    timestamp := timer_cnt_val
    divenr := s.RCC.DIVENR
    miscenr := s.RCC.MISCENR
    memenr := s.RCC.MEMENR
    ahb1enr := s.RCC.AHB1ENR
    ahb2enr := s.RCC.AHB2ENR
    ahb3enr := s.RCC.AHB3ENR
    ahb4enr := s.RCC.AHB4ENR
    ahb5enr := s.RCC.AHB5ENR
    apb1lenr := s.RCC.APB1ENR1
    apb1henr := s.RCC.APB1ENR2
    apb2enr := s.RCC.APB2ENR
    apb3enr := s.RCC.APB3ENR
    apb4lenr := s.RCC.APB4ENR1
    apb4henr := s.RCC.APB4ENR2
    apb5enr := s.RCC.APB5ENR }

/-- `pwr_timestamp_log`: the capacity assertion, then the write of slot
`logIndex` and the increment of `logIndex`. -/
def pwr_timestamp_log (stepName : String) (s : TsState) : Outcome TsState :=
  if h : s.logIndex < MAX_LOG_ENTRIES then
    .ret { s with
      logBuffer := Function.update s.logBuffer ⟨s.logIndex, h⟩ (snapshot stepName s)
      logIndex := (s.logIndex + 1) % 4294967296 }
  else .halt .assertion s

/-- The argument list of the `printf` call that prints one entry. -/
def recordArgs (e : LogEntry_t) : List PrintfArg :=
  [.str e.name, .ulong e.timestamp,
   .ulong e.divenr, .ulong e.miscenr, .ulong e.memenr,
   .ulong e.ahb1enr, .ulong e.ahb2enr, .ulong e.ahb3enr,
   .ulong e.ahb4enr, .ulong e.ahb5enr, .ulong e.apb1lenr,
   .ulong e.apb1henr, .ulong e.apb2enr, .ulong e.apb3enr,
   .ulong e.apb4lenr, .ulong e.apb4henr, .ulong e.apb5enr]

/-- The characters printed for one entry: `printf(LOG_FORMAT "\n", ...)`. -/
def printRecord (e : LogEntry_t) : List Char :=
  printf (LOG_FORMAT ++ "\n") (recordArgs e)

/-- The loop `for (int i = 0; i < logIndex; i++) printf(...)` with `remaining`
iterations left to run from index `i`; reading `logBuffer[i]` past the end of
the array stops the run. -/
def sendLoop : (remaining : Nat) → (i : Nat) → TsState → Outcome TsState
  | 0, _, s => .ret s
  | remaining + 1, i, s =>
    if h : i < MAX_LOG_ENTRIES then
      sendLoop remaining (i + 1)
        { s with uart := s.uart ++ printRecord (s.logBuffer ⟨i, h⟩) }
    else .halt .outOfBounds s

/-- `pwr_timestamp_sendOverUart`. -/
def pwr_timestamp_sendOverUart (s : TsState) : Outcome TsState :=
  let s1 := pwr_timestamp_stop s
  let s2 : TsState := { s1 with tim_started := 0 }
  (sendLoop s2.logIndex 0 s2).andThen fun s3 =>
    let s4 : TsState := { s3 with uart := s3.uart ++ printf "%s\r\n" [.str (some END_OF_LOG)] }
    .ret { s4 with logIndex := 0 }

/-! ## Runs of the timestamp module -/

/-- Passage of time: `d` ticks of the 1 MHz timer clock. `timer_init`
configures `TIM2` as a 32-bit up-counter (period `0xffffffff`), so an enabled
counter advances modulo `2 ^ 32` and a disabled one keeps its value. -/
def elapse (d : Nat) (s : TsState) : TsState :=
  if s.CEN then { s with CNT := (s.CNT + d) % 4294967296 } else s

/-- One thing that happens to the timestamp module: a call of its interface,
or a change of the hardware it observes. -/
inductive TsOp where
  | init (st : TimerInitStatus) (hw : TimerInitEffect)
  | start
  | stop
  | log (stepName : String)
  | sendOverUart
  /-- The timer clock ticks `d` times. -/
  | elapse (d : Nat)
  /-- Code outside the module leaves the clock-enable registers at `r`. -/
  | rcc (r : RCC_TypeDef)
deriving DecidableEq, Repr

/-- Effect of one operation. -/
def TsOp.exec : TsOp → TsState → Outcome TsState
  | .init st hw, s => pwr_timestamp_init st hw s
  | .start, s => .ret (pwr_timestamp_start s)
  | .stop, s => .ret (pwr_timestamp_stop s)
  | .log stepName, s => pwr_timestamp_log stepName s
  | .sendOverUart, s => pwr_timestamp_sendOverUart s
  | .elapse d, s => .ret (N6Power.elapse d s)
  | .rcc r, s => .ret { s with RCC := r }

/-- Effect of a sequence of operations, first to last; the run ends at the
first operation that does not return. -/
def runOps : List TsOp → TsState → Outcome TsState
  | [], s => .ret s
  | op :: ops, s => (op.exec s).andThen (runOps ops)

/-- Operations that may occur between a `start()` and the next
`start()`/`sendOverUart()` without resetting the log: `log`, `stop`, and
changes of the observed hardware. -/
def TsOp.inBracket : TsOp → Bool
  | .log _ => true
  | .stop => true
  | .elapse _ => true
  | .rcc _ => true
  | _ => false

/-- The labels of the `log` calls of a sequence, in call order. -/
def logLabels : List TsOp → List String
  | [] => []
  | .log stepName :: ops => stepName :: logLabels ops
  | _ :: ops => logLabels ops

/-- The number of `log` calls of a sequence. -/
def logCount (ops : List TsOp) : Nat := (logLabels ops).length

/-- The ticks that elapse over a sequence. -/
def totalElapsed : List TsOp → Nat
  | [] => 0
  | .elapse d :: ops => d + totalElapsed ops
  | _ :: ops => totalElapsed ops

/-- The hardware the log observes: timer counter, its enable bit, and the
clock-enable registers. -/
structure Hw where
  CNT : Nat
  CEN : Bool
  RCC : RCC_TypeDef
deriving DecidableEq, Repr

/-- The hardware part of a state. -/
def TsState.hw (s : TsState) : Hw :=
  { CNT := s.CNT, CEN := s.CEN, RCC := s.RCC }

/-- What the spec says each `log` call of a bracket captures, computed from
the hardware alone: the label of the call, the tick count at the call and the
fifteen register values at the call, one entry per call in call order. -/
def capturedEntries : List TsOp → Hw → List LogEntry_t
  | [], _ => []
  | .log stepName :: ops, h =>
    { name := some stepName, timestamp := h.CNT,
      divenr := h.RCC.DIVENR, miscenr := h.RCC.MISCENR, memenr := h.RCC.MEMENR,
      ahb1enr := h.RCC.AHB1ENR, ahb2enr := h.RCC.AHB2ENR, ahb3enr := h.RCC.AHB3ENR,
      ahb4enr := h.RCC.AHB4ENR, ahb5enr := h.RCC.AHB5ENR,
      apb1lenr := h.RCC.APB1ENR1, apb1henr := h.RCC.APB1ENR2,
      apb2enr := h.RCC.APB2ENR, apb3enr := h.RCC.APB3ENR,
      apb4lenr := h.RCC.APB4ENR1, apb4henr := h.RCC.APB4ENR2,
      apb5enr := h.RCC.APB5ENR } :: capturedEntries ops h
  | .elapse d :: ops, h =>
    capturedEntries ops (if h.CEN then { h with CNT := (h.CNT + d) % 4294967296 } else h)
  | .rcc r :: ops, h => capturedEntries ops { h with RCC := r }
  | .stop :: ops, h => capturedEntries ops { h with CEN := false }
  | _ :: ops, h => capturedEntries ops h

/-- Slot `i` of the log buffer (an all-zero entry outside the array). -/
def TsState.slot (s : TsState) (i : Nat) : LogEntry_t :=
  if h : i < MAX_LOG_ENTRIES then s.logBuffer ⟨i, h⟩ else LogEntry_t.zero

/-- The appended entries of a state: slots `0 .. logIndex - 1` in order. -/
def TsState.entries (s : TsState) : List LogEntry_t :=
  (List.range s.logIndex).map s.slot

/-- The state at reset: zero-initialised statics, timer stopped, nothing
printed. -/
def bootState : TsState :=
  { logBuffer := fun _ => LogEntry_t.zero
    tim_started := 0
    logIndex := 0
    htim2Init := { Prescaler := 0, CounterMode := .TIM_COUNTERMODE_UP, Period := 0 }
    CNT := 0
    CEN := false
    RCC := { DIVENR := 0, MISCENR := 0, MEMENR := 0, AHB1ENR := 0, AHB2ENR := 0,
             AHB3ENR := 0, AHB4ENR := 0, AHB5ENR := 0, APB1ENR1 := 0, APB1ENR2 := 0,
             APB2ENR := 0, APB3ENR := 0, APB4ENR1 := 0, APB4ENR2 := 0, APB5ENR := 0 }
    uart := [] }

/-- The record text the serial-output format of the spec prescribes for an
entry: start marker, label cut to 30 characters, tick count, the fifteen
`NAME=value` fields separated by colons, end marker, newline. -/
def recordText (e : LogEntry_t) : List Char :=
  "[SLP_SOL]".toList ++ (strArgText e.name).take 30 ++ ":".toList ++
  decimal e.timestamp ++ ":us:".toList ++
  "DIVENR=".toList ++ decimal e.divenr ++ ":".toList ++
  "MISCENR=".toList ++ decimal e.miscenr ++ ":".toList ++
  "MEMENR=".toList ++ decimal e.memenr ++ ":".toList ++
  "AHB1ENR=".toList ++ decimal e.ahb1enr ++ ":".toList ++
  "AHB2ENR=".toList ++ decimal e.ahb2enr ++ ":".toList ++
  "AHB3ENR=".toList ++ decimal e.ahb3enr ++ ":".toList ++
  "AHB4ENR=".toList ++ decimal e.ahb4enr ++ ":".toList ++
  "AHB5ENR=".toList ++ decimal e.ahb5enr ++ ":".toList ++
  "APB1LENR=".toList ++ decimal e.apb1lenr ++ ":".toList ++
  "APB1HENR=".toList ++ decimal e.apb1henr ++ ":".toList ++
  "APB2ENR=".toList ++ decimal e.apb2enr ++ ":".toList ++
  "APB3ENR=".toList ++ decimal e.apb3enr ++ ":".toList ++
  "APB4LENR=".toList ++ decimal e.apb4lenr ++ ":".toList ++
  "APB4HENR=".toList ++ decimal e.apb4henr ++ ":".toList ++
  "APB5ENR=".toList ++ decimal e.apb5enr ++ "[SLP_EOL]".toList ++ "\n".toList

/-- The sentinel line that closes a dump. -/
def sentinelLine : List Char := "[SLP_SOL]END_OF_LOG[SLP_EOL]\r\n".toList

/-- A sample of what the HAL calls of `timer_init` may leave in the timer:
count 7, counter enabled. -/
def sampleInitEffect : TimerInitEffect := { CNT := 7, CEN := true }

/-- A state in which the log was started and never stopped: reset, `init()`,
`start()`, five ticks. Its running flag is set and its counter reads 5. -/
def startedState : TsState :=
  (runOps [.init .allOk sampleInitEffect, .start, .elapse 5] bootState).state

/-- A state with two appended entries: reset, `start()`, two `log` calls. -/
def twoLoggedState : TsState :=
  (runOps [.start, .log "a", .log "b"] bootState).state

/-! ## `app_config.h` and `system_clock.h` -/

/-- The build-time switches of `app_config.h`, each documented as 0 or 1. -/
structure BuildConfig where
  POWER_OVERDRIVE : Bool
  CPU_FRQ_SCALE_DOWN : Bool
  NPU_FRQ_SCALING : Bool
  USE_PSRAM : Bool
deriving DecidableEq, Repr

/-- The value of `POWER_OVERDRIVE` the code is compiled with: `app_config.h`
redefines it to 0 when `NPU_FRQ_SCALING == 1`. -/
def BuildConfig.overdrive (c : BuildConfig) : Bool :=
  if c.NPU_FRQ_SCALING then false else c.POWER_OVERDRIVE

/-- State of a PLL requested from `HAL_RCC_OscConfig`. -/
inductive RCC_PLLState where
  | RCC_PLL_NONE
  | RCC_PLL_OFF
  | RCC_PLL_ON
  | RCC_PLL_BYPASS
deriving DecidableEq, Repr

/-- Reference clock of a PLL. -/
inductive RCC_PLLSource where
  | RCC_PLLSOURCE_HSI
  | RCC_PLLSOURCE_MSI
  | RCC_PLLSOURCE_HSE
  | RCC_PLLSOURCE_PIN
deriving DecidableEq, Repr

/-- Source selected by an IC clock mux. -/
inductive RCC_ICClkSource where
  | RCC_ICCLKSOURCE_PLL1
  | RCC_ICCLKSOURCE_PLL2
  | RCC_ICCLKSOURCE_PLL3
  | RCC_ICCLKSOURCE_PLL4
deriving DecidableEq, Repr

/-- `RCC_PLLInitTypeDef`. -/
structure RCC_PLLInitTypeDef where
  PLLState : RCC_PLLState
  PLLSource : RCC_PLLSource
  PLLN : Nat
  PLLM : Nat
  PLLP1 : Nat
  PLLP2 : Nat
  PLLFractional : Nat
deriving DecidableEq, Repr

/-- `FrequencyStep` (`system_clock.h`). -/
structure FrequencyStep where
  pll2Cfg : RCC_PLLInitTypeDef
  pll3Cfg : RCC_PLLInitTypeDef
  npufreq : Nat
  cpuClkSrc : RCC_ICClkSource
  npuClkSrc : RCC_ICClkSource
  npuRamsClkSrc : RCC_ICClkSource
  stepName : String
deriving DecidableEq, Repr

/-- `frequencySteps` (`main.c`). -/
def frequencySteps : List FrequencyStep :=
  [ { pll2Cfg := { PLLState := .RCC_PLL_ON, PLLSource := .RCC_PLLSOURCE_HSE, PLLN := 125,
                   PLLM := 6, PLLP1 := 1, PLLP2 := 1, PLLFractional := 0 }
      pll3Cfg := { PLLState := .RCC_PLL_ON, PLLSource := .RCC_PLLSOURCE_HSE, PLLN := 75,
                   PLLM := 4, PLLP1 := 1, PLLP2 := 1, PLLFractional := 0 }
      npufreq := 1000
      cpuClkSrc := .RCC_ICCLKSOURCE_PLL1
      npuClkSrc := .RCC_ICCLKSOURCE_PLL2
      npuRamsClkSrc := .RCC_ICCLKSOURCE_PLL3
      stepName := "nn_inference_1GHz" },
    { pll3Cfg := { PLLState := .RCC_PLL_ON, PLLSource := .RCC_PLLSOURCE_HSE, PLLN := 50,
                   PLLM := 2, PLLP1 := 2, PLLP2 := 1, PLLFractional := 0 }
      pll2Cfg := { PLLState := .RCC_PLL_ON, PLLSource := .RCC_PLLSOURCE_HSE, PLLN := 50,
                   PLLM := 3, PLLP1 := 1, PLLP2 := 1, PLLFractional := 0 }
      npufreq := 800
      cpuClkSrc := .RCC_ICCLKSOURCE_PLL3
      npuClkSrc := .RCC_ICCLKSOURCE_PLL2
      npuRamsClkSrc := .RCC_ICCLKSOURCE_PLL2
      stepName := "nn_inference_800MHz" },
    { pll3Cfg := { PLLState := .RCC_PLL_ON, PLLSource := .RCC_PLLSOURCE_HSE, PLLN := 50,
                   PLLM := 2, PLLP1 := 2, PLLP2 := 1, PLLFractional := 0 }
      pll2Cfg := { PLLState := .RCC_PLL_ON, PLLSource := .RCC_PLLSOURCE_HSE, PLLN := 50,
                   PLLM := 2, PLLP1 := 2, PLLP2 := 1, PLLFractional := 0 }
      npufreq := 600
      cpuClkSrc := .RCC_ICCLKSOURCE_PLL3
      npuClkSrc := .RCC_ICCLKSOURCE_PLL2
      npuRamsClkSrc := .RCC_ICCLKSOURCE_PLL2
      stepName := "nn_inference_600MHz" },
    { pll3Cfg := { PLLState := .RCC_PLL_ON, PLLSource := .RCC_PLLSOURCE_HSE, PLLN := 50,
                   PLLM := 2, PLLP1 := 2, PLLP2 := 1, PLLFractional := 0 }
      pll2Cfg := { PLLState := .RCC_PLL_ON, PLLSource := .RCC_PLLSOURCE_HSE, PLLN := 50,
                   PLLM := 3, PLLP1 := 2, PLLP2 := 1, PLLFractional := 0 }
      npufreq := 400
      cpuClkSrc := .RCC_ICCLKSOURCE_PLL3
      npuClkSrc := .RCC_ICCLKSOURCE_PLL2
      npuRamsClkSrc := .RCC_ICCLKSOURCE_PLL2
      stepName := "nn_inference_400MHz" },
    { pll3Cfg := { PLLState := .RCC_PLL_ON, PLLSource := .RCC_PLLSOURCE_HSE, PLLN := 50,
                   PLLM := 2, PLLP1 := 2, PLLP2 := 1, PLLFractional := 0 }
      pll2Cfg := { PLLState := .RCC_PLL_ON, PLLSource := .RCC_PLLSOURCE_HSE, PLLN := 50,
                   PLLM := 3, PLLP1 := 4, PLLP2 := 1, PLLFractional := 0 }
      npufreq := 200
      cpuClkSrc := .RCC_ICCLKSOURCE_PLL3
      npuClkSrc := .RCC_ICCLKSOURCE_PLL2
      npuRamsClkSrc := .RCC_ICCLKSOURCE_PLL2
      stepName := "nn_inference_200MHz" },
    { pll3Cfg := { PLLState := .RCC_PLL_ON, PLLSource := .RCC_PLLSOURCE_HSE, PLLN := 50,
                   PLLM := 2, PLLP1 := 2, PLLP2 := 1, PLLFractional := 0 }
      pll2Cfg := { PLLState := .RCC_PLL_ON, PLLSource := .RCC_PLLSOURCE_HSE, PLLN := 50,
                   PLLM := 3, PLLP1 := 4, PLLP2 := 2, PLLFractional := 0 }
      npufreq := 100
      cpuClkSrc := .RCC_ICCLKSOURCE_PLL3
      npuClkSrc := .RCC_ICCLKSOURCE_PLL2
      npuRamsClkSrc := .RCC_ICCLKSOURCE_PLL2
      stepName := "nn_inference_100MHz" } ]

/-! ## `main.c`: the application loop as a call trace

Each function of `main.c` that the application loop runs is modelled by the
sequence of events it performs when every call in it returns: no assertion
fails, no HAL call reports an error, and every awaited interrupt arrives. A
function defined in `main.c` contributes an `enter` event followed by the
events of its body; calls to other modules are single events. -/

/-- `GPIO_PinState`. -/
inductive GPIO_PinState where
  | GPIO_PIN_RESET
  | GPIO_PIN_SET
deriving DecidableEq, Repr

/-- One step of the call trace. -/
inductive Ev where
  /-- Control enters a function defined in `main.c`. -/
  | enter (fn : String)
  /-- A call of a function or function-like macro of another module. -/
  | call (fn : String)
  /-- Such a call, with the argument that tells its instances apart. -/
  | callWith (fn : String) (arg : String)
  /-- `HAL_GPIO_WritePin(port, GPIO_PIN_<pin>, st)`. -/
  | gpioWrite (port : String) (pin : Nat) (st : GPIO_PinState)
  /-- An assignment to a global variable. -/
  | assign (var : String) (value : Int)
  /-- `HAL_RCC_OscConfig` on a zeroed structure in which the listed PLLs are
  set to `RCC_PLL_OFF`. -/
  | oscConfigPllOff (pll2 : Bool) (pll3 : Bool)
  | sysclk_NpuFreqScaling (step : FrequencyStep)
  | pwr_timestamp_init
  | pwr_timestamp_start
  | pwr_timestamp_stop
  | pwr_timestamp_log (stepName : String)
  | pwr_timestamp_sendOverUart
deriving DecidableEq, Repr

/-- What the environment decides during one iteration of the loop. -/
structure CycleEnv where
  /-- How many times the wait loop of `cameraCapture` goes to sleep before the
  frame interrupt has made `cameraFrameReceived` nonzero. -/
  frameWaitSleeps : Nat
  /-- `number_output`, counted once at start-up. -/
  number_output : Nat
deriving DecidableEq, Repr

/-- `waitForUserTrigger`. -/
def waitForUserTrigger : List Ev :=
  [ .enter "waitForUserTrigger",
    .gpioWrite "GPIOG" 5 .GPIO_PIN_RESET,
    .callWith "HAL_NVIC_ClearPendingIRQ" "EXTI13_IRQn",
    .callWith "HAL_NVIC_DisableIRQ" "CSI_IRQn",
    .call "HAL_SuspendTick",
    .call "HAL_PWR_EnterSLEEPMode",
    .call "HAL_ResumeTick",
    .pwr_timestamp_init ]

/-- `cameraInit`. -/
def cameraInit : List Ev :=
  [ .enter "cameraInit",
    .call "CAM_Init",
    .pwr_timestamp_log "CAM init" ]

/-- `startStlinkPwr`. -/
def startStlinkPwr : List Ev :=
  [ .enter "startStlinkPwr",
    .gpioWrite "GPIOG" 5 .GPIO_PIN_SET,
    .pwr_timestamp_start,
    .pwr_timestamp_log "start timestamp" ]

/-- `cameraCapture`. -/
def cameraCapture (env : CycleEnv) : List Ev :=
  [ .enter "cameraCapture",
    .assign "cameraFrameReceived" 0,
    .call "__HAL_RCC_DCMIPP_CLK_SLEEP_ENABLE",
    .call "__HAL_RCC_CSI_CLK_SLEEP_ENABLE",
    .call "__HAL_RCC_AXISRAM1_MEM_CLK_SLEEP_ENABLE",
    .call "__HAL_RCC_AXISRAM2_MEM_CLK_SLEEP_ENABLE",
    .call "__HAL_RCC_FLEXRAM_MEM_CLK_SLEEP_ENABLE",
    .call "__HAL_RCC_TIM2_CLK_SLEEP_ENABLE",
    .call "__HAL_RCC_I2C1_CLK_SLEEP_ENABLE",
    .call "__HAL_RCC_I2C2_CLK_SLEEP_ENABLE",
    .callWith "CAM_NNPipe_Start" "nn_in_buffer, CMW_MODE_SNAPSHOT",
    .pwr_timestamp_log "camera started",
    .call "HAL_SuspendTick" ] ++
  List.replicate env.frameWaitSleeps (.call "HAL_PWR_EnterSLEEPMode") ++
  [ .call "HAL_ResumeTick",
    .pwr_timestamp_log "wait frame",
    .call "CAM_IspUpdate",
    .pwr_timestamp_log "ISP update" ]

/-- `cameraDeInit`. -/
def cameraDeInit : List Ev :=
  [ .enter "cameraDeInit",
    .call "CAM_DeInit",
    .pwr_timestamp_log "camera de-init" ]

/-- `externMem_config`. -/
def externMem_config (cfg : BuildConfig) : List Ev :=
  [ .enter "externMem_config" ] ++
  (if cfg.USE_PSRAM then
    [ .call "BSP_XSPI_RAM_Init",
      .call "BSP_XSPI_RAM_EnableMemoryMappedMode",
      .call "__HAL_RCC_XSPI1_CLK_SLEEP_ENABLE",
      .pwr_timestamp_log "External RAM init" ]
  else []) ++
  [ .call "BSP_XSPI_NOR_Init",
    .call "BSP_XSPI_NOR_EnableMemoryMappedMode",
    .call "__HAL_RCC_XSPI2_CLK_SLEEP_ENABLE",
    .pwr_timestamp_log "NOR flash init" ]

/-- One iteration of the loop of `runInference_freqScaling`. -/
def freqScalingStep (step : FrequencyStep) : List Ev :=
  [ .sysclk_NpuFreqScaling step,
    .call "npu_cache_invalidate",
    .call "SCB_CleanInvalidateDCache",
    .call "SCB_InvalidateICache",
    .pwr_timestamp_log "config npu clock scaling",
    .call "HAL_SuspendTick",
    .call "LL_ATON_RT_Main",
    .call "HAL_ResumeTick",
    .pwr_timestamp_log step.stepName ]

/-- `runInference_freqScaling`, over a step table. -/
def runInference_freqScaling (steps : List FrequencyStep) : List Ev :=
  .enter "runInference_freqScaling" :: (steps.map freqScalingStep).flatten

/-- `NPURam_enable`. -/
def NPURam_enable : List Ev :=
  [ .enter "NPURam_enable",
    .call "__HAL_RCC_AXISRAM3_MEM_CLK_SLEEP_ENABLE",
    .call "__HAL_RCC_AXISRAM4_MEM_CLK_SLEEP_ENABLE",
    .call "__HAL_RCC_AXISRAM5_MEM_CLK_SLEEP_ENABLE",
    .call "__HAL_RCC_AXISRAM6_MEM_CLK_SLEEP_ENABLE",
    .call "__HAL_RCC_AXISRAM3_MEM_CLK_ENABLE",
    .call "__HAL_RCC_AXISRAM4_MEM_CLK_ENABLE",
    .call "__HAL_RCC_AXISRAM5_MEM_CLK_ENABLE",
    .call "__HAL_RCC_AXISRAM6_MEM_CLK_ENABLE",
    .call "__HAL_RCC_RAMCFG_CLK_ENABLE",
    .call "__HAL_RCC_RAMCFG_CLK_SLEEP_ENABLE",
    .call "__HAL_RCC_RAMCFG_FORCE_RESET",
    .call "__HAL_RCC_RAMCFG_RELEASE_RESET",
    .callWith "HAL_RAMCFG_EnableAXISRAM" "RAMCFG_SRAM3_AXI",
    .callWith "HAL_RAMCFG_EnableAXISRAM" "RAMCFG_SRAM4_AXI",
    .callWith "HAL_RAMCFG_EnableAXISRAM" "RAMCFG_SRAM5_AXI",
    .callWith "HAL_RAMCFG_EnableAXISRAM" "RAMCFG_SRAM6_AXI" ]

/-- `NPURam_disable`. -/
def NPURam_disable : List Ev :=
  [ .enter "NPURam_disable",
    .callWith "HAL_RAMCFG_DisableAXISRAM" "RAMCFG_SRAM3_AXI",
    .callWith "HAL_RAMCFG_DisableAXISRAM" "RAMCFG_SRAM4_AXI",
    .callWith "HAL_RAMCFG_DisableAXISRAM" "RAMCFG_SRAM5_AXI",
    .callWith "HAL_RAMCFG_DisableAXISRAM" "RAMCFG_SRAM6_AXI",
    .call "__HAL_RCC_NPU_FORCE_RESET",
    .call "__HAL_RCC_NPU_RELEASE_RESET",
    .call "__HAL_RCC_NPU_CLK_DISABLE",
    .call "__HAL_RCC_NPU_CLK_SLEEP_DISABLE",
    .call "__HAL_RCC_AXISRAM3_MEM_CLK_DISABLE",
    .call "__HAL_RCC_AXISRAM4_MEM_CLK_DISABLE",
    .call "__HAL_RCC_AXISRAM5_MEM_CLK_DISABLE",
    .call "__HAL_RCC_AXISRAM6_MEM_CLK_DISABLE",
    .call "__HAL_RCC_AXISRAM3_MEM_CLK_SLEEP_DISABLE",
    .call "__HAL_RCC_AXISRAM4_MEM_CLK_SLEEP_DISABLE",
    .call "__HAL_RCC_AXISRAM5_MEM_CLK_SLEEP_DISABLE",
    .call "__HAL_RCC_AXISRAM6_MEM_CLK_SLEEP_DISABLE",
    .call "__HAL_RCC_RAMCFG_CLK_DISABLE",
    .call "__HAL_RCC_RAMCFG_CLK_SLEEP_DISABLE" ]

/-- `NPUCache_enable`. -/
def NPUCache_enable : List Ev :=
  [ .enter "NPUCache_enable",
    .call "npu_cache_init",
    .call "npu_cache_enable" ]

/-- `NPUCache_disable`. -/
def NPUCache_disable : List Ev :=
  [ .enter "NPUCache_disable",
    .call "npu_cache_disable",
    .call "npu_cache_deinit" ]

/-- `nn_inference`, with the step table the scaling build sweeps. -/
def nn_inference (cfg : BuildConfig) (steps : List FrequencyStep) : List Ev :=
  [ .enter "nn_inference",
    .call "sysclk_NpuClockConfig",
    .call "sysclk_NpuClockEnable",
    .call "sysclk_CpuClockConfig" ] ++
  (if cfg.CPU_FRQ_SCALE_DOWN then [ .call "sysclk_SetCpuMaxFreq" ] else []) ++
  NPURam_enable ++
  NPUCache_enable ++
  externMem_config cfg ++
  [ .call "LL_ATON_Input_Buffers_Info_Default",
    .call "LL_Buffer_len",
    .callWith "LL_ATON_Set_User_Input_Buffer_Default" "0, nn_in_buffer, nn_in_len",
    .pwr_timestamp_log "NPU and NPU Rams config" ] ++
  (if cfg.NPU_FRQ_SCALING then
    runInference_freqScaling steps
  else
    [ .call "HAL_SuspendTick",
      .call "LL_ATON_RT_Main",
      .call "HAL_ResumeTick",
      .pwr_timestamp_log "nn inference (dry run)",
      .call "HAL_SuspendTick",
      .call "LL_ATON_RT_Main",
      .call "HAL_ResumeTick",
      .pwr_timestamp_log "nn inference" ]) ++
  [ .call "sysclk_NpuClockDisable",
    .call "BSP_XSPI_NOR_DeInit" ] ++
  (if cfg.USE_PSRAM then [ .call "BSP_XSPI_RAM_DeInit" ] else []) ++
  [ .call "__HAL_RCC_XSPIM_CLK_DISABLE" ]

/-- `postProcessing`. -/
def postProcessing (cfg : BuildConfig) (env : CycleEnv) : List Ev :=
  [ .enter "postProcessing" ] ++
  (if cfg.overdrive then
    [ .call "HAL_RCC_GetClockConfig",
      .call "sysclk_NpuOverDrivePllDeinit" ]
  else []) ++
  [ .call "app_postprocess_run",
    .pwr_timestamp_log "post processing",
    .pwr_timestamp_stop ] ++
  List.replicate env.number_output (.call "SCB_InvalidateDCache_by_Addr") ++
  (if cfg.overdrive then [ .call "sysclk_NpuRamsOverDriveClockDeinit" ] else []) ++
  (if cfg.NPU_FRQ_SCALING then
    [ .call "HAL_RCC_GetClockConfig",
      .call "HAL_RCC_ClockConfig" ] ++
    (if cfg.CPU_FRQ_SCALE_DOWN then
      [ .call "sysclk_SetCpuMinFreq",
        .oscConfigPllOff true true ]
    else []) ++
    [ .oscConfigPllOff true false ]
  else [])

/-- `Console_Config`. -/
def Console_Config : List Ev :=
  [ .enter "Console_Config",
    .call "__HAL_RCC_USART1_CLK_ENABLE",
    .call "__HAL_RCC_GPIOE_CLK_ENABLE",
    .callWith "HAL_GPIO_Init" "GPIOE, GPIO_PIN_5 | GPIO_PIN_6",
    .callWith "HAL_UART_Init" "huart1" ]

/-- `sendTimestamp`. -/
def sendTimestamp : List Ev :=
  [ .enter "sendTimestamp" ] ++
  Console_Config ++
  [ .pwr_timestamp_sendOverUart ]

/-- `deInitIPs`. -/
def deInitIPs (cfg : BuildConfig) : List Ev :=
  [ .enter "deInitIPs",
    .gpioWrite "GPIOG" 5 .GPIO_PIN_RESET ] ++
  NPURam_disable ++
  NPUCache_disable ++
  (if cfg.CPU_FRQ_SCALE_DOWN then [ .call "sysclk_SetCpuMinFreq" ] else []) ++
  [ .callWith "HAL_UART_DeInit" "huart1",
    .callWith "HAL_GPIO_DeInit" "GPIOE, GPIO_PIN_5 | GPIO_PIN_6",
    .call "__HAL_RCC_USART1_CLK_DISABLE",
    .call "__HAL_RCC_GPIOE_CLK_DISABLE" ]

/-- The body of the application loop `while (1) { ... }` of `main`: one
pipeline cycle. -/
def appLoopBody (cfg : BuildConfig) (env : CycleEnv) : List Ev :=
  waitForUserTrigger ++
  startStlinkPwr ++
  cameraInit ++
  cameraCapture env ++
  cameraDeInit ++
  nn_inference cfg frequencySteps ++
  postProcessing cfg env ++
  sendTimestamp ++
  deInitIPs cfg

/-- The application loop, run for as many iterations as there are
environments, in order. -/
def appLoop (cfg : BuildConfig) : List CycleEnv → List Ev
  | [] => []
  | env :: envs => appLoopBody cfg env ++ appLoop cfg envs

/-- `PipelinePhase`: the phases of the sequencer named by the spec. -/
inductive PipelinePhase where
  | WaitTrigger
  | StartPower
  | CameraInit
  | Capture
  | CameraDeinit
  | Inference
  | Postprocess
  | SendTelemetry
  | Teardown
deriving DecidableEq, Repr

/-- The phase an event starts, if any: the entry into the function of `main.c`
that implements the phase. -/
def phaseStarted : Ev → Option PipelinePhase
  | .enter fn =>
    if fn = "waitForUserTrigger" then some .WaitTrigger
    else if fn = "startStlinkPwr" then some .StartPower
    else if fn = "cameraInit" then some .CameraInit
    else if fn = "cameraCapture" then some .Capture
    else if fn = "cameraDeInit" then some .CameraDeinit
    else if fn = "nn_inference" then some .Inference
    else if fn = "postProcessing" then some .Postprocess
    else if fn = "sendTimestamp" then some .SendTelemetry
    else if fn = "deInitIPs" then some .Teardown
    else none
  | _ => none

/-- The phases a trace goes through, in order. -/
def phasesOf (t : List Ev) : List PipelinePhase := t.filterMap phaseStarted

/-- The nine phases in the order of the spec. -/
def phaseCycle : List PipelinePhase :=
  [ .WaitTrigger, .StartPower, .CameraInit, .Capture, .CameraDeinit,
    .Inference, .Postprocess, .SendTelemetry, .Teardown ]

/-- The label an event passes to `pwr_timestamp_log`, if it is such a call. -/
def loggedLabel : Ev → Option String
  | .pwr_timestamp_log stepName => some stepName
  | _ => none

/-- The labels passed to `pwr_timestamp_log` along a trace, in call order. -/
def loggedLabels (t : List Ev) : List String := t.filterMap loggedLabel

/-- The ten checkpoint labels of scenario C of the spec, in the order of its
section 4.3. -/
def scenarioLabels : List String :=
  [ "start timestamp", "CAM init", "camera started", "wait frame", "ISP update",
    "camera de-init", "NPU and NPU Rams config", "nn inference (dry run)",
    "nn inference", "post processing" ]

/-! ## Views of the call trace -/

/-- What matters for the accounting of inferences: an invocation of the
inference entry point, or a checkpoint with its label. -/
inductive InfEv where
  | inference
  | checkpoint (label : String)
deriving DecidableEq, Repr

/-- The inference view of an event: `LL_ATON_RT_Main` calls and
`pwr_timestamp_log` calls are kept, everything else is dropped. -/
def inferenceView : Ev → Option InfEv
  | .call fn => if fn = "LL_ATON_RT_Main" then some .inference else none
  | .pwr_timestamp_log stepName => some (.checkpoint stepName)
  | _ => none

/-- The inference view of a trace. -/
def inferenceTrace (t : List Ev) : List InfEv := t.filterMap inferenceView

/-- The operation of the timestamp module an event performs, if any; the HAL
calls of `pwr_timestamp_init` are taken to succeed, as everywhere in the call
trace, and to leave `hw` in the timer. -/
def tsOpOf (hw : TimerInitEffect) : Ev → Option TsOp
  | .pwr_timestamp_init => some (.init .allOk hw)
  | .pwr_timestamp_start => some .start
  | .pwr_timestamp_stop => some .stop
  | .pwr_timestamp_log stepName => some (.log stepName)
  | .pwr_timestamp_sendOverUart => some .sendOverUart
  | _ => none

/-- The operations of the timestamp module along a trace, in order. -/
def tsOpsOf (hw : TimerInitEffect) (t : List Ev) : List TsOp := t.filterMap (tsOpOf hw)

/-- The two checkpoints `runInference_freqScaling` logs for one table row. -/
def stepLabels (step : FrequencyStep) : List String :=
  [ "config npu clock scaling", step.stepName ]

/-- The enable and disable procedures of the resource domains, and the entry
into `waitForUserTrigger` that closes a cycle. -/
def domainEvents : List Ev :=
  [ .enter "waitForUserTrigger",
    .call "sysclk_NpuClockEnable", .call "sysclk_NpuClockDisable",
    .enter "NPURam_enable", .enter "NPURam_disable",
    .enter "NPUCache_enable", .enter "NPUCache_disable",
    .call "BSP_XSPI_NOR_Init", .call "BSP_XSPI_NOR_DeInit",
    .call "BSP_XSPI_RAM_Init", .call "BSP_XSPI_RAM_DeInit",
    .enter "Console_Config", .callWith "HAL_UART_DeInit" "huart1",
    .call "CAM_Init", .call "CAM_DeInit" ]

/-- The domain view of a trace: its enable/disable events, in order. -/
def domainTrace (t : List Ev) : List Ev := t.filter (fun e => decide (e ∈ domainEvents))

/-- The enable/disable pairs of the resource domains a build uses. -/
def domainPairs (cfg : BuildConfig) : List (Ev × Ev) :=
  [ (.call "sysclk_NpuClockEnable", .call "sysclk_NpuClockDisable"),
    (.enter "NPURam_enable", .enter "NPURam_disable"),
    (.enter "NPUCache_enable", .enter "NPUCache_disable"),
    (.call "BSP_XSPI_NOR_Init", .call "BSP_XSPI_NOR_DeInit") ] ++
  (if cfg.USE_PSRAM then [ (.call "BSP_XSPI_RAM_Init", .call "BSP_XSPI_RAM_DeInit") ] else []) ++
  [ (.enter "Console_Config", .callWith "HAL_UART_DeInit" "huart1"),
    (.call "CAM_Init", .call "CAM_DeInit") ]

/-- The domain view of one cycle, as the order of the calls in `main.c` gives
it. -/
def domainCycle (cfg : BuildConfig) : List Ev :=
  [ .enter "waitForUserTrigger",
    .call "CAM_Init", .call "CAM_DeInit",
    .call "sysclk_NpuClockEnable",
    .enter "NPURam_enable", .enter "NPUCache_enable" ] ++
  (if cfg.USE_PSRAM then [ .call "BSP_XSPI_RAM_Init" ] else []) ++
  [ .call "BSP_XSPI_NOR_Init",
    .call "sysclk_NpuClockDisable",
    .call "BSP_XSPI_NOR_DeInit" ] ++
  (if cfg.USE_PSRAM then [ .call "BSP_XSPI_RAM_DeInit" ] else []) ++
  [ .enter "Console_Config",
    .enter "NPURam_disable", .enter "NPUCache_disable",
    .callWith "HAL_UART_DeInit" "huart1" ]

/-- A trace annotated with the state of an observer: each event is paired with
the observer state in which it happens, the observer moving by `f` over each
event. -/
def annotate {σ : Type} (f : σ → Ev → σ) : σ → List Ev → List (σ × Ev)
  | _, [] => []
  | st, e :: t => (st, e) :: annotate f (f st e) t

/-- The observer state at the end of a trace. -/
def observe {σ : Type} (f : σ → Ev → σ) (st : σ) (t : List Ev) : σ := t.foldl f st

/-- The phase a cycle is in after an event: the phase the event starts, or
else the phase it was in. -/
def phaseAfter (ph : Option PipelinePhase) (e : Ev) : Option PipelinePhase :=
  match phaseStarted e with
  | some p => some p
  | none => ph

/-- Observer of the trigger output: level of pin 5 of port G, and current
phase. -/
structure TriggerView where
  pin : GPIO_PinState
  phase : Option PipelinePhase
deriving DecidableEq, Repr

/-- Whether an event writes the trigger pin (`STLINKPWR_TGI_PORT`,
`STLINKPWR_TGI_PIN`). -/
def Ev.writesTrigger : Ev → Bool
  | .gpioWrite port pin _ => port = "GPIOG" && pin = 5
  | _ => false

/-- The trigger observer over one event: `HAL_GPIO_WritePin` on the trigger
pin sets its level; phase entries set the phase. -/
def TriggerView.step (v : TriggerView) (e : Ev) : TriggerView :=
  { pin := match e with
      | .gpioWrite port pin st => if port = "GPIOG" && pin = 5 then st else v.pin
      | _ => v.pin
    phase := phaseAfter v.phase e }

/-- Whether an event is a checkpoint or the dump of the log. -/
def Ev.isLogOrSend : Ev → Bool
  | .pwr_timestamp_log _ => true
  | .pwr_timestamp_sendOverUart => true
  | _ => false

/-- Observer of the NPU memories: whether `NPURam_enable` has run since the
last `NPURam_disable`, the same for the NPU cache, and the current phase. -/
structure NpuMemView where
  ramOn : Bool
  cacheOn : Bool
  phase : Option PipelinePhase
deriving DecidableEq, Repr

/-- The NPU-memory observer over one event. -/
def NpuMemView.step (v : NpuMemView) (e : Ev) : NpuMemView :=
  { ramOn :=
      if e = .enter "NPURam_enable" then true
      else if e = .enter "NPURam_disable" then false
      else v.ramOn
    cacheOn :=
      if e = .enter "NPUCache_enable" then true
      else if e = .enter "NPUCache_disable" then false
      else v.cacheOn
    phase := phaseAfter v.phase e }

/-- The NPU memories as `main` leaves them before the loop and as every cycle
leaves them: RAM and cache off. -/
def NpuMemView.off : NpuMemView :=
  { ramOn := false, cacheOn := false, phase := none }

/-- The four calls that switch the NPU memories. -/
def npuMemEvents : List Ev :=
  [ .enter "NPURam_enable", .enter "NPUCache_enable",
    .enter "NPURam_disable", .enter "NPUCache_disable" ]

/-- The default build of `app_config.h`: overdrive on, the rest off. -/
def defaultBuild : BuildConfig :=
  { POWER_OVERDRIVE := true, CPU_FRQ_SCALE_DOWN := false,
    NPU_FRQ_SCALING := false, USE_PSRAM := false }

/-- A build with the frequency sweep switched on. -/
def scalingBuild : BuildConfig :=
  { POWER_OVERDRIVE := true, CPU_FRQ_SCALE_DOWN := false,
    NPU_FRQ_SCALING := true, USE_PSRAM := false }

/-- An environment in which the frame arrives during the first sleep and the
network has one output. -/
def sampleEnv : CycleEnv := { frameWaitSleeps := 1, number_output := 1 }

/-- Whether the trace has an occurrence of `a` with an occurrence of `b`
somewhere after it. -/
def occursBefore (a b : Ev) : List Ev → Bool
  | [] => false
  | x :: t => if x = a then decide (b ∈ t) else occursBefore a b t

/-- The trigger view of a trace: the writes of the trigger pin and the call of
`pwr_timestamp_start`, in order. -/
def triggerTrace (t : List Ev) : List Ev :=
  t.filter (fun e => e.writesTrigger || decide (e = .pwr_timestamp_start))

/-- The part of a cycle between `startStlinkPwr` and `deInitIPs`. -/
def measuredPhases (cfg : BuildConfig) (env : CycleEnv) : List Ev :=
  cameraInit ++
  cameraCapture env ++
  cameraDeInit ++
  nn_inference cfg frequencySteps ++
  postProcessing cfg env ++
  sendTimestamp

/-- Events that leave the trigger observer's pin alone and do not start the
WaitTrigger phase. -/
def Ev.quietForTrigger (e : Ev) : Bool :=
  !e.writesTrigger && decide (phaseStarted e ≠ some .WaitTrigger)

/-- The NPU-memory view of a trace: the four calls that switch the NPU RAM and
the NPU cache, in order. -/
def npuMemTrace (t : List Ev) : List Ev := t.filter (fun e => decide (e ∈ npuMemEvents))

/-- The cycle from its start to the end of `NPURam_enable` (inside
`nn_inference`). -/
def untilRamEnabled (cfg : BuildConfig) (env : CycleEnv) : List Ev :=
  waitForUserTrigger ++
  startStlinkPwr ++
  cameraInit ++
  cameraCapture env ++
  cameraDeInit ++
  [ .enter "nn_inference",
    .call "sysclk_NpuClockConfig",
    .call "sysclk_NpuClockEnable",
    .call "sysclk_CpuClockConfig" ] ++
  (if cfg.CPU_FRQ_SCALE_DOWN then [ .call "sysclk_SetCpuMaxFreq" ] else []) ++
  NPURam_enable

/-- The cycle from `NPUCache_enable` (inside `nn_inference`) to the end of
`sendTimestamp`. -/
def fromCacheEnable (cfg : BuildConfig) (env : CycleEnv) : List Ev :=
  NPUCache_enable ++
  externMem_config cfg ++
  [ .call "LL_ATON_Input_Buffers_Info_Default",
    .call "LL_Buffer_len",
    .callWith "LL_ATON_Set_User_Input_Buffer_Default" "0, nn_in_buffer, nn_in_len",
    .pwr_timestamp_log "NPU and NPU Rams config" ] ++
  (if cfg.NPU_FRQ_SCALING then
    runInference_freqScaling frequencySteps
  else
    [ .call "HAL_SuspendTick",
      .call "LL_ATON_RT_Main",
      .call "HAL_ResumeTick",
      .pwr_timestamp_log "nn inference (dry run)",
      .call "HAL_SuspendTick",
      .call "LL_ATON_RT_Main",
      .call "HAL_ResumeTick",
      .pwr_timestamp_log "nn inference" ]) ++
  [ .call "sysclk_NpuClockDisable",
    .call "BSP_XSPI_NOR_DeInit" ] ++
  (if cfg.USE_PSRAM then [ .call "BSP_XSPI_RAM_DeInit" ] else []) ++
  [ .call "__HAL_RCC_XSPIM_CLK_DISABLE" ] ++
  postProcessing cfg env ++
  sendTimestamp

/-! ## `system_clock.c`: the frequency-scaling step

The clock tree is modelled by the registers the scaling code programs: the
regulator mode, the PLL settings and the source/divider selections of the CPU,
AXI, NPU and NPU-RAM clocks. Each function is the sequence of HAL/BSP calls it
makes, every call paired with the state it leaves; as in the call trace of
`main.c`, every call is taken to succeed, so no `assert(ret == HAL_OK)`
fails. -/

/-- `SMPSVoltage_TypeDef`: setting of the external regulator. -/
inductive SMPSVoltage_TypeDef where
  | SMPS_VOLTAGE_NOMINAL
  | SMPS_VOLTAGE_OVERDRIVE
deriving DecidableEq, Repr

/-- Source of the CPU clock. -/
inductive RCC_CPUClkSource where
  | RCC_CPUCLKSOURCE_HSI
  | RCC_CPUCLKSOURCE_MSI
  | RCC_CPUCLKSOURCE_HSE
  | RCC_CPUCLKSOURCE_IC1
deriving DecidableEq, Repr

/-- Source of the system bus clocks. -/
inductive RCC_SYSClkSource where
  | RCC_SYSCLKSOURCE_HSI
  | RCC_SYSCLKSOURCE_MSI
  | RCC_SYSCLKSOURCE_HSE
  | RCC_SYSCLKSOURCE_IC2_IC6_IC11
deriving DecidableEq, Repr

/-- The flags of `RCC_ClkInitTypeDef.ClockType`. -/
inductive RCC_ClockType where
  | RCC_CLOCKTYPE_CPUCLK
  | RCC_CLOCKTYPE_SYSCLK
  | RCC_CLOCKTYPE_HCLK
  | RCC_CLOCKTYPE_PCLK1
  | RCC_CLOCKTYPE_PCLK2
  | RCC_CLOCKTYPE_PCLK4
  | RCC_CLOCKTYPE_PCLK5
deriving DecidableEq, Repr

/-- `RCC_ICInitTypeDef`: source and divider of one IC clock. -/
structure RCC_ICInitTypeDef where
  ClockSelection : RCC_ICClkSource
  ClockDivider : Nat
deriving DecidableEq, Repr

/-- The fields of `RCC_ClkInitTypeDef` the scaling code reads or writes. -/
structure RCC_ClkInitTypeDef where
  ClockType : List RCC_ClockType
  CPUCLKSource : RCC_CPUClkSource
  SYSCLKSource : RCC_SYSClkSource
  IC1Selection : RCC_ICInitTypeDef
  IC2Selection : RCC_ICInitTypeDef
  IC6Selection : RCC_ICInitTypeDef
  IC11Selection : RCC_ICInitTypeDef
deriving DecidableEq, Repr

/-- The PLL fields of `RCC_OscInitTypeDef`. -/
structure RCC_OscInitTypeDef where
  PLL1 : RCC_PLLInitTypeDef
  PLL2 : RCC_PLLInitTypeDef
  PLL3 : RCC_PLLInitTypeDef
  PLL4 : RCC_PLLInitTypeDef
deriving DecidableEq, Repr

/-- A zero-initialised `RCC_PLLInitTypeDef`: state `RCC_PLL_NONE`. -/
def RCC_PLLInitTypeDef.zero : RCC_PLLInitTypeDef :=
  { PLLState := .RCC_PLL_NONE, PLLSource := .RCC_PLLSOURCE_HSI, PLLN := 0, PLLM := 0,
    PLLP1 := 0, PLLP2 := 0, PLLFractional := 0 }

/-- `RCC_OscInitTypeDef RCC_OscInitStruct = {0}`. -/
def RCC_OscInitTypeDef.zero : RCC_OscInitTypeDef :=
  { PLL1 := .zero, PLL2 := .zero, PLL3 := .zero, PLL4 := .zero }

/-- The clock tree and the regulator. -/
structure ClkState where
  /-- Setting of the external regulator. -/
  smps : SMPSVoltage_TypeDef
  PLL1 : RCC_PLLInitTypeDef
  PLL2 : RCC_PLLInitTypeDef
  PLL3 : RCC_PLLInitTypeDef
  PLL4 : RCC_PLLInitTypeDef
  CPUCLKSource : RCC_CPUClkSource
  SYSCLKSource : RCC_SYSClkSource
  /-- IC1: CPU clock. -/
  IC1 : RCC_ICInitTypeDef
  /-- IC2: AXI clock. -/
  IC2 : RCC_ICInitTypeDef
  /-- IC6: NPU clock. -/
  IC6 : RCC_ICInitTypeDef
  /-- IC11: clock of the NPU RAMs (AXISRAM3/4/5/6). -/
  IC11 : RCC_ICInitTypeDef
deriving DecidableEq, Repr

/-- Frequency of the HSE oscillator, in MHz (`HSE (48 MHz)` in the clock-tree
comment of `system_clock.c`). -/
def HSE_MHZ : Nat := 48

/-- Output frequency in MHz of a PLL fed by the HSE, as the comments of
`system_clock.c` compute it (`PLL3 = 48 x 50 / 2 / 2 = 600MHz`): `HSE * PLLN /
(PLLM * PLLP1 * PLLP2)`. -/
def pllMHz (c : RCC_PLLInitTypeDef) : Nat :=
  HSE_MHZ * c.PLLN / (c.PLLM * c.PLLP1 * c.PLLP2)

/-- Whether the division in `pllMHz` is exact. -/
def pllExact (c : RCC_PLLInitTypeDef) : Bool :=
  (HSE_MHZ * c.PLLN) % (c.PLLM * c.PLLP1 * c.PLLP2) = 0

/-- `PLL1` as `sysclk_SystemClockConfig` programs it, in the nominal and in
the overdrive variant alike (`PLL1 = 48 * 50 / 3 = 800MHz`). -/
def systemPLL1 : RCC_PLLInitTypeDef :=
  { PLLState := .RCC_PLL_ON, PLLSource := .RCC_PLLSOURCE_HSE, PLLM := 3, PLLN := 50,
    PLLFractional := 0, PLLP1 := 1, PLLP2 := 1 }

/-- The PLL setting behind an IC source. -/
def ClkState.pllOf (st : ClkState) : RCC_ICClkSource → RCC_PLLInitTypeDef
  | .RCC_ICCLKSOURCE_PLL1 => st.PLL1
  | .RCC_ICCLKSOURCE_PLL2 => st.PLL2
  | .RCC_ICCLKSOURCE_PLL3 => st.PLL3
  | .RCC_ICCLKSOURCE_PLL4 => st.PLL4

/-- Frequency in MHz an IC clock delivers: PLL output over the IC divider. -/
def ClkState.icMHz (st : ClkState) (ic : RCC_ICInitTypeDef) : Nat :=
  pllMHz (st.pllOf ic.ClockSelection) / ic.ClockDivider

/-- NPU clock frequency when the NPU runs from IC6. -/
def ClkState.npuMHz (st : ClkState) : Nat := st.icMHz st.IC6

/-- CPU clock frequency when the CPU runs from IC1. -/
def ClkState.cpuMHz (st : ClkState) : Nat := st.icMHz st.IC1

/-- Modelled from the spec: `HAL_RCC_GetClockConfig` belongs to the vendor
HAL; it reads the current clock selections back into the structure. -/
def HAL_RCC_GetClockConfig (st : ClkState) : RCC_ClkInitTypeDef :=
  { ClockType := [ .RCC_CLOCKTYPE_CPUCLK, .RCC_CLOCKTYPE_SYSCLK, .RCC_CLOCKTYPE_HCLK,
      .RCC_CLOCKTYPE_PCLK1, .RCC_CLOCKTYPE_PCLK2, .RCC_CLOCKTYPE_PCLK4, .RCC_CLOCKTYPE_PCLK5 ]
    CPUCLKSource := st.CPUCLKSource
    SYSCLKSource := st.SYSCLKSource
    IC1Selection := st.IC1
    IC2Selection := st.IC2
    IC6Selection := st.IC6
    IC11Selection := st.IC11 }

/-- Modelled from the spec: `HAL_RCC_ClockConfig` belongs to the vendor HAL;
it "redirects the clock muxes": for each clock type named in `ClockType` it
takes over the source, and with it the IC selections that source uses. -/
def HAL_RCC_ClockConfig (c : RCC_ClkInitTypeDef) (st : ClkState) : ClkState :=
  let st1 : ClkState :=
    if .RCC_CLOCKTYPE_CPUCLK ∈ c.ClockType then
      { st with
        CPUCLKSource := c.CPUCLKSource
        IC1 := if c.CPUCLKSource = .RCC_CPUCLKSOURCE_IC1 then c.IC1Selection else st.IC1 }
    else st
  if .RCC_CLOCKTYPE_SYSCLK ∈ c.ClockType then
    if c.SYSCLKSource = .RCC_SYSCLKSOURCE_IC2_IC6_IC11 then
      { st1 with
        SYSCLKSource := c.SYSCLKSource
        IC2 := c.IC2Selection
        IC6 := c.IC6Selection
        IC11 := c.IC11Selection }
    else { st1 with SYSCLKSource := c.SYSCLKSource }
  else st1

/-- Modelled from the spec: `HAL_RCC_OscConfig` belongs to the vendor HAL; it
"programs the PLL configuration": every PLL whose requested state is not
`RCC_PLL_NONE` takes the requested setting. -/
def HAL_RCC_OscConfig (o : RCC_OscInitTypeDef) (st : ClkState) : ClkState :=
  { st with
    PLL1 := if o.PLL1.PLLState = .RCC_PLL_NONE then st.PLL1 else o.PLL1
    PLL2 := if o.PLL2.PLLState = .RCC_PLL_NONE then st.PLL2 else o.PLL2
    PLL3 := if o.PLL3.PLLState = .RCC_PLL_NONE then st.PLL3 else o.PLL3
    PLL4 := if o.PLL4.PLLState = .RCC_PLL_NONE then st.PLL4 else o.PLL4 }

/-- Modelled from the spec: `BSP_SMPS_Init` belongs to the board support
package; it sets "the external supply-voltage regulator" to the given mode. -/
def BSP_SMPS_Init (voltMode : SMPSVoltage_TypeDef) (st : ClkState) : ClkState :=
  { st with smps := voltMode }

/-- One HAL/BSP call of the scaling code, with its argument. -/
inductive ClkAction where
  | HAL_RCC_GetClockConfig
  | HAL_RCC_ClockConfig (c : RCC_ClkInitTypeDef)
  | HAL_RCC_OscConfig (o : RCC_OscInitTypeDef)
  | BSP_SMPS_Init (voltMode : SMPSVoltage_TypeDef)
  | HAL_Delay (ms : Nat)
deriving DecidableEq, Repr

/-- The kind of a call, without its argument (the regulator mode excepted). -/
inductive ClkKind where
  | getClockConfig
  | clockConfig
  | oscConfig
  | smpsInit (voltMode : SMPSVoltage_TypeDef)
  | delay
deriving DecidableEq, Repr

/-- The kind of a call. -/
def ClkAction.kind : ClkAction → ClkKind
  | .HAL_RCC_GetClockConfig => .getClockConfig
  | .HAL_RCC_ClockConfig _ => .clockConfig
  | .HAL_RCC_OscConfig _ => .oscConfig
  | .BSP_SMPS_Init voltMode => .smpsInit voltMode
  | .HAL_Delay _ => .delay

/-- The calls of a piece of clock code, each with the state it leaves. -/
abbrev ClkTrace := List (ClkAction × ClkState)

/-- The state at the end of a clock trace that started in `st`. -/
def lastClk (st : ClkState) (t : ClkTrace) : ClkState :=
  match t.getLast? with
  | some p => p.2
  | none => st

/-- `configPowerMode`. -/
def configPowerMode (voltMode : SMPSVoltage_TypeDef) (st : ClkState) : ClkTrace :=
  [ (.BSP_SMPS_Init voltMode, BSP_SMPS_Init voltMode st),
    (.HAL_Delay 10, BSP_SMPS_Init voltMode st) ]

/-- The structure `npuFrqScaling_switchClocksToPll1` passes to
`HAL_RCC_ClockConfig`: the current configuration with CPU, NPU and NPU-RAM
clocks put on PLL1. -/
def switchClkInit (st : ClkState) : RCC_ClkInitTypeDef :=
  { HAL_RCC_GetClockConfig st with
    SYSCLKSource := .RCC_SYSCLKSOURCE_IC2_IC6_IC11
    ClockType := [ .RCC_CLOCKTYPE_CPUCLK, .RCC_CLOCKTYPE_SYSCLK ]
    IC6Selection := { ClockSelection := .RCC_ICCLKSOURCE_PLL1, ClockDivider := 200 }
    IC11Selection := { ClockSelection := .RCC_ICCLKSOURCE_PLL1, ClockDivider := 200 }
    CPUCLKSource := .RCC_CPUCLKSOURCE_IC1
    IC1Selection := { ClockSelection := .RCC_ICCLKSOURCE_PLL1, ClockDivider := 2 } }

/-- `npuFrqScaling_switchClocksToPll1`. -/
def npuFrqScaling_switchClocksToPll1 (st : ClkState) : ClkTrace :=
  [ (.HAL_RCC_GetClockConfig, st),
    (.HAL_RCC_ClockConfig (switchClkInit st), HAL_RCC_ClockConfig (switchClkInit st) st) ]

/-- The structure `npuFrqScaling_configurePlls` passes to `HAL_RCC_OscConfig`:
zeroed, with the step's settings for PLL2 and PLL3. -/
def stepOscInit (step : FrequencyStep) : RCC_OscInitTypeDef :=
  { RCC_OscInitTypeDef.zero with PLL2 := step.pll2Cfg, PLL3 := step.pll3Cfg }

/-- The structure `npuFrqScaling_configurePlls` passes to
`HAL_RCC_ClockConfig`: the current configuration with CPU, NPU and NPU-RAM
clocks put on the step's sources, undivided. -/
def stepClkInit (step : FrequencyStep) (st : ClkState) : RCC_ClkInitTypeDef :=
  { HAL_RCC_GetClockConfig st with
    SYSCLKSource := .RCC_SYSCLKSOURCE_IC2_IC6_IC11
    ClockType := [ .RCC_CLOCKTYPE_CPUCLK, .RCC_CLOCKTYPE_SYSCLK ]
    CPUCLKSource := .RCC_CPUCLKSOURCE_IC1
    IC1Selection := { ClockSelection := step.cpuClkSrc, ClockDivider := 1 }
    IC6Selection := { ClockSelection := step.npuClkSrc, ClockDivider := 1 }
    IC11Selection := { ClockSelection := step.npuRamsClkSrc, ClockDivider := 1 } }

/-- `npuFrqScaling_configurePlls`. -/
def npuFrqScaling_configurePlls (step : FrequencyStep) (st : ClkState) : ClkTrace :=
  let st1 := HAL_RCC_OscConfig (stepOscInit step) st
  [ (.HAL_RCC_OscConfig (stepOscInit step), st1),
    (.HAL_RCC_GetClockConfig, st1),
    (.HAL_RCC_ClockConfig (stepClkInit step st1), HAL_RCC_ClockConfig (stepClkInit step st1) st1) ]

/-- `sysclk_NpuFreqScaling`. -/
def sysclk_NpuFreqScaling (step : FrequencyStep) (st : ClkState) : ClkTrace :=
  let t1 := npuFrqScaling_switchClocksToPll1 st
  let s1 := lastClk st t1
  let t2 := if step.npufreq = 1000 then configPowerMode .SMPS_VOLTAGE_OVERDRIVE s1 else []
  let s2 := lastClk s1 t2
  let t3 := npuFrqScaling_configurePlls step s2
  let s3 := lastClk s2 t3
  let t4 := if step.npufreq < 1000 then configPowerMode .SMPS_VOLTAGE_NOMINAL s3 else []
  t1 ++ t2 ++ t3 ++ t4

/-- An event of the sweep with the clock code spelled out: a HAL/BSP call of
`sysclk_NpuFreqScaling`, or an event of `main.c`. -/
inductive SweepEv where
  | clk (a : ClkAction)
  | ev (e : Ev)
deriving DecidableEq, Repr

/-- The trace of `main.c` with every `sysclk_NpuFreqScaling` call replaced by
the calls it makes, each event paired with the clock state after it. -/
def expandSweep : List Ev → ClkState → List (SweepEv × ClkState)
  | [], _ => []
  | .sysclk_NpuFreqScaling step :: t, st =>
    (sysclk_NpuFreqScaling step st).map (fun p => (SweepEv.clk p.1, p.2)) ++
      expandSweep t (lastClk st (sysclk_NpuFreqScaling step st))
  | e :: t, st => (.ev e, st) :: expandSweep t st

/-- The clock state at the end of a trace of `main.c`. -/
def clkAfter : List Ev → ClkState → ClkState
  | [], st => st
  | .sysclk_NpuFreqScaling step :: t, st =>
    clkAfter t (lastClk st (sysclk_NpuFreqScaling step st))
  | _ :: t, st => clkAfter t st

/-- The clock tree `sysclk_SystemClockConfig` sets up in a build without
overdrive and without CPU scale-down (`sysclk_SystemClockConfig_Nominal`):
PLL1 at 800 MHz, PLL3 at 600 MHz, CPU on PLL3, AXI on PLL1/2, NPU and NPU RAMs
on PLL1; the regulator is left in its nominal setting. -/
def nominalClkState : ClkState :=
  { smps := .SMPS_VOLTAGE_NOMINAL
    PLL1 := systemPLL1
    PLL2 := { RCC_PLLInitTypeDef.zero with PLLState := .RCC_PLL_OFF }
    PLL3 := { PLLState := .RCC_PLL_ON, PLLSource := .RCC_PLLSOURCE_HSE, PLLM := 2, PLLN := 50,
              PLLFractional := 0, PLLP1 := 2, PLLP2 := 1 }
    PLL4 := .zero
    CPUCLKSource := .RCC_CPUCLKSOURCE_IC1
    SYSCLKSource := .RCC_SYSCLKSOURCE_IC2_IC6_IC11
    IC1 := { ClockSelection := .RCC_ICCLKSOURCE_PLL3, ClockDivider := 1 }
    IC2 := { ClockSelection := .RCC_ICCLKSOURCE_PLL1, ClockDivider := 2 }
    IC6 := { ClockSelection := .RCC_ICCLKSOURCE_PLL1, ClockDivider := 1 }
    IC11 := { ClockSelection := .RCC_ICCLKSOURCE_PLL1, ClockDivider := 1 } }

/-- A table row for 900 MHz: PLL2 = 48 x 75 / 4 = 900 MHz to the NPU, CPU at
600 MHz. -/
def step900 : FrequencyStep :=
  { pll2Cfg := { PLLState := .RCC_PLL_ON, PLLSource := .RCC_PLLSOURCE_HSE, PLLN := 75,
                 PLLM := 4, PLLP1 := 1, PLLP2 := 1, PLLFractional := 0 }
    pll3Cfg := { PLLState := .RCC_PLL_ON, PLLSource := .RCC_PLLSOURCE_HSE, PLLN := 50,
                 PLLM := 2, PLLP1 := 2, PLLP2 := 1, PLLFractional := 0 }
    npufreq := 900
    cpuClkSrc := .RCC_ICCLKSOURCE_PLL3
    npuClkSrc := .RCC_ICCLKSOURCE_PLL2
    npuRamsClkSrc := .RCC_ICCLKSOURCE_PLL2
    stepName := "nn_inference_900MHz" }

/-- The clock state after `npuFrqScaling_switchClocksToPll1`. -/
def afterSwitch (st : ClkState) : ClkState :=
  HAL_RCC_ClockConfig (switchClkInit st) st

/-- The clock state in which `sysclk_NpuFreqScaling` calls
`npuFrqScaling_configurePlls`: after the switch to PLL1 and, for a 1000 MHz
step, after the regulator was raised. -/
def beforeConfigurePlls (step : FrequencyStep) (st : ClkState) : ClkState :=
  if step.npufreq = 1000 then BSP_SMPS_Init .SMPS_VOLTAGE_OVERDRIVE (afterSwitch st)
  else afterSwitch st

/-- The clock state after the `HAL_RCC_OscConfig` call of
`npuFrqScaling_configurePlls`. -/
def afterOscConfig (step : FrequencyStep) (st : ClkState) : ClkState :=
  HAL_RCC_OscConfig (stepOscInit step) (beforeConfigurePlls step st)

/-- The clock state after `npuFrqScaling_configurePlls`. -/
def afterConfigurePlls (step : FrequencyStep) (st : ClkState) : ClkState :=
  HAL_RCC_ClockConfig (stepClkInit step (afterOscConfig step st)) (afterOscConfig step st)

/-- The clock state after `sysclk_NpuFreqScaling`. -/
def afterStep (step : FrequencyStep) (st : ClkState) : ClkState :=
  if step.npufreq < 1000 then BSP_SMPS_Init .SMPS_VOLTAGE_NOMINAL (afterConfigurePlls step st)
  else afterConfigurePlls step st

/-- The events of one sweep step that follow `sysclk_NpuFreqScaling`. -/
def afterScalingEvents (step : FrequencyStep) : List SweepEv :=
  [ .ev (.call "npu_cache_invalidate"),
    .ev (.call "SCB_CleanInvalidateDCache"),
    .ev (.call "SCB_InvalidateICache"),
    .ev (.pwr_timestamp_log "config npu clock scaling"),
    .ev (.call "HAL_SuspendTick"),
    .ev (.call "LL_ATON_RT_Main"),
    .ev (.call "HAL_ResumeTick"),
    .ev (.pwr_timestamp_log step.stepName) ]

/-- The regulator setting during `npuFrqScaling_configurePlls`: overdrive for
a 1000 MHz step, unchanged otherwise. -/
def smpsDuringConfigure (step : FrequencyStep) (st : ClkState) : SMPSVoltage_TypeDef :=
  if step.npufreq = 1000 then .SMPS_VOLTAGE_OVERDRIVE else st.smps

/-- The regulator setting after `sysclk_NpuFreqScaling`: nominal below
1000 MHz, overdrive at 1000 MHz, unchanged above. -/
def smpsAfterStep (step : FrequencyStep) (st : ClkState) : SMPSVoltage_TypeDef :=
  if step.npufreq < 1000 then .SMPS_VOLTAGE_NOMINAL else smpsDuringConfigure step st

/-- The setting of a PLL after `HAL_RCC_OscConfig` was asked for `req`. -/
def pllAfter (req old : RCC_PLLInitTypeDef) : RCC_PLLInitTypeDef :=
  if req.PLLState = .RCC_PLL_NONE then old else req

/-- `assert(e)` of `<assert.h>`: the program stops when `e` is zero. -/
def assert {σ : Type} (e : Int) (s : σ) : Outcome σ :=
  if e = 0 then .halt .assertion s else .ret s

/-- The value of a C comparison. -/
def cBool (b : Bool) : Int := if b then 1 else 0

def HAL_OK : Int := 0

def ASPECT_RATIO_CROP : Nat := 1

def ASPECT_RATIO_FIT : Nat := 2

def ASPECT_RATIO_FULLSCREEN : Nat := 3

def ASPECT_RATIO_MODE : Nat := ASPECT_RATIO_CROP

def CAPTURE_BPP : Nat := 2

def GAMMA_CONVERSION : Nat := 0

inductive CMW_Aspect_Ratio_Mode_t where
  | CMW_Aspect_ratio_crop
  | CMW_Aspect_ratio_fit
  | CMW_Aspect_ratio_fullscreen
deriving DecidableEq, Repr

/-- The fields of `CMW_CameraInit_t` that `DCMIPP_PipeInitDisplay` reads. -/
structure CMW_CameraInit_t where
  width : Nat
  height : Nat
deriving DecidableEq, Repr

/-- `CMW_DCMIPP_Conf_t`; `mode` is `none` while `aspect_ratio` is
uninitialised. -/
structure CMW_DCMIPP_Conf_t where
  output_width : Nat
  output_height : Nat
  output_format : String
  output_bpp : Nat
  mode : Option CMW_Aspect_Ratio_Mode_t
  enable_swap : Nat
  enable_gamma_conversion : Nat
deriving DecidableEq, Repr

/-- What `CMW_CAMERA_SetPipeConfig` answers: its return code and the pitch it
stores through its last argument. -/
structure PipeConfigAnswer where
  ret : Int
  pitch : Nat
deriving DecidableEq, Repr

/-- The configuration `DCMIPP_PipeInitDisplay` builds for pipe 1 (the
`#else` branch of `ASPECT_RATIO_MODE == ASPECT_RATIO_FULLSCREEN` is the one
compiled). -/
def displayPipeConf (camConf : CMW_CameraInit_t) : CMW_DCMIPP_Conf_t :=
  let aspect_ratio : Option CMW_Aspect_Ratio_Mode_t :=
    if ASPECT_RATIO_MODE = ASPECT_RATIO_CROP then some .CMW_Aspect_ratio_crop
    else if ASPECT_RATIO_MODE = ASPECT_RATIO_FIT then some .CMW_Aspect_ratio_fit
    else if ASPECT_RATIO_MODE = ASPECT_RATIO_FULLSCREEN then some .CMW_Aspect_ratio_fullscreen
    else none
  let lcd_bg_height := if camConf.height ≤ 480 then camConf.height else 480
  let lcd_bg_width := if camConf.height ≤ 480 then camConf.height else 480
  { output_width := lcd_bg_width
    output_height := lcd_bg_height
    output_format := "DCMIPP_PIXEL_PACKER_FORMAT_RGB565_1"
    output_bpp := CAPTURE_BPP
    mode := aspect_ratio
    enable_swap := 0
    enable_gamma_conversion := GAMMA_CONVERSION }

/-- `DCMIPP_PipeInitDisplay`: the outcome carries the configuration that was
handed to `CMW_CAMERA_SetPipeConfig`. The product is taken in 32 bits. -/
def DCMIPP_PipeInitDisplay (camConf : CMW_CameraInit_t)
    (setPipeConfig : CMW_DCMIPP_Conf_t → PipeConfigAnswer) : Outcome CMW_DCMIPP_Conf_t :=
  let dcmipp_conf := displayPipeConf camConf
  let answer := setPipeConfig dcmipp_conf
  (assert (cBool (decide (answer.ret = HAL_OK))) dcmipp_conf).andThen fun c =>
    if (c.output_width * c.output_bpp) % 2 ^ 32 ≠ answer.pitch then
      assert 1 c
    else .ret c

/-- A camera of 2592 x 1944 pixels. -/
def sampleCamera : CMW_CameraInit_t := { width := 2592, height := 1944 }

/-- A middleware that reports success and a pitch of 1024 bytes. -/
def pitch1024 (_ : CMW_DCMIPP_Conf_t) : PipeConfigAnswer := { ret := HAL_OK, pitch := 1024 }

/-! ## `main.c`: reset and clock controls of the NPU and its memories

The macros `__HAL_RCC_*` and the functions `HAL_RAMCFG_*` belong to the vendor
HAL. They are modelled by the control each of them names: a reset line that is
asserted or released, a clock that is enabled or disabled in run mode or in
sleep mode, a memory bank that is enabled or disabled. -/

/-- The controls that `NPURam_enable`, `NPURam_disable`,
`sysclk_NpuClockEnable` and `sysclk_NpuClockDisable` act on. -/
structure NpuControls where
  /-- Reset line of the NPU: `true` while it is asserted. -/
  npuReset : Bool
  npuClk : Bool
  npuClkSleep : Bool
  /-- Reset line of the RAM controller (RAMCFG). -/
  ramcfgReset : Bool
  ramcfgClk : Bool
  ramcfgClkSleep : Bool
  /-- Banks AXISRAM3..6 as `HAL_RAMCFG_EnableAXISRAM` / `DisableAXISRAM` leave
  them. -/
  axisram3 : Bool
  axisram4 : Bool
  axisram5 : Bool
  axisram6 : Bool
  axisram3Clk : Bool
  axisram4Clk : Bool
  axisram5Clk : Bool
  axisram6Clk : Bool
  axisram3ClkSleep : Bool
  axisram4ClkSleep : Bool
  axisram5ClkSleep : Bool
  axisram6ClkSleep : Bool
deriving DecidableEq, Repr

/-- Modelled from the spec: effect of one HAL call on the controls ("force-reset
then release-reset", "enable sleep-mode and active clock gating", "disable each
bank"); `sysclk_NpuClockEnable` and `sysclk_NpuClockDisable` of
`system_clock.c` are the four, respectively two, macro calls of their
bodies. -/
def NpuControls.step (c : NpuControls) : Ev → NpuControls
  | .call fn =>
    if fn = "__HAL_RCC_NPU_FORCE_RESET" then { c with npuReset := true }
    else if fn = "__HAL_RCC_NPU_RELEASE_RESET" then { c with npuReset := false }
    else if fn = "__HAL_RCC_NPU_CLK_ENABLE" then { c with npuClk := true }
    else if fn = "__HAL_RCC_NPU_CLK_DISABLE" then { c with npuClk := false }
    else if fn = "__HAL_RCC_NPU_CLK_SLEEP_ENABLE" then { c with npuClkSleep := true }
    else if fn = "__HAL_RCC_NPU_CLK_SLEEP_DISABLE" then { c with npuClkSleep := false }
    else if fn = "sysclk_NpuClockEnable" then
      { c with npuClk := true, npuClkSleep := true, npuReset := false }
    else if fn = "sysclk_NpuClockDisable" then
      { c with npuClk := false, npuClkSleep := false }
    else if fn = "__HAL_RCC_RAMCFG_FORCE_RESET" then { c with ramcfgReset := true }
    else if fn = "__HAL_RCC_RAMCFG_RELEASE_RESET" then { c with ramcfgReset := false }
    else if fn = "__HAL_RCC_RAMCFG_CLK_ENABLE" then { c with ramcfgClk := true }
    else if fn = "__HAL_RCC_RAMCFG_CLK_DISABLE" then { c with ramcfgClk := false }
    else if fn = "__HAL_RCC_RAMCFG_CLK_SLEEP_ENABLE" then { c with ramcfgClkSleep := true }
    else if fn = "__HAL_RCC_RAMCFG_CLK_SLEEP_DISABLE" then { c with ramcfgClkSleep := false }
    else if fn = "__HAL_RCC_AXISRAM3_MEM_CLK_ENABLE" then { c with axisram3Clk := true }
    else if fn = "__HAL_RCC_AXISRAM4_MEM_CLK_ENABLE" then { c with axisram4Clk := true }
    else if fn = "__HAL_RCC_AXISRAM5_MEM_CLK_ENABLE" then { c with axisram5Clk := true }
    else if fn = "__HAL_RCC_AXISRAM6_MEM_CLK_ENABLE" then { c with axisram6Clk := true }
    else if fn = "__HAL_RCC_AXISRAM3_MEM_CLK_DISABLE" then { c with axisram3Clk := false }
    else if fn = "__HAL_RCC_AXISRAM4_MEM_CLK_DISABLE" then { c with axisram4Clk := false }
    else if fn = "__HAL_RCC_AXISRAM5_MEM_CLK_DISABLE" then { c with axisram5Clk := false }
    else if fn = "__HAL_RCC_AXISRAM6_MEM_CLK_DISABLE" then { c with axisram6Clk := false }
    else if fn = "__HAL_RCC_AXISRAM3_MEM_CLK_SLEEP_ENABLE" then
      { c with axisram3ClkSleep := true }
    else if fn = "__HAL_RCC_AXISRAM4_MEM_CLK_SLEEP_ENABLE" then
      { c with axisram4ClkSleep := true }
    else if fn = "__HAL_RCC_AXISRAM5_MEM_CLK_SLEEP_ENABLE" then
      { c with axisram5ClkSleep := true }
    else if fn = "__HAL_RCC_AXISRAM6_MEM_CLK_SLEEP_ENABLE" then
      { c with axisram6ClkSleep := true }
    else if fn = "__HAL_RCC_AXISRAM3_MEM_CLK_SLEEP_DISABLE" then
      { c with axisram3ClkSleep := false }
    else if fn = "__HAL_RCC_AXISRAM4_MEM_CLK_SLEEP_DISABLE" then
      { c with axisram4ClkSleep := false }
    else if fn = "__HAL_RCC_AXISRAM5_MEM_CLK_SLEEP_DISABLE" then
      { c with axisram5ClkSleep := false }
    else if fn = "__HAL_RCC_AXISRAM6_MEM_CLK_SLEEP_DISABLE" then
      { c with axisram6ClkSleep := false }
    else c
  | .callWith fn arg =>
    if fn = "HAL_RAMCFG_EnableAXISRAM" then
      if arg = "RAMCFG_SRAM3_AXI" then { c with axisram3 := true }
      else if arg = "RAMCFG_SRAM4_AXI" then { c with axisram4 := true }
      else if arg = "RAMCFG_SRAM5_AXI" then { c with axisram5 := true }
      else if arg = "RAMCFG_SRAM6_AXI" then { c with axisram6 := true }
      else c
    else if fn = "HAL_RAMCFG_DisableAXISRAM" then
      if arg = "RAMCFG_SRAM3_AXI" then { c with axisram3 := false }
      else if arg = "RAMCFG_SRAM4_AXI" then { c with axisram4 := false }
      else if arg = "RAMCFG_SRAM5_AXI" then { c with axisram5 := false }
      else if arg = "RAMCFG_SRAM6_AXI" then { c with axisram6 := false }
      else c
    else c
  | _ => c

/-- The controls with everything switched on and both reset lines released, as
`sysclk_NpuClockEnable` and `NPURam_enable` leave them. -/
def NpuControls.allOn : NpuControls :=
  { npuReset := false, npuClk := true, npuClkSleep := true,
    ramcfgReset := false, ramcfgClk := true, ramcfgClkSleep := true,
    axisram3 := true, axisram4 := true, axisram5 := true, axisram6 := true,
    axisram3Clk := true, axisram4Clk := true, axisram5Clk := true, axisram6Clk := true,
    axisram3ClkSleep := true, axisram4ClkSleep := true, axisram5ClkSleep := true,
    axisram6ClkSleep := true }

/-- The controls as `NPURam_disable` leaves them, from `c`: everything off,
the NPU reset released, the reset line of the RAM controller as it was. -/
def NpuControls.afterRamDisable (c : NpuControls) : NpuControls :=
  { npuReset := false, npuClk := false, npuClkSleep := false,
    ramcfgReset := c.ramcfgReset, ramcfgClk := false, ramcfgClkSleep := false,
    axisram3 := false, axisram4 := false, axisram5 := false, axisram6 := false,
    axisram3Clk := false, axisram4Clk := false, axisram5Clk := false, axisram6Clk := false,
    axisram3ClkSleep := false, axisram4ClkSleep := false, axisram5ClkSleep := false,
    axisram6ClkSleep := false }

/-- The events whose order in `nn_inference` matters for the NPU memories and
the external memories: entry and last call of `NPURam_enable`, entry and last
call of `NPUCache_enable`, entry of `externMem_config`, the inference entry
point, and the four calls that close `nn_inference`. -/
def nnOrderEvents : List Ev :=
  [ .enter "NPURam_enable",
    .callWith "HAL_RAMCFG_EnableAXISRAM" "RAMCFG_SRAM6_AXI",
    .enter "NPUCache_enable",
    .call "npu_cache_enable",
    .enter "externMem_config",
    .call "LL_ATON_RT_Main",
    .call "sysclk_NpuClockDisable",
    .call "BSP_XSPI_NOR_DeInit",
    .call "BSP_XSPI_RAM_DeInit",
    .call "__HAL_RCC_XSPIM_CLK_DISABLE" ]

/-- The view of a trace restricted to `nnOrderEvents`. -/
def nnOrderTrace (t : List Ev) : List Ev := t.filter (fun e => decide (e ∈ nnOrderEvents))

/-- What `nn_inference` does before it enables the NPU memories. -/
def nnPrologue (cfg : BuildConfig) : List Ev :=
  [ .enter "nn_inference",
    .call "sysclk_NpuClockConfig",
    .call "sysclk_NpuClockEnable",
    .call "sysclk_CpuClockConfig" ] ++
  (if cfg.CPU_FRQ_SCALE_DOWN then [ .call "sysclk_SetCpuMaxFreq" ] else [])

/-- What `nn_inference` does between the enabling of the NPU memories and the
disabling of the NPU clock: external memories, input buffer, inferences. -/
def nnBody (cfg : BuildConfig) (steps : List FrequencyStep) : List Ev :=
  externMem_config cfg ++
  [ .call "LL_ATON_Input_Buffers_Info_Default",
    .call "LL_Buffer_len",
    .callWith "LL_ATON_Set_User_Input_Buffer_Default" "0, nn_in_buffer, nn_in_len",
    .pwr_timestamp_log "NPU and NPU Rams config" ] ++
  (if cfg.NPU_FRQ_SCALING then
    runInference_freqScaling steps
  else
    [ .call "HAL_SuspendTick",
      .call "LL_ATON_RT_Main",
      .call "HAL_ResumeTick",
      .pwr_timestamp_log "nn inference (dry run)",
      .call "HAL_SuspendTick",
      .call "LL_ATON_RT_Main",
      .call "HAL_ResumeTick",
      .pwr_timestamp_log "nn inference" ])

/-- The four (three without PSRAM) calls that close `nn_inference`. -/
def nnEpilogue (cfg : BuildConfig) : List Ev :=
  [ .call "sysclk_NpuClockDisable",
    .call "BSP_XSPI_NOR_DeInit" ] ++
  (if cfg.USE_PSRAM then [ .call "BSP_XSPI_RAM_DeInit" ] else []) ++
  [ .call "__HAL_RCC_XSPIM_CLK_DISABLE" ]

/-- Observer of the console UART: whether `HAL_UART_Init` has configured it
since the last `HAL_UART_DeInit`. -/
structure UartView where
  configured : Bool
deriving DecidableEq, Repr

/-- The UART observer over one event. -/
def UartView.step (v : UartView) (e : Ev) : UartView :=
  if e = .callWith "HAL_UART_Init" "huart1" then { configured := true }
  else if e = .callWith "HAL_UART_DeInit" "huart1" then { configured := false }
  else v

/-- Whether an event brings the console up or down: entry of `Console_Config`,
`HAL_UART_Init` or `HAL_UART_DeInit` on `huart1`. -/
def Ev.touchesUart (e : Ev) : Bool :=
  decide (e = .enter "Console_Config") ||
  decide (e = .callWith "HAL_UART_Init" "huart1") ||
  decide (e = .callWith "HAL_UART_DeInit" "huart1")

/-- Whether an event is a checkpoint (`pwr_timestamp_log`). -/
def Ev.isLog : Ev → Bool
  | .pwr_timestamp_log _ => true
  | _ => false

/-- One cycle up to the end of `postProcessing`: everything before
`sendTimestamp`. -/
def beforeSend (cfg : BuildConfig) (env : CycleEnv) : List Ev :=
  waitForUserTrigger ++
  startStlinkPwr ++
  cameraInit ++
  cameraCapture env ++
  cameraDeInit ++
  nn_inference cfg frequencySteps ++
  postProcessing cfg env

/-- The console view of a trace: the events that bring the console up or
down, and the dump of the log. -/
def uartTrace (t : List Ev) : List Ev :=
  t.filter (fun e => e.touchesUart || decide (e = .pwr_timestamp_sendOverUart))

/-! ## `main.c` and `app_cam.c`: waiting for the frame

`cameraFrameReceived` is a `volatile int32_t` that `cameraCapture` clears and
polls and that the frame event callback of `app_cam.c`, run from the camera
interrupt, increments. The interrupts are inputs of the model: for every sleep
of the wait loop, the pipes whose frame events are delivered while the core
sleeps. -/

def NN_WIDTH : Nat := 224

def NN_HEIGHT : Nat := 224

def NN_BPP : Nat := 3

/-- Size in bytes of `nn_in_buffer[NN_WIDTH*NN_HEIGHT*NN_BPP]`. -/
def nn_in_buffer_size : Nat := NN_WIDTH * NN_HEIGHT * NN_BPP

/-- Largest value of an `int32_t`. -/
def INT32_MAX : Int := 2147483647

/-- The value an `int32_t` object holds after the two's-complement result `x`
is stored in it. -/
def wrapInt32 (x : Int) : Int := (x + 2147483648) % 4294967296 - 2147483648

/-- Modelled from the spec: `DCMIPP_PIPE2` is a constant of the vendor HAL,
which is not part of the application; it identifies the pipe whose
"frame-complete callback the core increments its counter from". Only its
being one fixed pipe number matters here. -/
def DCMIPP_PIPE2 : Nat := 2

/-- `CMW_CAMERA_PIPE_FrameEventCallback`: the new value of
`cameraFrameReceived` and the value returned. -/
def CMW_CAMERA_PIPE_FrameEventCallback (pipe : Nat) (cameraFrameReceived : Int) : Int × Int :=
  (if pipe = DCMIPP_PIPE2 then wrapInt32 (cameraFrameReceived + 1) else cameraFrameReceived, 0)

/-- The counter after the frame events of the listed pipes, in order. -/
def deliverFrameEvents (pipes : List Nat) (cameraFrameReceived : Int) : Int :=
  pipes.foldl (fun c pipe => (CMW_CAMERA_PIPE_FrameEventCallback pipe c).1) cameraFrameReceived

/-- The loop `while (cameraFrameReceived == 0) HAL_PWR_EnterSLEEPMode(...)` of
`cameraCapture`, from a counter value and the frame events of the sleeps to
come: the number of sleeps taken and the counter on exit, or `none` when the
counter is still zero after the last wake-up (the core stays asleep). -/
def waitFrameLoop : Int → List (List Nat) → Option (Nat × Int)
  | c, [] => if c ≠ 0 then some (0, c) else none
  | c, w :: rest =>
    if c ≠ 0 then some (0, c)
    else (waitFrameLoop (deliverFrameEvents w c) rest).map (fun r => (r.1 + 1, r.2))

/-- The frame events of one capture: those delivered between
`CAM_NNPipe_Start` and the first test of the loop, and those delivered during
each sleep. -/
structure FrameIrqs where
  early : List Nat
  wakes : List (List Nat)
deriving DecidableEq, Repr

/-- `cameraCapture` with its counter: the events it performs and the value of
`cameraFrameReceived` when it logs "wait frame". The first statement stores 0
in the counter, so its earlier value plays no part. -/
def cameraCaptureRun (irqs : FrameIrqs) (number_output : Nat) : Option (List Ev × Int) :=
  let c0 : Int := 0
  let c1 := deliverFrameEvents irqs.early c0
  (waitFrameLoop c1 irqs.wakes).map fun r =>
    (cameraCapture { frameWaitSleeps := r.1, number_output := number_output }, r.2)

/-- One spurious wake-up, then the frame of pipe 2. -/
def oneFrameIrqs : FrameIrqs := { early := [], wakes := [[], [DCMIPP_PIPE2]] }

/-! ## `main.c`: the clock calls of `postProcessing` in a scaling build -/

/-- `RCC_ClkInitTypeDef RCC_ClkInitStruct = {0}`. -/
def RCC_ClkInitTypeDef.zero : RCC_ClkInitTypeDef :=
  { ClockType := []
    CPUCLKSource := .RCC_CPUCLKSOURCE_HSI
    SYSCLKSource := .RCC_SYSCLKSOURCE_HSI
    IC1Selection := { ClockSelection := .RCC_ICCLKSOURCE_PLL1, ClockDivider := 0 }
    IC2Selection := { ClockSelection := .RCC_ICCLKSOURCE_PLL1, ClockDivider := 0 }
    IC6Selection := { ClockSelection := .RCC_ICCLKSOURCE_PLL1, ClockDivider := 0 }
    IC11Selection := { ClockSelection := .RCC_ICCLKSOURCE_PLL1, ClockDivider := 0 } }

/-- The structure `sysclk_SetCpuMinFreq` passes to `HAL_RCC_ClockConfig`. -/
def minFreqClkInit : RCC_ClkInitTypeDef :=
  { RCC_ClkInitTypeDef.zero with
    ClockType := [ .RCC_CLOCKTYPE_CPUCLK ]
    CPUCLKSource := .RCC_CPUCLKSOURCE_HSE }

/-- `sysclk_SetCpuMinFreq`: its body is compiled only when
`CPU_FRQ_SCALE_DOWN == 1`. -/
def sysclk_SetCpuMinFreq (cfg : BuildConfig) (st : ClkState) : ClkTrace :=
  if cfg.CPU_FRQ_SCALE_DOWN then
    [ (.HAL_RCC_ClockConfig minFreqClkInit, HAL_RCC_ClockConfig minFreqClkInit st) ]
  else []

/-- A zeroed `RCC_OscInitTypeDef` in which the state of the listed PLLs is set
to `RCC_PLL_OFF`. -/
def pllOffOscInit (pll2 pll3 : Bool) : RCC_OscInitTypeDef :=
  { RCC_OscInitTypeDef.zero with
    PLL2 := if pll2 then { RCC_PLLInitTypeDef.zero with PLLState := .RCC_PLL_OFF } else .zero
    PLL3 := if pll3 then { RCC_PLLInitTypeDef.zero with PLLState := .RCC_PLL_OFF } else .zero }

/-- The structure `postProcessing` passes to `HAL_RCC_ClockConfig` in a
scaling build: the current configuration with the NPU and NPU-RAM clocks put
back on PLL1 / 200. -/
def restoreClkInit (st : ClkState) : RCC_ClkInitTypeDef :=
  { HAL_RCC_GetClockConfig st with
    ClockType := [ .RCC_CLOCKTYPE_SYSCLK ]
    SYSCLKSource := .RCC_SYSCLKSOURCE_IC2_IC6_IC11
    IC6Selection := { ClockSelection := .RCC_ICCLKSOURCE_PLL1, ClockDivider := 200 }
    IC11Selection := { ClockSelection := .RCC_ICCLKSOURCE_PLL1, ClockDivider := 200 } }

/-- The clock state after the `HAL_RCC_ClockConfig` call by which
`postProcessing` restores the routing. -/
def afterRestore (st : ClkState) : ClkState :=
  HAL_RCC_ClockConfig (restoreClkInit st) st

/-- The clock state after the block of `postProcessing` that is compiled when
`CPU_FRQ_SCALE_DOWN == 1`. -/
def afterScaleDownBlock (cfg : BuildConfig) (st : ClkState) : ClkState :=
  HAL_RCC_OscConfig (pllOffOscInit true true)
    (lastClk (afterRestore st) (sysclk_SetCpuMinFreq cfg (afterRestore st)))

/-- The part of `postProcessing` compiled when `NPU_FRQ_SCALING == 1`, as HAL
calls with the clock state each leaves: the restoring of the routing; when
`CPU_FRQ_SCALE_DOWN == 1`, `sysclk_SetCpuMinFreq` and the switching off of
PLL3 and PLL2; then, after the `#endif` of `CPU_FRQ_SCALE_DOWN`, the switching
off of PLL2. -/
def postProcessingClocks (cfg : BuildConfig) (st : ClkState) : ClkTrace :=
  let t1 : ClkTrace :=
    [ (.HAL_RCC_GetClockConfig, st),
      (.HAL_RCC_ClockConfig (restoreClkInit st), afterRestore st) ]
  let t2 : ClkTrace :=
    if cfg.CPU_FRQ_SCALE_DOWN then
      sysclk_SetCpuMinFreq cfg (afterRestore st) ++
      [ (.HAL_RCC_OscConfig (pllOffOscInit true true), afterScaleDownBlock cfg st) ]
    else []
  let s3 := lastClk (afterRestore st) t2
  t1 ++ t2 ++
  [ (.HAL_RCC_OscConfig (pllOffOscInit true false),
      HAL_RCC_OscConfig (pllOffOscInit true false) s3) ]

/-- Whether an event of the call trace is a `HAL_RCC_OscConfig` call. -/
def Ev.isOscConfig : Ev → Bool
  | .oscConfigPllOff _ _ => true
  | _ => false

/-- The HAL calls of the call trace of `postProcessing` that
`postProcessingClocks` spells out, as kinds. -/
def clkKindOf : Ev → List ClkKind
  | .call fn =>
    if fn = "HAL_RCC_GetClockConfig" then [.getClockConfig]
    else if fn = "HAL_RCC_ClockConfig" then [.clockConfig]
    else if fn = "sysclk_SetCpuMinFreq" then [.clockConfig]
    else []
  | .oscConfigPllOff _ _ => [.oscConfig]
  | _ => []

/-- A scaling build with `CPU_FRQ_SCALE_DOWN = 1`. -/
def scaleDownScalingBuild : BuildConfig :=
  { POWER_OVERDRIVE := false, CPU_FRQ_SCALE_DOWN := true,
    NPU_FRQ_SCALING := true, USE_PSRAM := false }

/-- The clock tree after the last step of the static table, from the clock
tree of `sysclk_SystemClockConfig`. -/
def afterSweepClkState : ClkState :=
  clkAfter (runInference_freqScaling frequencySteps) nominalClkState

/-! ## `trace_gpio.c`

The four trace pins are on four different ports (PG2, PH8, PE15, PC6), so a
`HAL_GPIO_WritePin` on one of them leaves the other three alone. `trace_state`
is an `int`, 32 bits wide on this target; what is stored in it is reduced to
the 32-bit two's-complement range. -/

/-- The four trace pins: `TRACE_GPIO_k`, `TRACE_PIN_k`. -/
inductive TracePin where
  | TRACE_0
  | TRACE_1
  | TRACE_2
  | TRACE_3
deriving DecidableEq, Repr

/-- The variable `trace_state` and the output levels of the four trace pins. -/
structure TraceGpio where
  trace_state : Int
  pin0 : GPIO_PinState
  pin1 : GPIO_PinState
  pin2 : GPIO_PinState
  pin3 : GPIO_PinState
deriving DecidableEq, Repr

/-- `HAL_GPIO_WritePin(TRACE_GPIO_k, TRACE_PIN_k, PinState)`: the bit of the
pin is set through `BSRR` for `GPIO_PIN_SET` and cleared through `BRR`
otherwise. -/
def HAL_GPIO_WritePin (k : TracePin) (PinState : GPIO_PinState) (s : TraceGpio) : TraceGpio :=
  let level : GPIO_PinState :=
    if PinState ≠ .GPIO_PIN_RESET then .GPIO_PIN_SET else .GPIO_PIN_RESET
  match k with
  | .TRACE_0 => { s with pin0 := level }
  | .TRACE_1 => { s with pin1 := level }
  | .TRACE_2 => { s with pin2 := level }
  | .TRACE_3 => { s with pin3 := level }

/-- The assignment `trace_state = 0` followed by the four writes that end
`trace_gpio_enable` and make up `trace_reset_state`. -/
def trace_reset_state (s : TraceGpio) : TraceGpio :=
  let s0 : TraceGpio := { s with trace_state := 0 }
  let s1 := HAL_GPIO_WritePin .TRACE_0 .GPIO_PIN_RESET s0
  let s2 := HAL_GPIO_WritePin .TRACE_1 .GPIO_PIN_RESET s1
  let s3 := HAL_GPIO_WritePin .TRACE_2 .GPIO_PIN_RESET s2
  HAL_GPIO_WritePin .TRACE_3 .GPIO_PIN_RESET s3

/-- `trace_gpio_enable`: the supply, clock and `HAL_GPIO_Init` calls configure
the four pins as push-pull outputs; then the state is cleared and the four
pins are driven low. -/
def trace_gpio_enable (s : TraceGpio) : TraceGpio :=
  let s0 : TraceGpio := { s with trace_state := 0 }
  let s1 := HAL_GPIO_WritePin .TRACE_0 .GPIO_PIN_RESET s0
  let s2 := HAL_GPIO_WritePin .TRACE_1 .GPIO_PIN_RESET s1
  let s3 := HAL_GPIO_WritePin .TRACE_2 .GPIO_PIN_RESET s2
  HAL_GPIO_WritePin .TRACE_3 .GPIO_PIN_RESET s3

/-- `trace_gpio_next_state`: the `switch` on `trace_state + 1`, whose case
labels are the constants 1 to 15, then `trace_state++`. -/
def trace_gpio_next_state (s : TraceGpio) : TraceGpio :=
  let v := wrapInt32 (s.trace_state + 1)
  let s1 : TraceGpio :=
    if v = 1 then HAL_GPIO_WritePin .TRACE_0 .GPIO_PIN_SET s
    else if v = 2 then HAL_GPIO_WritePin .TRACE_1 .GPIO_PIN_SET s
    else if v = 3 then HAL_GPIO_WritePin .TRACE_0 .GPIO_PIN_RESET s
    else if v = 4 then HAL_GPIO_WritePin .TRACE_2 .GPIO_PIN_SET s
    else if v = 5 then HAL_GPIO_WritePin .TRACE_0 .GPIO_PIN_SET s
    else if v = 6 then HAL_GPIO_WritePin .TRACE_1 .GPIO_PIN_RESET s
    else if v = 7 then HAL_GPIO_WritePin .TRACE_0 .GPIO_PIN_RESET s
    else if v = 8 then HAL_GPIO_WritePin .TRACE_3 .GPIO_PIN_SET s
    else if v = 9 then HAL_GPIO_WritePin .TRACE_0 .GPIO_PIN_SET s
    else if v = 10 then HAL_GPIO_WritePin .TRACE_1 .GPIO_PIN_SET s
    else if v = 11 then HAL_GPIO_WritePin .TRACE_0 .GPIO_PIN_RESET s
    else if v = 12 then HAL_GPIO_WritePin .TRACE_2 .GPIO_PIN_RESET s
    else if v = 13 then HAL_GPIO_WritePin .TRACE_0 .GPIO_PIN_SET s
    else if v = 14 then HAL_GPIO_WritePin .TRACE_1 .GPIO_PIN_RESET s
    else if v = 15 then HAL_GPIO_WritePin .TRACE_0 .GPIO_PIN_RESET s
    else s
  { s1 with trace_state := wrapInt32 (s1.trace_state + 1) }

/-- The state after `n` calls of `trace_gpio_next_state`. -/
def traceAfter : Nat → TraceGpio → TraceGpio
  | 0, s => s
  | n + 1, s => trace_gpio_next_state (traceAfter n s)

/-- The value of a pin level as a bit. -/
def GPIO_PinState.bit : GPIO_PinState → Nat
  | .GPIO_PIN_RESET => 0
  | .GPIO_PIN_SET => 1

/-- The four trace pins read as a number, pin 0 being the least significant
bit and pin 3 the most significant. -/
def TraceGpio.pins (s : TraceGpio) : Nat :=
  s.pin0.bit + 2 * s.pin1.bit + 4 * s.pin2.bit + 8 * s.pin3.bit

/-- The reflected Gray code of `n`: `n XOR (n >> 1)`. -/
def grayCode (n : Nat) : Nat := n ^^^ (n >>> 1)

/-- The number of trace pins whose level differs between two states. -/
def pinsChanged (a b : TraceGpio) : Nat :=
  (if a.pin0 = b.pin0 then 0 else 1) + (if a.pin1 = b.pin1 then 0 else 1) +
  (if a.pin2 = b.pin2 then 0 else 1) + (if a.pin3 = b.pin3 then 0 else 1)

/-- The state both `trace_gpio_enable` and `trace_reset_state` leave: state 0,
the four pins low. -/
def traceStart : TraceGpio :=
  { trace_state := 0, pin0 := .GPIO_PIN_RESET, pin1 := .GPIO_PIN_RESET,
    pin2 := .GPIO_PIN_RESET, pin3 := .GPIO_PIN_RESET }

/-- A state in which all four pins are high and the state variable reads 7. -/
def sampleTraceGpio : TraceGpio :=
  { trace_state := 7, pin0 := .GPIO_PIN_SET, pin1 := .GPIO_PIN_SET,
    pin2 := .GPIO_PIN_SET, pin3 := .GPIO_PIN_SET }

/-! ## Basic facts about the model -/

theorem andThen_ret {σ : Type} (s : σ) (k : σ → Outcome σ) :
    (Outcome.ret s).andThen k = k s := rfl

theorem printf_sentinel :
    printf "%s\r\n" [.str (some END_OF_LOG)] = sentinelLine := by decide

set_option maxRecDepth 100000 in
theorem printRecord_eq_aux (e : LogEntry_t) :
    printRecord e =
    "[SLP_SOL]".toList ++ ((strArgText e.name).take 30 ++ (":".toList ++
    (decimal e.timestamp ++ (":us:".toList ++
    ("DIVENR=".toList ++ (decimal e.divenr ++ (":".toList ++
    ("MISCENR=".toList ++ (decimal e.miscenr ++ (":".toList ++
    ("MEMENR=".toList ++ (decimal e.memenr ++ (":".toList ++
    ("AHB1ENR=".toList ++ (decimal e.ahb1enr ++ (":".toList ++
    ("AHB2ENR=".toList ++ (decimal e.ahb2enr ++ (":".toList ++
    ("AHB3ENR=".toList ++ (decimal e.ahb3enr ++ (":".toList ++
    ("AHB4ENR=".toList ++ (decimal e.ahb4enr ++ (":".toList ++
    ("AHB5ENR=".toList ++ (decimal e.ahb5enr ++ (":".toList ++
    ("APB1LENR=".toList ++ (decimal e.apb1lenr ++ (":".toList ++
    ("APB1HENR=".toList ++ (decimal e.apb1henr ++ (":".toList ++
    ("APB2ENR=".toList ++ (decimal e.apb2enr ++ (":".toList ++
    ("APB3ENR=".toList ++ (decimal e.apb3enr ++ (":".toList ++
    ("APB4LENR=".toList ++ (decimal e.apb4lenr ++ (":".toList ++
    ("APB4HENR=".toList ++ (decimal e.apb4henr ++ (":".toList ++
    ("APB5ENR=".toList ++ (decimal e.apb5enr ++ ("[SLP_EOL]".toList ++
    "\n".toList))))))))))))))))))))))))))))))))))))))))))))))))) := by
  rfl

theorem printRecord_eq (e : LogEntry_t) : printRecord e = recordText e := by
  rw [printRecord_eq_aux]
  simp only [recordText, List.append_assoc]

/-- Effect of a `log` call below capacity, field by field. -/
theorem log_below_capacity (stepName : String) (s : TsState)
    (h : s.logIndex < MAX_LOG_ENTRIES) :
    ∃ s1, pwr_timestamp_log stepName s = .ret s1 ∧
      s1.logIndex = s.logIndex + 1 ∧
      s1.slot s.logIndex = snapshot stepName s ∧
      (∀ i, i ≠ s.logIndex → s1.slot i = s.slot i) ∧
      s1.uart = s.uart ∧ s1.hw = s.hw ∧ s1.tim_started = s.tim_started ∧
      s1.htim2Init = s.htim2Init := by
  refine ⟨{ s with
      logBuffer := Function.update s.logBuffer ⟨s.logIndex, h⟩ (snapshot stepName s)
      logIndex := (s.logIndex + 1) % 4294967296 },
    by simp only [pwr_timestamp_log, dif_pos h], ?_, ?_, ?_, rfl, rfl, rfl, rfl⟩
  · have : s.logIndex < 100 := h
    show (s.logIndex + 1) % 4294967296 = s.logIndex + 1
    omega
  · simp [TsState.slot, h]
  · intro i hi
    by_cases hlt : i < MAX_LOG_ENTRIES
    · have hne : (⟨i, hlt⟩ : Fin MAX_LOG_ENTRIES) ≠ ⟨s.logIndex, h⟩ := by
        intro hc
        exact hi (Fin.mk.inj hc)
      simp [TsState.slot, hlt, Function.update_noteq hne]
    · simp [TsState.slot, hlt]

theorem snapshot_eq (stepName : String) (s : TsState) :
    snapshot stepName s = (capturedEntries [.log stepName] s.hw).headD LogEntry_t.zero := rfl

theorem logCount_cons_log (stepName : String) (ops : List TsOp) :
    logCount (.log stepName :: ops) = logCount ops + 1 := by
  simp [logCount, logLabels]

/-- A run of bracket operations from a state with enough free slots returns;
it appends one entry per `log` call, holding what the call captured, leaves
the earlier slots and the output alone, and moves the cursor by the number of
`log` calls. -/
theorem runOps_bracket (ops : List TsOp) :
    ∀ s : TsState, (∀ op ∈ ops, op.inBracket = true) →
      s.logIndex + logCount ops ≤ MAX_LOG_ENTRIES →
      ∃ s1, runOps ops s = .ret s1 ∧
        s1.logIndex = s.logIndex + logCount ops ∧
        s1.uart = s.uart ∧
        (∀ i, i < s.logIndex → s1.slot i = s.slot i) ∧
        (List.range' s.logIndex (logCount ops)).map s1.slot = capturedEntries ops s.hw := by
  induction ops with
  | nil =>
    intro s _ _
    exact ⟨s, rfl, rfl, rfl, fun _ _ => rfl, rfl⟩
  | cons op ops ih =>
    intro s hb hcap
    have hops : ∀ o ∈ ops, o.inBracket = true := fun o ho => hb o (List.mem_cons_of_mem _ ho)
    have hop : op.inBracket = true := hb op (List.mem_cons_self _ _)
    cases op with
    | init st => exact absurd hop (by simp [TsOp.inBracket])
    | start => exact absurd hop (by simp [TsOp.inBracket])
    | sendOverUart => exact absurd hop (by simp [TsOp.inBracket])
    | log stepName =>
      rw [logCount_cons_log] at hcap
      have hlt : s.logIndex < MAX_LOG_ENTRIES := by omega
      obtain ⟨s1, h1, hidx, hslot, hother, huart, hhw, _, _⟩ :=
        log_below_capacity stepName s hlt
      obtain ⟨s2, h2, hidx2, huart2, hpres, hcapt⟩ := ih s1 hops (by omega)
      refine ⟨s2, ?_, ?_, ?_, ?_, ?_⟩
      · simp only [runOps, TsOp.exec, h1, andThen_ret, h2]
      · rw [hidx2, hidx, logCount_cons_log]; omega
      · rw [huart2, huart]
      · intro i hi
        rw [hpres i (by omega), hother i (by omega)]
      · rw [logCount_cons_log, List.range'_succ, List.map_cons, ← hidx, hcapt, hhw,
          hpres s.logIndex (by omega), hslot]
        rfl
    | stop =>
      obtain ⟨s2, h2, hidx2, huart2, hpres, hcapt⟩ :=
        ih (pwr_timestamp_stop s) hops (by simpa [logCount, logLabels] using hcap)
      exact ⟨s2, by simp only [runOps, TsOp.exec, andThen_ret, h2],
        by simpa [logCount, logLabels] using hidx2, huart2, hpres,
        by simpa [logCount, logLabels] using hcapt⟩
    | elapse d =>
      have hidx : (N6Power.elapse d s).logIndex = s.logIndex := by
        unfold N6Power.elapse; split <;> rfl
      have huart : (N6Power.elapse d s).uart = s.uart := by
        unfold N6Power.elapse; split <;> rfl
      have hslot : ∀ i, (N6Power.elapse d s).slot i = s.slot i := by
        intro i; unfold N6Power.elapse; split <;> rfl
      have hhw : (N6Power.elapse d s).hw =
          (if s.hw.CEN then { s.hw with CNT := (s.hw.CNT + d) % 4294967296 } else s.hw) := by
        unfold N6Power.elapse TsState.hw
        by_cases hc : s.CEN = true <;> simp [hc]
      obtain ⟨s2, h2, hidx2, huart2, hpres, hcapt⟩ :=
        ih (N6Power.elapse d s) hops (by rw [hidx]; simpa [logCount, logLabels] using hcap)
      refine ⟨s2, by simp only [runOps, TsOp.exec, andThen_ret, h2], ?_, ?_, ?_, ?_⟩
      · rw [hidx2, hidx]; simp [logCount, logLabels]
      · rw [huart2, huart]
      · intro i hi
        rw [hpres i (by rw [hidx]; exact hi), hslot]
      · rw [hidx, hhw] at hcapt
        simpa [logCount, logLabels, capturedEntries] using hcapt
    | rcc r =>
      obtain ⟨s2, h2, hidx2, huart2, hpres, hcapt⟩ :=
        ih { s with RCC := r } hops (by simpa [logCount, logLabels] using hcap)
      exact ⟨s2, by simp only [runOps, TsOp.exec, andThen_ret, h2],
        by simpa [logCount, logLabels] using hidx2, huart2, hpres,
        by simpa [logCount, logLabels] using hcapt⟩

/-- The printing loop over in-range indices returns and appends the records
of the slots it visits, in index order. -/
theorem sendLoop_spec (n : Nat) :
    ∀ (i : Nat) (s : TsState), i + n ≤ MAX_LOG_ENTRIES →
      sendLoop n i s = .ret { s with
        uart := s.uart ++ ((List.range' i n).map (fun k => printRecord (s.slot k))).flatten } := by
  induction n with
  | zero =>
    intro i s _
    simp [sendLoop]
  | succ n ih =>
    intro i s h
    have hi : i < MAX_LOG_ENTRIES := by omega
    rw [sendLoop, dif_pos hi, ih (i + 1) _ (by omega)]
    simp [List.range'_succ, TsState.slot, hi]

/-- Effect of `pwr_timestamp_sendOverUart` on a state whose cursor is within
the buffer. -/
theorem sendOverUart_spec (s : TsState) (h : s.logIndex ≤ MAX_LOG_ENTRIES) :
    pwr_timestamp_sendOverUart s = .ret
      { s with
        CEN := false
        tim_started := 0
        uart := s.uart ++ (s.entries.map printRecord).flatten ++ sentinelLine
        logIndex := 0 } := by
  unfold pwr_timestamp_sendOverUart
  simp only []
  rw [sendLoop_spec _ 0 _ (by simpa [pwr_timestamp_stop, HAL_TIM_Base_Stop] using h)]
  simp [Outcome.andThen, printf_sentinel, pwr_timestamp_stop, HAL_TIM_Base_Stop,
    TsState.entries, List.range_eq_range', TsState.slot, Function.comp_def]

theorem capturedEntries_names (ops : List TsOp) :
    ∀ h : Hw, (capturedEntries ops h).map (fun e => e.name) = (logLabels ops).map some := by
  induction ops with
  | nil => intro h; rfl
  | cons op ops ih =>
    intro h
    cases op <;> simp [capturedEntries, logLabels, ih]

theorem capturedEntries_length (ops : List TsOp) (h : Hw) :
    (capturedEntries ops h).length = logCount ops := by
  have := congrArg List.length (capturedEntries_names ops h)
  simpa [logCount] using this

/-- Without wrap-around, the captured ticks never go below the starting count
and never decrease from one capture to the next. -/
theorem capturedEntries_ticks (ops : List TsOp) :
    ∀ h : Hw, h.CNT + totalElapsed ops < 4294967296 →
      (∀ e ∈ capturedEntries ops h, h.CNT ≤ e.timestamp) ∧
      (capturedEntries ops h).Pairwise (fun a b => a.timestamp ≤ b.timestamp) := by
  induction ops with
  | nil => intro h _; simp [capturedEntries]
  | cons op ops ih =>
    intro h hw
    cases op with
    | log stepName =>
      obtain ⟨hge, hpw⟩ := ih h (by simpa [totalElapsed] using hw)
      simp only [capturedEntries, List.mem_cons, List.pairwise_cons]
      refine ⟨?_, ?_, hpw⟩
      · rintro e (rfl | he)
        · exact le_refl _
        · exact hge e he
      · intro e he
        exact hge e he
    | elapse d =>
      simp only [totalElapsed] at hw
      simp only [capturedEntries]
      by_cases hc : h.CEN = true
      · have hmod : (h.CNT + d) % 4294967296 = h.CNT + d := Nat.mod_eq_of_lt (by omega)
        obtain ⟨hge, hpw⟩ := ih { h with CNT := (h.CNT + d) % 4294967296 }
          (by show (h.CNT + d) % 4294967296 + totalElapsed ops < 4294967296; omega)
        rw [if_pos hc]
        refine ⟨fun e he => ?_, hpw⟩
        have := hge e he
        have h2 : (h.CNT + d) % 4294967296 ≤ e.timestamp := this
        omega
      · obtain ⟨hge, hpw⟩ := ih h (by omega)
        rw [if_neg hc]
        exact ⟨hge, hpw⟩
    | init st => exact ih h (by simpa [totalElapsed] using hw)
    | start => exact ih h (by simpa [totalElapsed] using hw)
    | stop => exact ih { h with CEN := false } (by simpa [totalElapsed] using hw)
    | sendOverUart => exact ih h (by simpa [totalElapsed] using hw)
    | rcc r => exact ih { h with RCC := r } (by simpa [totalElapsed] using hw)

/-- A bracket run from a freshly started log: the appended entries are exactly
the captured ones. -/
theorem runOps_after_start (s0 : TsState) (ops : List TsOp)
    (hb : ∀ op ∈ ops, op.inBracket = true) (hk : logCount ops ≤ MAX_LOG_ENTRIES) :
    ∃ s1, runOps ops (pwr_timestamp_start s0) = .ret s1 ∧
      s1.logIndex = logCount ops ∧ s1.uart = s0.uart ∧
      s1.entries = capturedEntries ops (pwr_timestamp_start s0).hw := by
  have h0 : (pwr_timestamp_start s0).logIndex = 0 := rfl
  have hu : (pwr_timestamp_start s0).uart = s0.uart := by
    unfold pwr_timestamp_start HAL_TIM_Base_Start HAL_TIM_SET_COUNTER
    split <;> rfl
  obtain ⟨s1, h1, hidx, huart, _, hcapt⟩ :=
    runOps_bracket ops (pwr_timestamp_start s0) hb (by rw [h0]; omega)
  refine ⟨s1, h1, by rw [hidx, h0]; omega, by rw [huart, hu], ?_⟩
  rw [h0] at hcapt hidx
  rw [TsState.entries, List.range_eq_range', hidx, Nat.zero_add]
  exact hcapt

/-- Running a concatenation is running the parts in turn. -/
theorem runOps_append (l1 l2 : List TsOp) :
    ∀ a : TsState, runOps (l1 ++ l2) a = (runOps l1 a).andThen (runOps l2) := by
  induction l1 with
  | nil => intro a; rfl
  | cons o l ih =>
    intro a
    show (o.exec a).andThen (runOps (l ++ l2)) = ((o.exec a).andThen (runOps l)).andThen (runOps l2)
    cases o.exec a with
    | ret a1 => exact ih a1
    | halt why a1 => rfl

/-! ## Timestamp log: the claims -/

/-- C1 (log capacity). From any state, after `pwr_timestamp_start()` and a run
of bracket operations (no `start`, no `sendOverUart`) that contains `k ≤ 100`
calls of `pwr_timestamp_log`, every call has returned and the cursor equals
`k`. If `k < 100` one more call returns and moves the cursor to `k + 1`; if
`k = 100` the next (101st) call stops at the capacity assertion in the very
state it was called in: no slot written, cursor still 100, no wrap. -/
theorem C1_log_capacity (s0 : TsState) (ops : List TsOp) (stepName : String)
    (hb : ∀ op ∈ ops, op.inBracket = true) (hk : logCount ops ≤ 100) :
    ∃ s, runOps ops (pwr_timestamp_start s0) = .ret s ∧
      s.logIndex = logCount ops ∧
      (logCount ops < 100 →
        ∃ s1, pwr_timestamp_log stepName s = .ret s1 ∧ s1.logIndex = s.logIndex + 1) ∧
      (logCount ops = 100 →
        pwr_timestamp_log stepName s = .halt .assertion s ∧
        runOps (ops ++ [.log stepName]) (pwr_timestamp_start s0) = .halt .assertion s) := by
  obtain ⟨s, hrun, hidx, _, _⟩ := runOps_after_start s0 ops hb hk
  refine ⟨s, hrun, hidx, ?_, ?_⟩
  · intro hlt
    obtain ⟨s1, h1, hi1, _⟩ :=
      log_below_capacity stepName s (by rw [hidx]; exact hlt)
    exact ⟨s1, h1, hi1⟩
  · intro heq
    have hfull : ¬ s.logIndex < MAX_LOG_ENTRIES := by
      rw [hidx, heq]; decide
    have hlog : pwr_timestamp_log stepName s = .halt .assertion s := by
      simp only [pwr_timestamp_log, dif_neg hfull]
    refine ⟨hlog, ?_⟩
    rw [runOps_append, hrun, andThen_ret]
    simp only [runOps, TsOp.exec, hlog, Outcome.andThen]

/-- C1, instantiated: a hundred `log` calls after a `start()` at reset. -/
theorem C1_log_capacity_witness :
    ∃ s, runOps (List.replicate 100 (TsOp.log "step")) (pwr_timestamp_start bootState) = .ret s ∧
      s.logIndex = logCount (List.replicate 100 (TsOp.log "step")) ∧
      (logCount (List.replicate 100 (TsOp.log "step")) < 100 →
        ∃ s1, pwr_timestamp_log "one more" s = .ret s1 ∧ s1.logIndex = s.logIndex + 1) ∧
      (logCount (List.replicate 100 (TsOp.log "step")) = 100 →
        pwr_timestamp_log "one more" s = .halt .assertion s ∧
        runOps (List.replicate 100 (TsOp.log "step") ++ [.log "one more"])
          (pwr_timestamp_start bootState) = .halt .assertion s) :=
  C1_log_capacity bootState (List.replicate 100 (TsOp.log "step")) "one more"
    (by intro op hop; rw [List.eq_of_mem_replicate hop]; rfl)
    (by decide)

/-- C2 (log ordering). From any state (whatever the buffer holds from earlier
cycles), after `pwr_timestamp_start()` and a run of bracket operations with at
most 100 `log` calls, `pwr_timestamp_sendOverUart()` returns and appends to
the output exactly one record per `log` call of the bracket, in call order,
each printed from the label, tick and registers captured at that call,
followed by the sentinel line; the text depends on the hardware and on the
calls of the bracket only. -/
theorem C2_send_order (s0 : TsState) (ops : List TsOp)
    (hb : ∀ op ∈ ops, op.inBracket = true) (hk : logCount ops ≤ 100) :
    ∃ s1 s2, runOps ops (pwr_timestamp_start s0) = .ret s1 ∧
      pwr_timestamp_sendOverUart s1 = .ret s2 ∧
      s2.uart = s0.uart ++
        ((capturedEntries ops (pwr_timestamp_start s0).hw).map printRecord).flatten ++
        sentinelLine ∧
      (capturedEntries ops (pwr_timestamp_start s0).hw).length = logCount ops ∧
      (capturedEntries ops (pwr_timestamp_start s0).hw).map (fun e => e.name) =
        (logLabels ops).map some := by
  obtain ⟨s1, hrun, hidx, huart, hent⟩ := runOps_after_start s0 ops hb hk
  refine ⟨s1, _, hrun, sendOverUart_spec s1 (by rw [hidx]; exact hk), ?_,
    capturedEntries_length _ _, capturedEntries_names _ _⟩
  show s1.uart ++ (s1.entries.map printRecord).flatten ++ sentinelLine = _
  rw [huart, hent]

/-- C2, instantiated: two entries left over from an earlier cycle, then a new
bracket with two `log` calls. -/
theorem C2_send_order_witness :
    ∃ s1 s2,
      runOps [.log "a", .elapse 7, .log "b"]
        (pwr_timestamp_start (runOps [.start, .log "old1", .log "old2"] bootState).state) = .ret s1 ∧
      pwr_timestamp_sendOverUart s1 = .ret s2 ∧
      s2.uart = (runOps [.start, .log "old1", .log "old2"] bootState).state.uart ++
        ((capturedEntries [.log "a", .elapse 7, .log "b"]
          (pwr_timestamp_start
            (runOps [.start, .log "old1", .log "old2"] bootState).state).hw).map
          printRecord).flatten ++
        sentinelLine ∧
      (capturedEntries [.log "a", .elapse 7, .log "b"]
          (pwr_timestamp_start
            (runOps [.start, .log "old1", .log "old2"] bootState).state).hw).length =
        logCount [.log "a", .elapse 7, .log "b"] ∧
      (capturedEntries [.log "a", .elapse 7, .log "b"]
          (pwr_timestamp_start
            (runOps [.start, .log "old1", .log "old2"] bootState).state).hw).map
          (fun e => e.name) =
        (logLabels [.log "a", .elapse 7, .log "b"]).map some :=
  C2_send_order (runOps [.start, .log "old1", .log "old2"] bootState).state
    [.log "a", .elapse 7, .log "b"] (by decide) (by decide)

/-- Effect of `pwr_timestamp_init` when the three HAL calls succeed. -/
theorem init_allOk (hw : TimerInitEffect) (s : TsState) :
    pwr_timestamp_init .allOk hw s = .ret
      { s with
        RCC := HAL_RCC_TIM2_CLK_ENABLE s.RCC
        htim2Init := { Prescaler := PRESCALER_VALUE, CounterMode := .TIM_COUNTERMODE_UP,
                       Period := 0xffffffff }
        CNT := hw.CNT
        CEN := hw.CEN
        logBuffer := fun _ => LogEntry_t.zero } := rfl

/-- C3 (scenario A, for any number of entries up to capacity). From any state,
`init()` (HAL calls succeeding, whatever they leave in the timer), `start()`,
then a bracket with `n ≤ 100` calls
`log(l1) .. log(ln)`, then `sendOverUart()`: the run returns; it has appended to
the output exactly `n` records, whose labels are `l1 .. ln` in that order,
followed by the sentinel line and nothing else; the cursor is 0 and the timer
is stopped. With `n = 0` only the sentinel line is appended. -/
theorem C3_scenario (hw : TimerInitEffect) (s0 : TsState) (ops : List TsOp)
    (hb : ∀ op ∈ ops, op.inBracket = true) (hn : logCount ops ≤ 100) :
    ∃ (s : TsState) (entries : List LogEntry_t),
      runOps (.init .allOk hw :: .start :: (ops ++ [.sendOverUart])) s0 = .ret s ∧
      entries.length = logCount ops ∧
      entries.map (fun e => e.name) = (logLabels ops).map some ∧
      s.uart = s0.uart ++ (entries.map recordText).flatten ++ sentinelLine ∧
      s.logIndex = 0 ∧ s.CEN = false ∧ s.tim_started = 0 ∧
      (logCount ops = 0 → s.uart = s0.uart ++ sentinelLine) := by
  obtain ⟨s1, hrun, hidx, huart, hent⟩ :=
    runOps_after_start
      { s0 with
        RCC := HAL_RCC_TIM2_CLK_ENABLE s0.RCC
        htim2Init := { Prescaler := PRESCALER_VALUE, CounterMode := .TIM_COUNTERMODE_UP,
                       Period := 0xffffffff }
        CNT := hw.CNT
        CEN := hw.CEN
        logBuffer := fun _ => LogEntry_t.zero } ops hb hn
  have hsend := sendOverUart_spec s1 (by rw [hidx]; exact hn)
  have hfun2 : printRecord = recordText := funext printRecord_eq
  refine ⟨{ s1 with
      CEN := false
      tim_started := 0
      uart := s1.uart ++ (s1.entries.map printRecord).flatten ++ sentinelLine
      logIndex := 0 }, s1.entries, ?_, ?_, ?_, ?_, rfl, rfl, rfl, ?_⟩
  · simp only [runOps, TsOp.exec, init_allOk, andThen_ret]
    rw [runOps_append, hrun, andThen_ret]
    simp only [runOps, TsOp.exec, hsend, andThen_ret]
  · rw [hent]; exact capturedEntries_length _ _
  · rw [hent]; exact capturedEntries_names _ _
  · show s1.uart ++ (s1.entries.map printRecord).flatten ++ sentinelLine = _
    rw [huart, hfun2]
  · intro h0
    show s1.uart ++ (s1.entries.map printRecord).flatten ++ sentinelLine = _
    have : s1.entries = [] := by
      rw [TsState.entries, hidx, h0]; rfl
    rw [this, huart]
    simp

/-- C3, instantiated at the scenario of the spec: labels "a" then "b". -/
theorem C3_scenario_witness :
    ∃ (s : TsState) (entries : List LogEntry_t),
      runOps (.init .allOk sampleInitEffect :: .start :: ([.log "a", .log "b"] ++ [.sendOverUart])) bootState
        = .ret s ∧
      entries.length = logCount [.log "a", .log "b"] ∧
      entries.map (fun e => e.name) = (logLabels [.log "a", .log "b"]).map some ∧
      s.uart = bootState.uart ++ (entries.map recordText).flatten ++ sentinelLine ∧
      s.logIndex = 0 ∧ s.CEN = false ∧ s.tim_started = 0 ∧
      (logCount [.log "a", .log "b"] = 0 → s.uart = bootState.uart ++ sentinelLine) :=
  C3_scenario sampleInitEffect bootState [.log "a", .log "b"] (by decide) (by decide)

/-- C4 (record format). The text `pwr_timestamp_sendOverUart` prints for an
entry is the start marker, the label cut to its first `min 30 length`
characters, `:`, the tick in decimal, `:us:`, the fifteen `NAME=value` fields
in the order DIVENR .. APB5ENR separated by `:`, the end marker and a newline;
for the entry stored by a `log` call the values are the counter and the
registers `DIVENR, MISCENR, MEMENR, AHB1ENR .. AHB5ENR, APB1ENR1, APB1ENR2,
APB2ENR, APB3ENR, APB4ENR1, APB4ENR2, APB5ENR` read by that call. -/
theorem C4_record_format :
    (∀ s : TsState, s.logIndex ≤ 100 →
      ∃ s1, pwr_timestamp_sendOverUart s = .ret s1 ∧
        s1.uart = s.uart ++ (s.entries.map recordText).flatten ++ sentinelLine) ∧
    (∀ (stepName : String) (s : TsState),
      printRecord (snapshot stepName s) =
        "[SLP_SOL]".toList ++ (cstr stepName).take (min 30 (strlen stepName)) ++ ":".toList ++
        decimal s.CNT ++ ":us:".toList ++
        "DIVENR=".toList ++ decimal s.RCC.DIVENR ++ ":".toList ++
        "MISCENR=".toList ++ decimal s.RCC.MISCENR ++ ":".toList ++
        "MEMENR=".toList ++ decimal s.RCC.MEMENR ++ ":".toList ++
        "AHB1ENR=".toList ++ decimal s.RCC.AHB1ENR ++ ":".toList ++
        "AHB2ENR=".toList ++ decimal s.RCC.AHB2ENR ++ ":".toList ++
        "AHB3ENR=".toList ++ decimal s.RCC.AHB3ENR ++ ":".toList ++
        "AHB4ENR=".toList ++ decimal s.RCC.AHB4ENR ++ ":".toList ++
        "AHB5ENR=".toList ++ decimal s.RCC.AHB5ENR ++ ":".toList ++
        "APB1LENR=".toList ++ decimal s.RCC.APB1ENR1 ++ ":".toList ++
        "APB1HENR=".toList ++ decimal s.RCC.APB1ENR2 ++ ":".toList ++
        "APB2ENR=".toList ++ decimal s.RCC.APB2ENR ++ ":".toList ++
        "APB3ENR=".toList ++ decimal s.RCC.APB3ENR ++ ":".toList ++
        "APB4LENR=".toList ++ decimal s.RCC.APB4ENR1 ++ ":".toList ++
        "APB4HENR=".toList ++ decimal s.RCC.APB4ENR2 ++ ":".toList ++
        "APB5ENR=".toList ++ decimal s.RCC.APB5ENR ++ "[SLP_EOL]".toList ++ "\n".toList) := by
  constructor
  · intro s hs
    refine ⟨_, sendOverUart_spec s hs, ?_⟩
    have hfun2 : printRecord = recordText := funext printRecord_eq
    show s.uart ++ (s.entries.map printRecord).flatten ++ sentinelLine = _
    rw [hfun2]
  · intro stepName s
    rw [printRecord_eq]
    have ht : (cstr stepName).take (min 30 (strlen stepName)) = (cstr stepName).take 30 := by
      unfold strlen
      rw [List.take_eq_take]
      simp
    rw [ht]
    rfl

/-- C4, instantiated: the dump of a log holding the two entries "a" and "b". -/
theorem C4_record_format_witness :
    ∃ s1, pwr_timestamp_sendOverUart twoLoggedState = .ret s1 ∧
      s1.uart = twoLoggedState.uart ++ (twoLoggedState.entries.map recordText).flatten ++
        sentinelLine :=
  C4_record_format.1 twoLoggedState (by decide)

/-- C5 (frame of `log`). With cursor `c < 100`, `pwr_timestamp_log(label)`
returns the state in which slot `c` holds the label, the current counter value
and the fifteen register values, the cursor is `c + 1`, and everything else,
every other slot included, is as before. `pwr_timestamp_stop` and
`pwr_timestamp_sendOverUart` leave the whole buffer as it is, and over any run
of `log`/`stop` calls and hardware changes that fits the buffer the slots below
the initial cursor keep their contents. -/
theorem C5_log_frame (stepName : String) (s : TsState) (h : s.logIndex < 100) :
    pwr_timestamp_log stepName s = .ret
      { s with
        logBuffer := Function.update s.logBuffer ⟨s.logIndex, h⟩
          { name := some stepName, timestamp := s.CNT,
            divenr := s.RCC.DIVENR, miscenr := s.RCC.MISCENR, memenr := s.RCC.MEMENR,
            ahb1enr := s.RCC.AHB1ENR, ahb2enr := s.RCC.AHB2ENR, ahb3enr := s.RCC.AHB3ENR,
            ahb4enr := s.RCC.AHB4ENR, ahb5enr := s.RCC.AHB5ENR,
            apb1lenr := s.RCC.APB1ENR1, apb1henr := s.RCC.APB1ENR2,
            apb2enr := s.RCC.APB2ENR, apb3enr := s.RCC.APB3ENR,
            apb4lenr := s.RCC.APB4ENR1, apb4henr := s.RCC.APB4ENR2,
            apb5enr := s.RCC.APB5ENR }
        logIndex := s.logIndex + 1 } ∧
    (∀ j : Fin MAX_LOG_ENTRIES, j.val ≠ s.logIndex →
      (pwr_timestamp_log stepName s).state.logBuffer j = s.logBuffer j) ∧
    (pwr_timestamp_stop s).logBuffer = s.logBuffer ∧
    (∃ s1, pwr_timestamp_sendOverUart s = .ret s1 ∧ s1.logBuffer = s.logBuffer) ∧
    (∀ ops : List TsOp, (∀ op ∈ ops, op.inBracket = true) →
      s.logIndex + logCount ops ≤ 100 →
      ∃ s1, runOps ops s = .ret s1 ∧ ∀ i, i < s.logIndex → s1.slot i = s.slot i) := by
  have hlt : s.logIndex < MAX_LOG_ENTRIES := h
  have hmod : (s.logIndex + 1) % 4294967296 = s.logIndex + 1 := by omega
  have hlog : pwr_timestamp_log stepName s = .ret
      { s with
        logBuffer := Function.update s.logBuffer ⟨s.logIndex, h⟩ (snapshot stepName s)
        logIndex := s.logIndex + 1 } := by
    simp only [pwr_timestamp_log, dif_pos hlt, hmod]
  refine ⟨hlog, ?_, rfl, ?_, ?_⟩
  · intro j hj
    rw [hlog]
    have hne : j ≠ ⟨s.logIndex, h⟩ := by
      intro hc
      exact hj (congrArg Fin.val hc)
    simp [Outcome.state, Function.update_noteq hne]
  · exact ⟨_, sendOverUart_spec s (le_of_lt hlt), rfl⟩
  · intro ops hb hcap
    obtain ⟨s1, h1, _, _, hpres, _⟩ := runOps_bracket ops s hb hcap
    exact ⟨s1, h1, hpres⟩

/-- C5, instantiated: a third `log` after two entries. -/
theorem C5_log_frame_witness :
    pwr_timestamp_log "c" twoLoggedState = .ret
      { twoLoggedState with
        logBuffer := Function.update twoLoggedState.logBuffer
          ⟨twoLoggedState.logIndex, by decide⟩
          { name := some "c",
            timestamp := twoLoggedState.CNT,
            divenr := twoLoggedState.RCC.DIVENR,
            miscenr := twoLoggedState.RCC.MISCENR,
            memenr := twoLoggedState.RCC.MEMENR,
            ahb1enr := twoLoggedState.RCC.AHB1ENR,
            ahb2enr := twoLoggedState.RCC.AHB2ENR,
            ahb3enr := twoLoggedState.RCC.AHB3ENR,
            ahb4enr := twoLoggedState.RCC.AHB4ENR,
            ahb5enr := twoLoggedState.RCC.AHB5ENR,
            apb1lenr := twoLoggedState.RCC.APB1ENR1,
            apb1henr := twoLoggedState.RCC.APB1ENR2,
            apb2enr := twoLoggedState.RCC.APB2ENR,
            apb3enr := twoLoggedState.RCC.APB3ENR,
            apb4lenr := twoLoggedState.RCC.APB4ENR1,
            apb4henr := twoLoggedState.RCC.APB4ENR2,
            apb5enr := twoLoggedState.RCC.APB5ENR }
        logIndex := twoLoggedState.logIndex + 1 } :=
  (C5_log_frame "c" twoLoggedState (by decide)).1

/-- C7 (`stop`). `pwr_timestamp_stop` disables the counter and clears the
running flag; it changes neither the cursor, nor the buffer, nor the counter
value, which then stays put as time passes; and stopping twice is the same as
stopping once. -/
theorem C7_stop (s : TsState) :
    (pwr_timestamp_stop s).CEN = false ∧
    (pwr_timestamp_stop s).tim_started = 0 ∧
    (pwr_timestamp_stop s).logIndex = s.logIndex ∧
    (pwr_timestamp_stop s).logBuffer = s.logBuffer ∧
    (pwr_timestamp_stop s).CNT = s.CNT ∧
    (∀ d, (elapse d (pwr_timestamp_stop s)).CNT = s.CNT) ∧
    pwr_timestamp_stop (pwr_timestamp_stop s) = pwr_timestamp_stop s :=
  ⟨rfl, rfl, rfl, rfl, rfl, fun _ => rfl, rfl⟩

/-- C8 (tick monotonicity). From any state, after `pwr_timestamp_start()` and
a bracket of at most 100 `log` calls during which the 32-bit counter does not
wrap (its value at the start plus the ticks that elapse stays below `2 ^ 32`),
the run returns and the ticks of the appended entries are non-decreasing in
append order: entry `i` never has a larger tick than a later entry `j`, in
particular than entry `i + 1`. -/
theorem C8_ticks_monotone (s0 : TsState) (ops : List TsOp)
    (hb : ∀ op ∈ ops, op.inBracket = true) (hk : logCount ops ≤ 100)
    (hwrap : (pwr_timestamp_start s0).CNT + totalElapsed ops < 4294967296) :
    ∃ s, runOps ops (pwr_timestamp_start s0) = .ret s ∧
      s.logIndex = logCount ops ∧
      (∀ i j, i < j → j < s.logIndex → (s.slot i).timestamp ≤ (s.slot j).timestamp) ∧
      (∀ i, i + 1 < s.logIndex → (s.slot i).timestamp ≤ (s.slot (i + 1)).timestamp) := by
  obtain ⟨s, hrun, hidx, _, hent⟩ := runOps_after_start s0 ops hb hk
  have hpw := (capturedEntries_ticks ops (pwr_timestamp_start s0).hw hwrap).2
  rw [← hent, TsState.entries, List.pairwise_map, List.pairwise_iff_getElem] at hpw
  have key : ∀ i j, i < j → j < s.logIndex →
      (s.slot i).timestamp ≤ (s.slot j).timestamp := by
    intro i j hij hj
    have := hpw i j (by simp; omega) (by simpa using hj) hij
    simpa using this
  exact ⟨s, hrun, hidx, key, fun i hi => key i (i + 1) (Nat.lt_succ_self i) hi⟩

/-- C8, instantiated: three checkpoints with time passing in between. -/
theorem C8_ticks_monotone_witness :
    ∃ s, runOps [.log "a", .elapse 3, .log "b", .elapse 4, .log "c"]
        (pwr_timestamp_start bootState) = .ret s ∧
      s.logIndex = logCount [.log "a", .elapse 3, .log "b", .elapse 4, .log "c"] ∧
      (∀ i j, i < j → j < s.logIndex → (s.slot i).timestamp ≤ (s.slot j).timestamp) ∧
      (∀ i, i + 1 < s.logIndex → (s.slot i).timestamp ≤ (s.slot (i + 1)).timestamp) :=
  C8_ticks_monotone bootState [.log "a", .elapse 3, .log "b", .elapse 4, .log "c"]
    (by decide) (by decide) (by decide)

/-! ## Application loop: auxiliary facts -/

theorem phasesOf_append (a b : List Ev) : phasesOf (a ++ b) = phasesOf a ++ phasesOf b := by
  simp [phasesOf]

theorem phasesOf_replicate_call (n : Nat) (fn : String) :
    phasesOf (List.replicate n (.call fn)) = [] := by
  induction n with
  | zero => rfl
  | succ n ih =>
    rw [List.replicate_succ]
    show phasesOf ([Ev.call fn] ++ List.replicate n (.call fn)) = []
    rw [phasesOf_append, ih]
    rfl

theorem phasesOf_freqScaling (steps : List FrequencyStep) :
    phasesOf (runInference_freqScaling steps) = [] := by
  have hstep : ∀ st : FrequencyStep, phasesOf (freqScalingStep st) = [] := fun _ => rfl
  have hall : phasesOf (steps.map freqScalingStep).flatten = [] := by
    induction steps with
    | nil => rfl
    | cons st steps ih =>
      rw [List.map_cons, List.flatten_cons, phasesOf_append, hstep, ih]
      rfl
  show phasesOf ([Ev.enter "runInference_freqScaling"] ++ (steps.map freqScalingStep).flatten) = []
  rw [phasesOf_append, hall]
  decide

theorem phasesOf_cameraCapture (env : CycleEnv) : phasesOf (cameraCapture env) = [.Capture] := by
  unfold cameraCapture
  rw [phasesOf_append, phasesOf_append, phasesOf_replicate_call]
  decide

theorem phasesOf_nn_inference (cfg : BuildConfig) (steps : List FrequencyStep) :
    phasesOf (nn_inference cfg steps) = [.Inference] := by
  unfold nn_inference
  simp only [phasesOf_append]
  have h1 : phasesOf (if cfg.CPU_FRQ_SCALE_DOWN then [Ev.call "sysclk_SetCpuMaxFreq"] else []) = [] := by
    cases cfg.CPU_FRQ_SCALE_DOWN <;> decide
  have h2 : phasesOf (externMem_config cfg) = [] := by
    unfold externMem_config
    cases cfg.USE_PSRAM <;> decide
  have h3 : phasesOf (if cfg.USE_PSRAM then [Ev.call "BSP_XSPI_RAM_DeInit"] else []) = [] := by
    cases cfg.USE_PSRAM <;> decide
  rw [h1, h2, h3]
  cases cfg.NPU_FRQ_SCALING
  · simp only [Bool.false_eq_true, if_false]
    decide
  · simp only [if_true, phasesOf_freqScaling]
    decide

theorem phasesOf_postProcessing (cfg : BuildConfig) (env : CycleEnv) :
    phasesOf (postProcessing cfg env) = [.Postprocess] := by
  unfold postProcessing
  simp only [phasesOf_append, phasesOf_replicate_call]
  cases cfg.overdrive <;> cases cfg.NPU_FRQ_SCALING <;> cases cfg.CPU_FRQ_SCALE_DOWN <;> decide

theorem phasesOf_deInitIPs (cfg : BuildConfig) : phasesOf (deInitIPs cfg) = [.Teardown] := by
  unfold deInitIPs
  cases cfg.CPU_FRQ_SCALE_DOWN <;> decide

/-- One iteration of the loop goes through the nine phases, in order. -/
theorem phasesOf_appLoopBody (cfg : BuildConfig) (env : CycleEnv) :
    phasesOf (appLoopBody cfg env) = phaseCycle := by
  unfold appLoopBody
  simp only [phasesOf_append, phasesOf_cameraCapture, phasesOf_nn_inference,
    phasesOf_postProcessing, phasesOf_deInitIPs]
  decide

theorem phasesOf_appLoop (cfg : BuildConfig) (envs : List CycleEnv) :
    phasesOf (appLoop cfg envs) = (List.replicate envs.length phaseCycle).flatten := by
  induction envs with
  | nil => rfl
  | cons env envs ih =>
    rw [appLoop, phasesOf_append, phasesOf_appLoopBody, ih, List.length_cons,
      List.replicate_succ, List.flatten_cons]

theorem cycle_getElem (m : Nat) :
    ∀ n, n < 9 * m →
      ((List.replicate m phaseCycle).flatten)[n]? = phaseCycle[n % 9]? := by
  induction m with
  | zero => intro n hn; omega
  | succ m ih =>
    intro n hn
    rw [List.replicate_succ, List.flatten_cons]
    have hlen : phaseCycle.length = 9 := rfl
    by_cases h9 : n < 9
    · rw [List.getElem?_append_left (by rw [hlen]; exact h9), Nat.mod_eq_of_lt h9]
    · rw [List.getElem?_append_right (by rw [hlen]; omega), hlen, ih (n - 9) (by omega)]
      congr 1
      omega

theorem loggedLabels_append (a b : List Ev) :
    loggedLabels (a ++ b) = loggedLabels a ++ loggedLabels b := by
  simp [loggedLabels]

theorem loggedLabels_replicate_call (n : Nat) (fn : String) :
    loggedLabels (List.replicate n (.call fn)) = [] := by
  induction n with
  | zero => rfl
  | succ n ih =>
    rw [List.replicate_succ]
    show loggedLabels ([Ev.call fn] ++ List.replicate n (.call fn)) = []
    rw [loggedLabels_append, ih]
    rfl

/-- The labels logged in one cycle of a build without frequency scaling. -/
theorem loggedLabels_nonScaling (cfg : BuildConfig) (env : CycleEnv)
    (h : cfg.NPU_FRQ_SCALING = false) :
    loggedLabels (appLoopBody cfg env) =
      [ "start timestamp", "CAM init", "camera started", "wait frame", "ISP update",
        "camera de-init" ] ++
      (if cfg.USE_PSRAM then [ "External RAM init" ] else []) ++
      [ "NOR flash init", "NPU and NPU Rams config", "nn inference (dry run)",
        "nn inference", "post processing" ] := by
  unfold appLoopBody cameraCapture nn_inference postProcessing deInitIPs externMem_config
    BuildConfig.overdrive
  simp only [loggedLabels_append, loggedLabels_replicate_call, h]
  cases cfg.USE_PSRAM <;> cases cfg.CPU_FRQ_SCALE_DOWN <;> cases cfg.POWER_OVERDRIVE <;> decide

/-! ## Application loop: the claims -/

/-- C9 (phase order). In a run of the application loop over any number of
iterations, in any build, the phases entered are the nine phases WaitTrigger,
StartPower, CameraInit, Capture, CameraDeinit, Inference, Postprocess,
SendTelemetry, Teardown, each once per iteration and in this order: the `n`-th
phase entered is number `n mod 9` of that list, so Teardown is followed by
WaitTrigger. -/
theorem C9_phase_order (cfg : BuildConfig) (envs : List CycleEnv) :
    (∀ env, phasesOf (appLoopBody cfg env) =
      [ .WaitTrigger, .StartPower, .CameraInit, .Capture, .CameraDeinit,
        .Inference, .Postprocess, .SendTelemetry, .Teardown ]) ∧
    phasesOf (appLoop cfg envs) = (List.replicate envs.length phaseCycle).flatten ∧
    (∀ n, n < 9 * envs.length → (phasesOf (appLoop cfg envs))[n]? = phaseCycle[n % 9]?) ∧
    (∀ env1 env2, (phasesOf (appLoop cfg [env1, env2]))[8]? = some .Teardown ∧
      (phasesOf (appLoop cfg [env1, env2]))[9]? = some .WaitTrigger) := by
  refine ⟨fun env => phasesOf_appLoopBody cfg env, phasesOf_appLoop cfg envs, ?_, ?_⟩
  · intro n hn
    rw [phasesOf_appLoop]
    exact cycle_getElem envs.length n hn
  · intro env1 env2
    rw [phasesOf_appLoop]
    show (List.replicate 2 phaseCycle).flatten[8]? = some .Teardown ∧
      (List.replicate 2 phaseCycle).flatten[9]? = some .WaitTrigger
    exact ⟨by decide, by decide⟩

/-- C9, instantiated: over two iterations, the phase entered at position 9
(the tenth) is WaitTrigger again. -/
theorem C9_phase_order_witness :
    (phasesOf (appLoop
        { POWER_OVERDRIVE := true, CPU_FRQ_SCALE_DOWN := false,
          NPU_FRQ_SCALING := false, USE_PSRAM := false }
        [ { frameWaitSleeps := 1, number_output := 1 },
          { frameWaitSleeps := 2, number_output := 1 } ]))[9]? = phaseCycle[9 % 9]? :=
  (C9_phase_order
    { POWER_OVERDRIVE := true, CPU_FRQ_SCALE_DOWN := false,
      NPU_FRQ_SCALING := false, USE_PSRAM := false }
    [ { frameWaitSleeps := 1, number_output := 1 },
      { frameWaitSleeps := 2, number_output := 1 } ]).2.2.1 9 (by decide)

/-- C10 (checkpoint labels, no frequency scaling). In one cycle of a build with
`NPU_FRQ_SCALING = 0`, the labels passed to `pwr_timestamp_log`, restricted to
the ten labels of the scenario, are exactly those ten labels in the order
"start timestamp", "CAM init", "camera started", "wait frame", "ISP update",
"camera de-init", "NPU and NPU Rams config", "nn inference (dry run)",
"nn inference", "post processing"; each occurs once; the first label logged is
"start timestamp" and the last is "post processing". -/
theorem C10_label_sequence (cfg : BuildConfig) (env : CycleEnv)
    (h : cfg.NPU_FRQ_SCALING = false) :
    (loggedLabels (appLoopBody cfg env)).filter (fun l => decide (l ∈ scenarioLabels)) =
      scenarioLabels ∧
    (∀ l ∈ scenarioLabels, (loggedLabels (appLoopBody cfg env)).count l = 1) ∧
    List.Sublist scenarioLabels (loggedLabels (appLoopBody cfg env)) ∧
    (loggedLabels (appLoopBody cfg env)).head? = some "start timestamp" ∧
    (loggedLabels (appLoopBody cfg env)).getLast? = some "post processing" := by
  rw [loggedLabels_nonScaling cfg env h]
  cases cfg.USE_PSRAM <;> decide

/-- C10, instantiated at the default build of `app_config.h` (overdrive on,
everything else off). -/
theorem C10_label_sequence_witness :
    (loggedLabels (appLoopBody
        { POWER_OVERDRIVE := true, CPU_FRQ_SCALE_DOWN := false,
          NPU_FRQ_SCALING := false, USE_PSRAM := false }
        { frameWaitSleeps := 1, number_output := 1 })).filter
        (fun l => decide (l ∈ scenarioLabels)) = scenarioLabels ∧
    (∀ l ∈ scenarioLabels, (loggedLabels (appLoopBody
        { POWER_OVERDRIVE := true, CPU_FRQ_SCALE_DOWN := false,
          NPU_FRQ_SCALING := false, USE_PSRAM := false }
        { frameWaitSleeps := 1, number_output := 1 })).count l = 1) ∧
    List.Sublist scenarioLabels (loggedLabels (appLoopBody
        { POWER_OVERDRIVE := true, CPU_FRQ_SCALE_DOWN := false,
          NPU_FRQ_SCALING := false, USE_PSRAM := false }
        { frameWaitSleeps := 1, number_output := 1 })) ∧
    (loggedLabels (appLoopBody
        { POWER_OVERDRIVE := true, CPU_FRQ_SCALE_DOWN := false,
          NPU_FRQ_SCALING := false, USE_PSRAM := false }
        { frameWaitSleeps := 1, number_output := 1 })).head? = some "start timestamp" ∧
    (loggedLabels (appLoopBody
        { POWER_OVERDRIVE := true, CPU_FRQ_SCALE_DOWN := false,
          NPU_FRQ_SCALING := false, USE_PSRAM := false }
        { frameWaitSleeps := 1, number_output := 1 })).getLast? = some "post processing" :=
  C10_label_sequence
    { POWER_OVERDRIVE := true, CPU_FRQ_SCALE_DOWN := false,
      NPU_FRQ_SCALING := false, USE_PSRAM := false }
    { frameWaitSleeps := 1, number_output := 1 } rfl

/-! ## Inference accounting: auxiliary facts -/

theorem inferenceTrace_append (a b : List Ev) :
    inferenceTrace (a ++ b) = inferenceTrace a ++ inferenceTrace b := by
  simp [inferenceTrace]

theorem inferenceTrace_replicate_call (n : Nat) (fn : String) (h : fn ≠ "LL_ATON_RT_Main") :
    inferenceTrace (List.replicate n (.call fn)) = [] := by
  induction n with
  | zero => rfl
  | succ n ih =>
    rw [List.replicate_succ]
    show inferenceTrace ([Ev.call fn] ++ List.replicate n (.call fn)) = []
    rw [inferenceTrace_append, ih]
    simp [inferenceTrace, inferenceView, h]

/-- The inference view of the sweep: per table row, the configuration
checkpoint, one inference, the checkpoint named after the row. -/
theorem inferenceTrace_freqScaling (steps : List FrequencyStep) :
    inferenceTrace (runInference_freqScaling steps) =
      (steps.map fun s =>
        [InfEv.checkpoint "config npu clock scaling", .inference, .checkpoint s.stepName]).flatten := by
  have hstep : ∀ st : FrequencyStep, inferenceTrace (freqScalingStep st) =
      [InfEv.checkpoint "config npu clock scaling", .inference, .checkpoint st.stepName] :=
    fun _ => rfl
  show inferenceTrace ([Ev.enter "runInference_freqScaling"] ++ (steps.map freqScalingStep).flatten) = _
  rw [inferenceTrace_append]
  induction steps with
  | nil => rfl
  | cons st steps ih =>
    rw [List.map_cons, List.flatten_cons, inferenceTrace_append, hstep, List.map_cons,
      List.flatten_cons]
    have : inferenceTrace [Ev.enter "runInference_freqScaling"] = [] := rfl
    rw [this, List.nil_append] at ih ⊢
    rw [ih]

theorem loggedLabels_freqScaling (steps : List FrequencyStep) :
    loggedLabels (runInference_freqScaling steps) = (steps.map stepLabels).flatten := by
  have hstep : ∀ st : FrequencyStep, loggedLabels (freqScalingStep st) = stepLabels st :=
    fun _ => rfl
  show loggedLabels ([Ev.enter "runInference_freqScaling"] ++ (steps.map freqScalingStep).flatten) = _
  rw [loggedLabels_append]
  have : loggedLabels [Ev.enter "runInference_freqScaling"] = [] := rfl
  rw [this, List.nil_append]
  induction steps with
  | nil => rfl
  | cons st steps ih =>
    rw [List.map_cons, List.flatten_cons, loggedLabels_append, hstep, ih, List.map_cons,
      List.flatten_cons]

theorem tsOpsOf_append {hw : TimerInitEffect} (a b : List Ev) : tsOpsOf hw (a ++ b) = tsOpsOf hw a ++ tsOpsOf hw b := by
  simp [tsOpsOf]

theorem tsOpsOf_freqScaling {hw : TimerInitEffect} (steps : List FrequencyStep) :
    tsOpsOf hw (runInference_freqScaling steps) = ((steps.map stepLabels).flatten).map TsOp.log := by
  have hstep : ∀ st : FrequencyStep,
      tsOpsOf hw (freqScalingStep st) = (stepLabels st).map TsOp.log := fun _ => rfl
  show tsOpsOf hw ([Ev.enter "runInference_freqScaling"] ++ (steps.map freqScalingStep).flatten) = _
  rw [tsOpsOf_append]
  have : tsOpsOf hw [Ev.enter "runInference_freqScaling"] = [] := rfl
  rw [this, List.nil_append]
  induction steps with
  | nil => rfl
  | cons st steps ih =>
    rw [List.map_cons, List.flatten_cons, tsOpsOf_append, hstep, ih, List.map_cons,
      List.flatten_cons, List.map_append]

theorem logLabels_map_log (l : List String) : logLabels (l.map TsOp.log) = l := by
  induction l with
  | nil => rfl
  | cons a l ih => simp [logLabels, ih]

theorem inBracket_map_log (l : List String) :
    ∀ op ∈ l.map TsOp.log, op.inBracket = true := by
  intro op hop
  obtain ⟨a, _, rfl⟩ := List.mem_map.mp hop
  rfl

theorem stepLabels_flatten_length (steps : List FrequencyStep) :
    ((steps.map stepLabels).flatten).length = 2 * steps.length := by
  induction steps with
  | nil => rfl
  | cons st steps ih =>
    rw [List.map_cons, List.flatten_cons, List.length_append, ih, List.length_cons]
    simp [stepLabels]
    omega

theorem count_inference_sweep (steps : List FrequencyStep) :
    ((steps.map fun s =>
        [InfEv.checkpoint "config npu clock scaling", .inference, .checkpoint s.stepName]).flatten).count
      .inference = steps.length := by
  induction steps with
  | nil => rfl
  | cons st steps ih =>
    rw [List.map_cons, List.flatten_cons, List.count_append, ih, List.length_cons]
    simp [List.count_cons]
    omega

/-- The inference view of `nn_inference` in a build without frequency
scaling. -/
theorem inferenceTrace_nn_nonScaling (cfg : BuildConfig) (steps : List FrequencyStep)
    (h : cfg.NPU_FRQ_SCALING = false) :
    inferenceTrace (nn_inference cfg steps) =
      (if cfg.USE_PSRAM then [InfEv.checkpoint "External RAM init"] else []) ++
      [ .checkpoint "NOR flash init", .checkpoint "NPU and NPU Rams config",
        .inference, .checkpoint "nn inference (dry run)",
        .inference, .checkpoint "nn inference" ] := by
  unfold nn_inference externMem_config
  simp only [inferenceTrace_append, h, Bool.false_eq_true, if_false]
  cases cfg.USE_PSRAM <;> cases cfg.CPU_FRQ_SCALE_DOWN <;> decide

/-- The inference view of `nn_inference` in a build with frequency scaling. -/
theorem inferenceTrace_nn_scaling (cfg : BuildConfig) (steps : List FrequencyStep)
    (h : cfg.NPU_FRQ_SCALING = true) :
    inferenceTrace (nn_inference cfg steps) =
      (if cfg.USE_PSRAM then [InfEv.checkpoint "External RAM init"] else []) ++
      [ .checkpoint "NOR flash init", .checkpoint "NPU and NPU Rams config" ] ++
      (steps.map fun s =>
        [InfEv.checkpoint "config npu clock scaling", .inference, .checkpoint s.stepName]).flatten := by
  unfold nn_inference externMem_config
  simp only [inferenceTrace_append, h, if_true, inferenceTrace_freqScaling]
  cases cfg.USE_PSRAM <;> cases cfg.CPU_FRQ_SCALE_DOWN <;>
    simp [inferenceTrace, inferenceView, NPURam_enable, NPUCache_enable]

/-- The inference view of one cycle of a build without frequency scaling. -/
theorem inferenceTrace_cycle_nonScaling (cfg : BuildConfig) (env : CycleEnv)
    (h : cfg.NPU_FRQ_SCALING = false) :
    inferenceTrace (appLoopBody cfg env) =
      [ InfEv.checkpoint "start timestamp", .checkpoint "CAM init",
        .checkpoint "camera started", .checkpoint "wait frame", .checkpoint "ISP update",
        .checkpoint "camera de-init" ] ++
      (if cfg.USE_PSRAM then [InfEv.checkpoint "External RAM init"] else []) ++
      [ .checkpoint "NOR flash init", .checkpoint "NPU and NPU Rams config",
        .inference, .checkpoint "nn inference (dry run)",
        .inference, .checkpoint "nn inference", .checkpoint "post processing" ] := by
  unfold appLoopBody
  simp only [inferenceTrace_append, inferenceTrace_nn_nonScaling cfg frequencySteps h]
  unfold cameraCapture postProcessing deInitIPs BuildConfig.overdrive
  simp only [inferenceTrace_append, h,
    inferenceTrace_replicate_call _ "HAL_PWR_EnterSLEEPMode" (by decide),
    inferenceTrace_replicate_call _ "SCB_InvalidateDCache_by_Addr" (by decide)]
  cases cfg.USE_PSRAM <;> cases cfg.CPU_FRQ_SCALE_DOWN <;> cases cfg.POWER_OVERDRIVE <;> decide

/-! ## Inference accounting: the claims -/

/-- C11 (dry run). In a build with `NPU_FRQ_SCALING = 0`, `nn_inference` calls
`LL_ATON_RT_Main` exactly twice, and these are the only two calls of a cycle;
the checkpoint logged right after the first call is "nn inference (dry run)",
the one logged right after the second is "nn inference", and each of the two
labels is logged once per cycle. -/
theorem C11_dry_run (cfg : BuildConfig) (env : CycleEnv) (steps : List FrequencyStep)
    (h : cfg.NPU_FRQ_SCALING = false) :
    inferenceTrace (nn_inference cfg steps) =
      (if cfg.USE_PSRAM then [InfEv.checkpoint "External RAM init"] else []) ++
      [ .checkpoint "NOR flash init", .checkpoint "NPU and NPU Rams config",
        .inference, .checkpoint "nn inference (dry run)",
        .inference, .checkpoint "nn inference" ] ∧
    (inferenceTrace (nn_inference cfg steps)).count .inference = 2 ∧
    (inferenceTrace (appLoopBody cfg env)).count .inference = 2 ∧
    (inferenceTrace (appLoopBody cfg env)).count (.checkpoint "nn inference") = 1 ∧
    (inferenceTrace (appLoopBody cfg env)).count (.checkpoint "nn inference (dry run)") = 1 := by
  refine ⟨inferenceTrace_nn_nonScaling cfg steps h, ?_, ?_, ?_, ?_⟩
  · rw [inferenceTrace_nn_nonScaling cfg steps h]
    cases cfg.USE_PSRAM <;> decide
  all_goals
    rw [inferenceTrace_cycle_nonScaling cfg env h]
    cases cfg.USE_PSRAM <;> decide

/-- C11, instantiated at the default build. -/
theorem C11_dry_run_witness :
    inferenceTrace (nn_inference defaultBuild frequencySteps) =
      (if defaultBuild.USE_PSRAM then [InfEv.checkpoint "External RAM init"] else []) ++
      [ .checkpoint "NOR flash init", .checkpoint "NPU and NPU Rams config",
        .inference, .checkpoint "nn inference (dry run)",
        .inference, .checkpoint "nn inference" ] ∧
    (inferenceTrace (nn_inference defaultBuild frequencySteps)).count .inference = 2 ∧
    (inferenceTrace (appLoopBody defaultBuild sampleEnv)).count .inference = 2 ∧
    (inferenceTrace (appLoopBody defaultBuild sampleEnv)).count (.checkpoint "nn inference") = 1 ∧
    (inferenceTrace (appLoopBody defaultBuild sampleEnv)).count
      (.checkpoint "nn inference (dry run)") = 1 :=
  C11_dry_run defaultBuild sampleEnv frequencySteps rfl

/-- C12 (sweep completeness). For a step table of `N` rows,
`runInference_freqScaling` performs, row by row in table order, the checkpoint
"config npu clock scaling", one inference, and the checkpoint named after the
row: `N` inferences and `2N` checkpoints, none skipped, repeated or reordered;
in a scaling build this is how `nn_inference` ends its checkpoints. Run on the
timestamp log with room for `2N` entries, the `2N` calls return and append
exactly these entries. -/
theorem C12_sweep (hw : TimerInitEffect) (steps : List FrequencyStep) :
    inferenceTrace (runInference_freqScaling steps) =
      (steps.map fun s =>
        [InfEv.checkpoint "config npu clock scaling", .inference, .checkpoint s.stepName]).flatten ∧
    (inferenceTrace (runInference_freqScaling steps)).count .inference = steps.length ∧
    loggedLabels (runInference_freqScaling steps) = (steps.map stepLabels).flatten ∧
    (loggedLabels (runInference_freqScaling steps)).length = 2 * steps.length ∧
    (∀ cfg : BuildConfig, cfg.NPU_FRQ_SCALING = true →
      inferenceTrace (nn_inference cfg steps) =
        (if cfg.USE_PSRAM then [InfEv.checkpoint "External RAM init"] else []) ++
        [ .checkpoint "NOR flash init", .checkpoint "NPU and NPU Rams config" ] ++
        (steps.map fun s =>
          [InfEv.checkpoint "config npu clock scaling", .inference,
            .checkpoint s.stepName]).flatten) ∧
    (∀ s : TsState, s.logIndex + 2 * steps.length ≤ 100 →
      ∃ s1, runOps (tsOpsOf hw (runInference_freqScaling steps)) s = .ret s1 ∧
        s1.logIndex = s.logIndex + 2 * steps.length ∧
        (List.range' s.logIndex (2 * steps.length)).map (fun i => (s1.slot i).name) =
          ((steps.map stepLabels).flatten).map some) := by
  refine ⟨inferenceTrace_freqScaling steps, ?_, loggedLabels_freqScaling steps, ?_,
    fun cfg h => inferenceTrace_nn_scaling cfg steps h, ?_⟩
  · rw [inferenceTrace_freqScaling, count_inference_sweep]
  · rw [loggedLabels_freqScaling, stepLabels_flatten_length]
  · intro s hroom
    have hcount : logCount (tsOpsOf hw (runInference_freqScaling steps)) = 2 * steps.length := by
      rw [tsOpsOf_freqScaling, logCount, logLabels_map_log, stepLabels_flatten_length]
    obtain ⟨s1, hrun, hidx, _, _, hcapt⟩ :=
      runOps_bracket (tsOpsOf hw (runInference_freqScaling steps)) s
        (by rw [tsOpsOf_freqScaling]; exact inBracket_map_log _)
        (by rw [hcount]; exact hroom)
    refine ⟨s1, hrun, by rw [hidx, hcount], ?_⟩
    have hn := congrArg (List.map fun e : LogEntry_t => e.name) hcapt
    rw [capturedEntries_names, tsOpsOf_freqScaling, logLabels_map_log, List.map_map,
      ← tsOpsOf_freqScaling, hcount] at hn
    exact hn

/-- C12, instantiated: a table of three rows, swept on a started, empty log. -/
theorem C12_sweep_witness :
    ∃ s1, runOps (tsOpsOf sampleInitEffect (runInference_freqScaling (frequencySteps.take 3)))
        (pwr_timestamp_start bootState) = .ret s1 ∧
      s1.logIndex = (pwr_timestamp_start bootState).logIndex + 2 * (frequencySteps.take 3).length ∧
      (List.range' (pwr_timestamp_start bootState).logIndex
          (2 * (frequencySteps.take 3).length)).map (fun i => (s1.slot i).name) =
        (((frequencySteps.take 3).map stepLabels).flatten).map some :=
  (C12_sweep sampleInitEffect (frequencySteps.take 3)).2.2.2.2.2 (pwr_timestamp_start bootState) (by decide)

/-! ## Resource domains: auxiliary facts -/

theorem occursBefore_mem (a b : Ev) (l : List Ev) (h : occursBefore a b l = true) : b ∈ l := by
  induction l with
  | nil => simp [occursBefore] at h
  | cons x t ih =>
    unfold occursBefore at h
    by_cases hx : x = a
    · rw [if_pos hx] at h
      exact List.mem_cons_of_mem _ (of_decide_eq_true h)
    · rw [if_neg hx] at h
      exact List.mem_cons_of_mem _ (ih h)

/-- What `occursBefore` computes: a split of the trace around `a` and a later
`b`. -/
theorem occursBefore_split (a b : Ev) (l : List Ev) (h : occursBefore a b l = true) :
    ∃ pre mid post, l = pre ++ a :: (mid ++ b :: post) := by
  induction l with
  | nil => simp [occursBefore] at h
  | cons x t ih =>
    unfold occursBefore at h
    by_cases hx : x = a
    · rw [if_pos hx] at h
      obtain ⟨mid, post, ht⟩ := List.append_of_mem (of_decide_eq_true h)
      exact ⟨[], mid, post, by rw [hx, ht]; rfl⟩
    · rw [if_neg hx] at h
      obtain ⟨pre, mid, post, ht⟩ := ih h
      exact ⟨x :: pre, mid, post, by rw [ht]; rfl⟩

/-- Order seen in a filtered view holds in the trace itself. -/
theorem occursBefore_of_filter (p : Ev → Bool) (a b : Ev) (l : List Ev)
    (h : occursBefore a b (l.filter p) = true) : occursBefore a b l = true := by
  induction l with
  | nil => simp [occursBefore] at h
  | cons x t ih =>
    by_cases hp : p x = true
    · rw [List.filter_cons_of_pos hp] at h
      unfold occursBefore at h ⊢
      by_cases hx : x = a
      · rw [if_pos hx] at h ⊢
        exact decide_eq_true (List.mem_filter.mp (of_decide_eq_true h)).1
      · rw [if_neg hx] at h ⊢
        exact ih h
    · rw [List.filter_cons_of_neg hp] at h
      have ht := ih h
      unfold occursBefore
      by_cases hx : x = a
      · rw [if_pos hx]
        exact decide_eq_true (occursBefore_mem a b t ht)
      · rw [if_neg hx]
        exact ht

theorem domainTrace_append (a b : List Ev) :
    domainTrace (a ++ b) = domainTrace a ++ domainTrace b := by
  simp [domainTrace]

theorem domainTrace_replicate (n : Nat) (e : Ev) (h : e ∉ domainEvents) :
    domainTrace (List.replicate n e) = [] := by
  unfold domainTrace
  exact List.filter_replicate_of_neg (by simpa using h)

theorem domainTrace_freqScaling (steps : List FrequencyStep) :
    domainTrace (runInference_freqScaling steps) = [] := by
  have hstep : ∀ st : FrequencyStep, domainTrace (freqScalingStep st) = [] := by
    intro st
    simp [domainTrace, freqScalingStep, domainEvents]
  show domainTrace ([Ev.enter "runInference_freqScaling"] ++ (steps.map freqScalingStep).flatten) = []
  rw [domainTrace_append]
  have h0 : domainTrace [Ev.enter "runInference_freqScaling"] = [] := by decide
  rw [h0, List.nil_append]
  induction steps with
  | nil => rfl
  | cons st steps ih =>
    rw [List.map_cons, List.flatten_cons, domainTrace_append, hstep, ih]
    rfl

/-- The domain view of one cycle. -/
theorem domainTrace_appLoopBody (cfg : BuildConfig) (env : CycleEnv) :
    domainTrace (appLoopBody cfg env) = domainCycle cfg := by
  unfold appLoopBody cameraCapture nn_inference postProcessing deInitIPs externMem_config
    sendTimestamp domainCycle
  simp only [domainTrace_append, domainTrace_freqScaling,
    domainTrace_replicate _ (Ev.call "HAL_PWR_EnterSLEEPMode") (by decide),
    domainTrace_replicate _ (Ev.call "SCB_InvalidateDCache_by_Addr") (by decide)]
  cases cfg.USE_PSRAM <;> cases cfg.CPU_FRQ_SCALE_DOWN <;> cases cfg.overdrive <;>
    cases cfg.NPU_FRQ_SCALING <;> simp only [Bool.false_eq_true, if_false, if_true] <;> decide

/-! ## Resource domains: the claims -/

/-- C13 (domain balance). In the call trace of one complete iteration of the
loop, in any build: the enable/disable calls are, in order, exactly those of
`domainCycle`; for each domain (NPU clock, NPU RAM, NPU cache, external flash,
PSRAM when `USE_PSRAM = 1`, console UART, camera) the enable procedure occurs
once, the disable procedure occurs once, and the enable occurs before the
disable; `waitForUserTrigger` is entered once, as the first event, so all of
this happens before it is entered again. -/
theorem C13_domain_balance (cfg : BuildConfig) (env : CycleEnv) :
    domainTrace (appLoopBody cfg env) = domainCycle cfg ∧
    (∀ p ∈ domainPairs cfg,
      (appLoopBody cfg env).count p.1 = 1 ∧
      (appLoopBody cfg env).count p.2 = 1 ∧
      occursBefore p.1 p.2 (appLoopBody cfg env) = true ∧
      ∃ pre mid post, appLoopBody cfg env = pre ++ p.1 :: (mid ++ p.2 :: post)) ∧
    (appLoopBody cfg env).head? = some (.enter "waitForUserTrigger") ∧
    (appLoopBody cfg env).count (.enter "waitForUserTrigger") = 1 := by
  have hview := domainTrace_appLoopBody cfg env
  have hcount : ∀ e ∈ domainEvents,
      (appLoopBody cfg env).count e = (domainCycle cfg).count e := by
    intro e he
    rw [← hview, domainTrace, List.count_filter (by simpa using he)]
  have hpairs : ∀ p ∈ domainPairs cfg,
      p.1 ∈ domainEvents ∧ p.2 ∈ domainEvents ∧
      (domainCycle cfg).count p.1 = 1 ∧ (domainCycle cfg).count p.2 = 1 ∧
      occursBefore p.1 p.2 (domainCycle cfg) = true := by
    unfold domainPairs domainCycle
    cases cfg.USE_PSRAM <;> decide
  refine ⟨hview, ?_, rfl, ?_⟩
  · intro p hp
    obtain ⟨h1, h2, hc1, hc2, hord⟩ := hpairs p hp
    have hbefore : occursBefore p.1 p.2 (appLoopBody cfg env) = true := by
      apply occursBefore_of_filter (fun e => decide (e ∈ domainEvents))
      show occursBefore p.1 p.2 (domainTrace (appLoopBody cfg env)) = true
      rw [hview]
      exact hord
    exact ⟨by rw [hcount _ h1, hc1], by rw [hcount _ h2, hc2], hbefore,
      occursBefore_split _ _ _ hbefore⟩
  · rw [hcount _ (by decide)]
    unfold domainCycle
    cases cfg.USE_PSRAM <;> decide

/-! ## Observers: auxiliary facts -/

theorem annotate_append {σ : Type} (f : σ → Ev → σ) (a b : List Ev) :
    ∀ st : σ, annotate f st (a ++ b) = annotate f st a ++ annotate f (observe f st a) b := by
  induction a with
  | nil => intro st; rfl
  | cons e a ih =>
    intro st
    show (st, e) :: annotate f (f st e) (a ++ b) = _
    rw [ih]
    rfl

theorem observe_append {σ : Type} (f : σ → Ev → σ) (a b : List Ev) (st : σ) :
    observe f st (a ++ b) = observe f (observe f st a) b := by
  simp [observe]

theorem annotate_snd_mem {σ : Type} (f : σ → Ev → σ) (t : List Ev) :
    ∀ (st : σ) (p : σ × Ev), p ∈ annotate f st t → p.2 ∈ t := by
  induction t with
  | nil => intro st p hp; simp [annotate] at hp
  | cons e t ih =>
    intro st p hp
    rcases List.mem_cons.mp hp with rfl | h
    · exact List.mem_cons_self _ _
    · exact List.mem_cons_of_mem _ (ih _ p h)

/-- A property of the observer state that every event of the trace preserves
holds at every point of the trace and at its end. -/
theorem annotate_invariant {σ : Type} (f : σ → Ev → σ) (I : σ → Prop) (t : List Ev) :
    ∀ st : σ, I st → (∀ e ∈ t, ∀ s, I s → I (f s e)) →
      (∀ p ∈ annotate f st t, I p.1) ∧ I (observe f st t) := by
  induction t with
  | nil =>
    intro st hst _
    exact ⟨fun p hp => by simp [annotate] at hp, hst⟩
  | cons e t ih =>
    intro st hst hstep
    have hnext : I (f st e) := hstep e (List.mem_cons_self _ _) st hst
    obtain ⟨h1, h2⟩ := ih (f st e) hnext (fun e' he' => hstep e' (List.mem_cons_of_mem _ he'))
    refine ⟨?_, h2⟩
    intro p hp
    rcases List.mem_cons.mp hp with rfl | h
    · exact hst
    · exact h1 p h

theorem all_replicate_of (p : Ev → Bool) (n : Nat) (e : Ev) (h : p e = true) :
    (List.replicate n e).all p = true := by
  rw [List.all_eq_true]
  intro x hx
  rw [List.eq_of_mem_replicate hx]
  exact h

/-! ## Trigger output: auxiliary facts -/

theorem appLoopBody_split (cfg : BuildConfig) (env : CycleEnv) :
    appLoopBody cfg env =
      waitForUserTrigger ++ (startStlinkPwr ++ (measuredPhases cfg env ++ deInitIPs cfg)) := by
  unfold appLoopBody measuredPhases
  simp only [List.append_assoc]

theorem measuredPhases_quiet (cfg : BuildConfig) (env : CycleEnv) :
    ∀ e ∈ measuredPhases cfg env, e.quietForTrigger = true := by
  rw [← List.all_eq_true]
  obtain ⟨od, sd, sc, ps⟩ := cfg
  unfold measuredPhases cameraCapture postProcessing
  simp only [List.all_append,
    all_replicate_of Ev.quietForTrigger _ (Ev.call "HAL_PWR_EnterSLEEPMode") (by decide),
    all_replicate_of Ev.quietForTrigger _ (Ev.call "SCB_InvalidateDCache_by_Addr") (by decide)]
  cases od <;> cases sd <;> cases sc <;> cases ps <;> decide

theorem triggerStep_quiet (e : Ev) (h : e.quietForTrigger = true) (v : TriggerView)
    (hv : v.pin = .GPIO_PIN_SET ∧ v.phase ≠ some .WaitTrigger) :
    (v.step e).pin = .GPIO_PIN_SET ∧ (v.step e).phase ≠ some .WaitTrigger := by
  simp only [Ev.quietForTrigger, Bool.and_eq_true, Bool.not_eq_true', decide_eq_true_eq] at h
  obtain ⟨hw, hph⟩ := h
  constructor
  · cases e <;> simp_all [TriggerView.step, Ev.writesTrigger]
  · show phaseAfter v.phase e ≠ some .WaitTrigger
    unfold phaseAfter
    cases hps : phaseStarted e with
    | none => exact hv.2
    | some q =>
      intro hq
      exact hph (by rw [hps]; exact hq)

theorem triggerTrace_append (a b : List Ev) :
    triggerTrace (a ++ b) = triggerTrace a ++ triggerTrace b := by
  simp [triggerTrace]

theorem triggerTrace_measured (cfg : BuildConfig) (env : CycleEnv) :
    triggerTrace (measuredPhases cfg env) = [] := by
  unfold triggerTrace
  rw [List.filter_eq_nil_iff]
  intro e he
  have hq := measuredPhases_quiet cfg env e he
  have hne : e ≠ .pwr_timestamp_start := by
    intro hc
    subst hc
    have hmem : Ev.pwr_timestamp_start ∈ measuredPhases cfg env := he
    have hall : (measuredPhases cfg env).all (fun x => decide (x ≠ .pwr_timestamp_start)) = true := by
      obtain ⟨od, sd, sc, ps⟩ := cfg
      unfold measuredPhases cameraCapture postProcessing
      simp only [List.all_append,
        all_replicate_of (fun x => decide (x ≠ .pwr_timestamp_start)) _
          (Ev.call "HAL_PWR_EnterSLEEPMode") (by decide),
        all_replicate_of (fun x => decide (x ≠ .pwr_timestamp_start)) _
          (Ev.call "SCB_InvalidateDCache_by_Addr") (by decide)]
      cases od <;> cases sd <;> cases sc <;> cases ps <;> decide
    have := List.all_eq_true.mp hall _ hmem
    simp at this
  simp only [Ev.quietForTrigger, Bool.and_eq_true, Bool.not_eq_true'] at hq
  simp [hq.1, hne]

theorem trigger_in_wait (v0 : TriggerView) :
    observe TriggerView.step v0 waitForUserTrigger = ⟨.GPIO_PIN_RESET, some .WaitTrigger⟩ ∧
    (∀ p ∈ annotate TriggerView.step v0 waitForUserTrigger,
      p.2.isLogOrSend = false ∧
      (p.2 = .call "HAL_PWR_EnterSLEEPMode" → p.1.pin = .GPIO_PIN_RESET)) := by
  obtain ⟨pin, phase⟩ := v0
  cases pin <;> cases phase <;> first | decide | (rename_i ph; cases ph <;> decide)

theorem trigger_in_start :
    observe TriggerView.step ⟨.GPIO_PIN_RESET, some .WaitTrigger⟩ startStlinkPwr =
      ⟨.GPIO_PIN_SET, some .StartPower⟩ ∧
    (∀ p ∈ annotate TriggerView.step ⟨.GPIO_PIN_RESET, some .WaitTrigger⟩ startStlinkPwr,
      (p.2.isLogOrSend = true → p.1.pin = .GPIO_PIN_SET) ∧
      p.2 ≠ .call "HAL_PWR_EnterSLEEPMode") := by
  decide

theorem trigger_in_measured (cfg : BuildConfig) (env : CycleEnv) :
    (∀ p ∈ annotate TriggerView.step ⟨.GPIO_PIN_SET, some .StartPower⟩ (measuredPhases cfg env),
      p.1.pin = .GPIO_PIN_SET ∧ p.1.phase ≠ some .WaitTrigger) ∧
    ((observe TriggerView.step ⟨.GPIO_PIN_SET, some .StartPower⟩ (measuredPhases cfg env)).pin =
        .GPIO_PIN_SET ∧
      (observe TriggerView.step ⟨.GPIO_PIN_SET, some .StartPower⟩ (measuredPhases cfg env)).phase ≠
        some .WaitTrigger) :=
  annotate_invariant TriggerView.step
    (fun v => v.pin = .GPIO_PIN_SET ∧ v.phase ≠ some .WaitTrigger)
    (measuredPhases cfg env) ⟨.GPIO_PIN_SET, some .StartPower⟩ (by decide)
    (fun e he v hv => triggerStep_quiet e (measuredPhases_quiet cfg env e he) v hv)

theorem trigger_in_deInit (cfg : BuildConfig) (v : TriggerView) :
    (observe TriggerView.step v (deInitIPs cfg)).pin = .GPIO_PIN_RESET ∧
    (∀ e ∈ deInitIPs cfg, e.isLogOrSend = false ∧ e ≠ .call "HAL_PWR_EnterSLEEPMode") ∧
    triggerTrace (deInitIPs cfg) = [.gpioWrite "GPIOG" 5 .GPIO_PIN_RESET] := by
  obtain ⟨pin, phase⟩ := v
  unfold deInitIPs
  cases cfg.CPU_FRQ_SCALE_DOWN <;> cases pin <;> cases phase <;>
    first | decide | (rename_i ph; cases ph <;> decide)

/-! ## Trigger output: the claim -/

/-- C16 (trigger window). In one iteration of the loop, in any build and from
any earlier pin level: the trigger pin (port G, pin 5) is written exactly three
times, low in `waitForUserTrigger`, high in `startStlinkPwr` before
`pwr_timestamp_start`, and low in `deInitIPs`, the phases in between writing
nothing to it; so the pin is high at every `pwr_timestamp_log` call and at
`pwr_timestamp_sendOverUart`, it is low when `waitForUserTrigger` goes to
sleep, and it is low at the end of the iteration. -/
theorem C16_trigger_window (cfg : BuildConfig) (env : CycleEnv) (v0 : TriggerView) :
    triggerTrace waitForUserTrigger = [.gpioWrite "GPIOG" 5 .GPIO_PIN_RESET] ∧
    triggerTrace startStlinkPwr =
      [.gpioWrite "GPIOG" 5 .GPIO_PIN_SET, .pwr_timestamp_start] ∧
    triggerTrace (measuredPhases cfg env) = [] ∧
    triggerTrace (deInitIPs cfg) = [.gpioWrite "GPIOG" 5 .GPIO_PIN_RESET] ∧
    triggerTrace (appLoopBody cfg env) =
      [ .gpioWrite "GPIOG" 5 .GPIO_PIN_RESET, .gpioWrite "GPIOG" 5 .GPIO_PIN_SET,
        .pwr_timestamp_start, .gpioWrite "GPIOG" 5 .GPIO_PIN_RESET ] ∧
    (∀ p ∈ annotate TriggerView.step v0 (appLoopBody cfg env),
      p.2.isLogOrSend = true → p.1.pin = .GPIO_PIN_SET) ∧
    (∀ p ∈ annotate TriggerView.step v0 (appLoopBody cfg env),
      p.2 = .call "HAL_PWR_EnterSLEEPMode" → p.1.phase = some .WaitTrigger →
        p.1.pin = .GPIO_PIN_RESET) ∧
    (observe TriggerView.step v0 (appLoopBody cfg env)).pin = .GPIO_PIN_RESET := by
  obtain ⟨hw_end, hw⟩ := trigger_in_wait v0
  obtain ⟨hs_end, hs⟩ := trigger_in_start
  obtain ⟨hm, hm_end⟩ := trigger_in_measured cfg env
  have hd := fun v => trigger_in_deInit cfg v
  have hsplit := appLoopBody_split cfg env
  have hann : ∀ p ∈ annotate TriggerView.step v0 (appLoopBody cfg env),
      p ∈ annotate TriggerView.step v0 waitForUserTrigger ∨
      p ∈ annotate TriggerView.step ⟨.GPIO_PIN_RESET, some .WaitTrigger⟩ startStlinkPwr ∨
      p ∈ annotate TriggerView.step ⟨.GPIO_PIN_SET, some .StartPower⟩ (measuredPhases cfg env) ∨
      p.2 ∈ deInitIPs cfg := by
    intro p hp
    rw [hsplit, annotate_append, annotate_append, annotate_append, hw_end, hs_end] at hp
    simp only [List.mem_append] at hp
    rcases hp with h | h | h | h
    · exact Or.inl h
    · exact Or.inr (Or.inl h)
    · exact Or.inr (Or.inr (Or.inl h))
    · exact Or.inr (Or.inr (Or.inr (annotate_snd_mem _ _ _ _ h)))
  refine ⟨by decide, by decide, triggerTrace_measured cfg env, (hd v0).2.2, ?_, ?_, ?_, ?_⟩
  · rw [hsplit, triggerTrace_append, triggerTrace_append, triggerTrace_append,
      triggerTrace_measured, (hd v0).2.2]
    decide
  · intro p hp hlog
    rcases hann p hp with h | h | h | h
    · rw [(hw p h).1] at hlog
      exact absurd hlog (by decide)
    · exact (hs p h).1 hlog
    · exact (hm p h).1
    · rw [((hd v0).2.1 p.2 h).1] at hlog
      exact absurd hlog (by decide)
  · intro p hp hsleep hphase
    rcases hann p hp with h | h | h | h
    · exact (hw p h).2 hsleep
    · exact absurd hsleep (hs p h).2
    · exact absurd hphase (hm p h).2
    · exact absurd hsleep ((hd v0).2.1 p.2 h).2
  · rw [hsplit, observe_append, observe_append, observe_append]
    exact (hd _).1

/-- C16, instantiated: in the default build the pin is high at the checkpoint
"nn inference". -/
theorem C16_trigger_window_witness :
    (⟨.GPIO_PIN_SET, some .Inference⟩, Ev.pwr_timestamp_log "nn inference") ∈
        annotate TriggerView.step ⟨.GPIO_PIN_RESET, none⟩ (appLoopBody defaultBuild sampleEnv) ∧
    (⟨.GPIO_PIN_SET, some .Inference⟩ : TriggerView).pin = .GPIO_PIN_SET :=
  ⟨by decide,
   (C16_trigger_window defaultBuild sampleEnv ⟨.GPIO_PIN_RESET, none⟩).2.2.2.2.2.1
     (⟨.GPIO_PIN_SET, some .Inference⟩, Ev.pwr_timestamp_log "nn inference") (by decide) rfl⟩

/-! ## NPU memories: auxiliary facts -/

theorem appLoopBody_split_npu (cfg : BuildConfig) (env : CycleEnv) :
    appLoopBody cfg env =
      untilRamEnabled cfg env ++ (fromCacheEnable cfg env ++ deInitIPs cfg) := by
  unfold appLoopBody untilRamEnabled fromCacheEnable nn_inference
  simp only [List.append_assoc]

theorem npuMemTrace_of_domainTrace (t : List Ev) :
    npuMemTrace t = npuMemTrace (domainTrace t) := by
  unfold npuMemTrace domainTrace
  rw [List.filter_filter]
  congr 1
  funext a
  by_cases h : a ∈ npuMemEvents
  · have hsub : ∀ x ∈ npuMemEvents, x ∈ domainEvents := by decide
    simp [h, hsub a h]
  · simp [h]

theorem domainTrace_nn_inference (cfg : BuildConfig) (steps : List FrequencyStep) :
    domainTrace (nn_inference cfg steps) =
      [ .call "sysclk_NpuClockEnable", .enter "NPURam_enable", .enter "NPUCache_enable" ] ++
      (if cfg.USE_PSRAM then [ Ev.call "BSP_XSPI_RAM_Init" ] else []) ++
      [ .call "BSP_XSPI_NOR_Init", .call "sysclk_NpuClockDisable", .call "BSP_XSPI_NOR_DeInit" ] ++
      (if cfg.USE_PSRAM then [ Ev.call "BSP_XSPI_RAM_DeInit" ] else []) := by
  unfold nn_inference externMem_config
  simp only [domainTrace_append]
  cases cfg.USE_PSRAM <;> cases cfg.CPU_FRQ_SCALE_DOWN <;> cases cfg.NPU_FRQ_SCALING <;>
    simp only [Bool.false_eq_true, if_false, if_true, domainTrace_freqScaling] <;> decide

theorem untilRamEnabled_quiet (cfg : BuildConfig) (env : CycleEnv) :
    ∀ e ∈ untilRamEnabled cfg env, e ≠ .enter "NPUCache_enable" := by
  have hall : (untilRamEnabled cfg env).all (fun x => decide (x ≠ .enter "NPUCache_enable")) = true := by
    unfold untilRamEnabled cameraCapture
    simp only [List.all_append,
      all_replicate_of (fun x => decide (x ≠ .enter "NPUCache_enable")) _
        (Ev.call "HAL_PWR_EnterSLEEPMode") (by decide)]
    cases cfg.CPU_FRQ_SCALE_DOWN <;> decide
  intro e he
  simpa using List.all_eq_true.mp hall e he

theorem fromCacheEnable_quiet (cfg : BuildConfig) (env : CycleEnv) :
    ∀ e ∈ fromCacheEnable cfg env, e ≠ .enter "NPURam_disable" := by
  have hall : (fromCacheEnable cfg env).all (fun x => decide (x ≠ .enter "NPURam_disable")) = true := by
    obtain ⟨od, sd, sc, ps⟩ := cfg
    unfold fromCacheEnable postProcessing
    simp only [List.all_append,
      all_replicate_of (fun x => decide (x ≠ .enter "NPURam_disable")) _
        (Ev.call "SCB_InvalidateDCache_by_Addr") (by decide)]
    cases od <;> cases sd <;> cases sc <;> cases ps <;> decide
  intro e he
  simpa using List.all_eq_true.mp hall e he

theorem npuMem_until (cfg : BuildConfig) (env : CycleEnv) :
    (∀ p ∈ annotate NpuMemView.step .off (untilRamEnabled cfg env), p.1.cacheOn = false) ∧
    (observe NpuMemView.step .off (untilRamEnabled cfg env)).ramOn = true := by
  constructor
  · exact (annotate_invariant NpuMemView.step (fun v => v.cacheOn = false)
      (untilRamEnabled cfg env) .off rfl
      (fun e he v hv => by
        have hne := untilRamEnabled_quiet cfg env e he
        simp [NpuMemView.step, hne, hv])).1
  · have hlast : ∀ v : NpuMemView, (observe NpuMemView.step v NPURam_enable).ramOn = true := by
      intro v
      obtain ⟨r, c, ph⟩ := v
      cases r <;> cases c <;> cases ph <;> first | decide | (rename_i q; cases q <;> decide)
    unfold untilRamEnabled
    rw [observe_append]
    exact hlast _

theorem npuMem_from (cfg : BuildConfig) (env : CycleEnv) (v : NpuMemView) (hv : v.ramOn = true) :
    (∀ p ∈ annotate NpuMemView.step v (fromCacheEnable cfg env), p.1.ramOn = true) ∧
    (observe NpuMemView.step v (fromCacheEnable cfg env)).ramOn = true :=
  annotate_invariant NpuMemView.step (fun v => v.ramOn = true)
    (fromCacheEnable cfg env) v hv
    (fun e he w hw => by
      have hne := fromCacheEnable_quiet cfg env e he
      simp [NpuMemView.step, hne, hw])

theorem npuMem_deInit (cfg : BuildConfig) (v : NpuMemView) (hv : v.ramOn = true) :
    (∀ p ∈ annotate NpuMemView.step v (deInitIPs cfg),
      p.1.cacheOn = true → p.1.ramOn = false → p.1.phase = some .Teardown) ∧
    observe NpuMemView.step v (deInitIPs cfg) = ⟨false, false, some .Teardown⟩ := by
  obtain ⟨r, c, ph⟩ := v
  have hr : r = true := hv
  subst hr
  unfold deInitIPs
  cases cfg.CPU_FRQ_SCALE_DOWN <;> cases c <;> cases ph <;>
    first | decide | (rename_i q; cases q <;> decide)

/-! ## NPU memories: the claim -/

/-- C14, as stated, fails: in `deInitIPs` the call of `NPURam_disable` comes
before the call of `NPUCache_disable`, never the other way round, so when
`NPUCache_disable` is entered the cache is still enabled and the RAM is
already disabled. -/
theorem C14_counterexample :
    (⟨false, true, some .Teardown⟩, Ev.enter "NPUCache_disable") ∈
      annotate NpuMemView.step .off (appLoopBody defaultBuild sampleEnv) ∧
    occursBefore (.enter "NPURam_disable") (.enter "NPUCache_disable")
      (deInitIPs defaultBuild) = true ∧
    occursBefore (.enter "NPUCache_disable") (.enter "NPURam_disable")
      (appLoopBody defaultBuild sampleEnv) = false := by
  decide

/-- C14 (amended). In one cycle, in any build, the NPU RAM and the NPU cache
are switched by exactly four calls, in this order: `NPURam_enable` then
`NPUCache_enable` (both in `nn_inference`), then `NPURam_disable` then
`NPUCache_disable` (both in `deInitIPs`). Starting with both off, the cache is
enabled while the RAM is disabled only in the Teardown phase (between the two
disable calls) and at no other point of the cycle, and both are off at the
end. -/
theorem C14_npu_cache_ram (cfg : BuildConfig) (env : CycleEnv) :
    npuMemTrace (appLoopBody cfg env) =
      [ .enter "NPURam_enable", .enter "NPUCache_enable",
        .enter "NPURam_disable", .enter "NPUCache_disable" ] ∧
    npuMemTrace (nn_inference cfg frequencySteps) =
      [ .enter "NPURam_enable", .enter "NPUCache_enable" ] ∧
    npuMemTrace (deInitIPs cfg) = [ .enter "NPURam_disable", .enter "NPUCache_disable" ] ∧
    (∀ p ∈ annotate NpuMemView.step .off (appLoopBody cfg env),
      p.1.cacheOn = true → p.1.ramOn = false → p.1.phase = some .Teardown) ∧
    observe NpuMemView.step .off (appLoopBody cfg env) = ⟨false, false, some .Teardown⟩ := by
  obtain ⟨hu, hu_end⟩ := npuMem_until cfg env
  obtain ⟨hf, hf_end⟩ := npuMem_from cfg env _ hu_end
  obtain ⟨hd, hd_end⟩ := npuMem_deInit cfg _ hf_end
  refine ⟨?_, ?_, ?_, ?_, ?_⟩
  · rw [npuMemTrace_of_domainTrace, domainTrace_appLoopBody]
    unfold domainCycle
    cases cfg.USE_PSRAM <;> decide
  · rw [npuMemTrace_of_domainTrace, domainTrace_nn_inference]
    cases cfg.USE_PSRAM <;> decide
  · unfold deInitIPs
    cases cfg.CPU_FRQ_SCALE_DOWN <;> decide
  · intro p hp hc hr
    rw [appLoopBody_split_npu, annotate_append, annotate_append] at hp
    simp only [List.mem_append] at hp
    rcases hp with h | h | h
    · rw [hu p h] at hc
      exact absurd hc (by decide)
    · rw [hf p h] at hr
      exact absurd hr (by decide)
    · exact hd p h hc hr
  · rw [appLoopBody_split_npu, observe_append, observe_append]
    exact hd_end

/-! ## Frequency scaling: auxiliary facts -/

/-- What `HAL_RCC_ClockConfig` does with the structure of
`npuFrqScaling_switchClocksToPll1`. -/
theorem clockConfig_switch (st : ClkState) :
    afterSwitch st =
      { st with
        CPUCLKSource := .RCC_CPUCLKSOURCE_IC1
        SYSCLKSource := .RCC_SYSCLKSOURCE_IC2_IC6_IC11
        IC1 := { ClockSelection := .RCC_ICCLKSOURCE_PLL1, ClockDivider := 2 }
        IC6 := { ClockSelection := .RCC_ICCLKSOURCE_PLL1, ClockDivider := 200 }
        IC11 := { ClockSelection := .RCC_ICCLKSOURCE_PLL1, ClockDivider := 200 } } := by
  simp [afterSwitch, HAL_RCC_ClockConfig, switchClkInit, HAL_RCC_GetClockConfig]

/-- What `HAL_RCC_ClockConfig` does with the structure of
`npuFrqScaling_configurePlls`. -/
theorem clockConfig_step (step : FrequencyStep) (st : ClkState) :
    HAL_RCC_ClockConfig (stepClkInit step st) st =
      { st with
        CPUCLKSource := .RCC_CPUCLKSOURCE_IC1
        SYSCLKSource := .RCC_SYSCLKSOURCE_IC2_IC6_IC11
        IC1 := { ClockSelection := step.cpuClkSrc, ClockDivider := 1 }
        IC6 := { ClockSelection := step.npuClkSrc, ClockDivider := 1 }
        IC11 := { ClockSelection := step.npuRamsClkSrc, ClockDivider := 1 } } := by
  simp [HAL_RCC_ClockConfig, stepClkInit, HAL_RCC_GetClockConfig]

/-- The calls of `sysclk_NpuFreqScaling`, one by one, with the states they
leave. -/
theorem freqScaling_trace (step : FrequencyStep) (st : ClkState) :
    sysclk_NpuFreqScaling step st =
      [ (.HAL_RCC_GetClockConfig, st),
        (.HAL_RCC_ClockConfig (switchClkInit st), afterSwitch st) ] ++
      (if step.npufreq = 1000 then
        [ (ClkAction.BSP_SMPS_Init .SMPS_VOLTAGE_OVERDRIVE, beforeConfigurePlls step st),
          (ClkAction.HAL_Delay 10, beforeConfigurePlls step st) ]
      else []) ++
      [ (.HAL_RCC_OscConfig (stepOscInit step), afterOscConfig step st),
        (.HAL_RCC_GetClockConfig, afterOscConfig step st),
        (.HAL_RCC_ClockConfig (stepClkInit step (afterOscConfig step st)),
          afterConfigurePlls step st) ] ++
      (if step.npufreq < 1000 then
        [ (ClkAction.BSP_SMPS_Init .SMPS_VOLTAGE_NOMINAL, afterStep step st),
          (ClkAction.HAL_Delay 10, afterStep step st) ]
      else []) := by
  unfold sysclk_NpuFreqScaling
  by_cases h : step.npufreq = 1000
  · have h2 : ¬ step.npufreq < 1000 := by omega
    simp [h, h2, npuFrqScaling_switchClocksToPll1, npuFrqScaling_configurePlls, configPowerMode,
      lastClk, afterSwitch, beforeConfigurePlls, afterOscConfig, afterConfigurePlls]
  · by_cases h2 : step.npufreq < 1000
    · simp [h, h2, npuFrqScaling_switchClocksToPll1, npuFrqScaling_configurePlls,
        configPowerMode, lastClk, afterSwitch, beforeConfigurePlls, afterOscConfig,
        afterConfigurePlls, afterStep]
    · simp [h, h2, npuFrqScaling_switchClocksToPll1, npuFrqScaling_configurePlls,
        configPowerMode, lastClk, afterSwitch, beforeConfigurePlls, afterOscConfig,
        afterConfigurePlls]

theorem lastClk_freqScaling (step : FrequencyStep) (st : ClkState) :
    lastClk st (sysclk_NpuFreqScaling step st) = afterStep step st := by
  rw [freqScaling_trace]
  by_cases h : step.npufreq < 1000 <;> by_cases h2 : step.npufreq = 1000 <;>
    simp [h, h2, lastClk, afterStep]

theorem smps_afterSwitch (st : ClkState) : (afterSwitch st).smps = st.smps := by
  rw [clockConfig_switch]

theorem smps_afterOscConfig (step : FrequencyStep) (st : ClkState) :
    (afterOscConfig step st).smps = (beforeConfigurePlls step st).smps := rfl

theorem smps_afterConfigurePlls (step : FrequencyStep) (st : ClkState) :
    (afterConfigurePlls step st).smps = (beforeConfigurePlls step st).smps := by
  unfold afterConfigurePlls
  rw [clockConfig_step]
  rfl

theorem freqScaling_by_function (step : FrequencyStep) (st : ClkState) :
    sysclk_NpuFreqScaling step st =
      npuFrqScaling_switchClocksToPll1 st ++
      (if step.npufreq = 1000 then
        configPowerMode .SMPS_VOLTAGE_OVERDRIVE (afterSwitch st) else []) ++
      npuFrqScaling_configurePlls step (beforeConfigurePlls step st) ++
      (if step.npufreq < 1000 then
        configPowerMode .SMPS_VOLTAGE_NOMINAL (afterConfigurePlls step st) else []) := by
  rw [freqScaling_trace]
  by_cases h : step.npufreq < 1000 <;> by_cases h2 : step.npufreq = 1000 <;>
    simp [h, h2, npuFrqScaling_switchClocksToPll1, npuFrqScaling_configurePlls,
      configPowerMode, afterSwitch, beforeConfigurePlls, afterOscConfig, afterConfigurePlls,
      afterStep]

/-! ## Frequency scaling: the claims -/

/-- C15 (regulator order). For every step, `sysclk_NpuFreqScaling` first
switches the clocks to PLL1. If `npufreq` is 1000 it then sets the regulator to
overdrive, and only after that `npuFrqScaling_configurePlls` programs the PLLs
and switches the muxes; the regulator stays in overdrive to the end. If
`npufreq` is below 1000 the regulator keeps its earlier setting until
`npuFrqScaling_configurePlls` has completed and is set to nominal only then.
(Above 1000 the regulator is not touched.) -/
theorem C15_regulator_order (step : FrequencyStep) (st : ClkState) :
    (step.npufreq = 1000 →
      (sysclk_NpuFreqScaling step st).map (fun p => (p.1.kind, p.2.smps)) =
        [ (.getClockConfig, st.smps), (.clockConfig, st.smps),
          (.smpsInit .SMPS_VOLTAGE_OVERDRIVE, .SMPS_VOLTAGE_OVERDRIVE),
          (.delay, .SMPS_VOLTAGE_OVERDRIVE),
          (.oscConfig, .SMPS_VOLTAGE_OVERDRIVE),
          (.getClockConfig, .SMPS_VOLTAGE_OVERDRIVE),
          (.clockConfig, .SMPS_VOLTAGE_OVERDRIVE) ]) ∧
    (step.npufreq < 1000 →
      (sysclk_NpuFreqScaling step st).map (fun p => (p.1.kind, p.2.smps)) =
        [ (.getClockConfig, st.smps), (.clockConfig, st.smps),
          (.oscConfig, st.smps), (.getClockConfig, st.smps), (.clockConfig, st.smps),
          (.smpsInit .SMPS_VOLTAGE_NOMINAL, .SMPS_VOLTAGE_NOMINAL),
          (.delay, .SMPS_VOLTAGE_NOMINAL) ]) ∧
    (1000 < step.npufreq →
      (sysclk_NpuFreqScaling step st).map (fun p => (p.1.kind, p.2.smps)) =
        [ (.getClockConfig, st.smps), (.clockConfig, st.smps),
          (.oscConfig, st.smps), (.getClockConfig, st.smps), (.clockConfig, st.smps) ]) ∧
    sysclk_NpuFreqScaling step st =
      npuFrqScaling_switchClocksToPll1 st ++
      (if step.npufreq = 1000 then
        configPowerMode .SMPS_VOLTAGE_OVERDRIVE (afterSwitch st) else []) ++
      npuFrqScaling_configurePlls step (beforeConfigurePlls step st) ++
      (if step.npufreq < 1000 then
        configPowerMode .SMPS_VOLTAGE_NOMINAL (afterConfigurePlls step st) else []) := by
  refine ⟨?_, ?_, ?_, freqScaling_by_function step st⟩
  · intro h
    have h2 : ¬ step.npufreq < 1000 := by omega
    rw [freqScaling_trace]
    simp [h, h2, ClkAction.kind, smps_afterSwitch, smps_afterOscConfig, smps_afterConfigurePlls,
      beforeConfigurePlls, BSP_SMPS_Init]
  · intro h
    have h2 : ¬ step.npufreq = 1000 := by omega
    rw [freqScaling_trace]
    simp [h, h2, ClkAction.kind, smps_afterSwitch, smps_afterOscConfig, smps_afterConfigurePlls,
      beforeConfigurePlls, afterStep, BSP_SMPS_Init]
  · intro h
    have h2 : ¬ step.npufreq = 1000 := by omega
    have h3 : ¬ step.npufreq < 1000 := by omega
    rw [freqScaling_trace]
    simp [h2, h3, ClkAction.kind, smps_afterSwitch, smps_afterOscConfig,
      smps_afterConfigurePlls, beforeConfigurePlls]

/-- C15, instantiated at the first row of the table (1000 MHz), from the
nominal clock tree. -/
theorem C15_regulator_order_witness :
    (sysclk_NpuFreqScaling (frequencySteps.headD step900) nominalClkState).map
        (fun p => (p.1.kind, p.2.smps)) =
      [ (.getClockConfig, nominalClkState.smps), (.clockConfig, nominalClkState.smps),
        (.smpsInit .SMPS_VOLTAGE_OVERDRIVE, .SMPS_VOLTAGE_OVERDRIVE),
        (.delay, .SMPS_VOLTAGE_OVERDRIVE),
        (.oscConfig, .SMPS_VOLTAGE_OVERDRIVE),
        (.getClockConfig, .SMPS_VOLTAGE_OVERDRIVE),
        (.clockConfig, .SMPS_VOLTAGE_OVERDRIVE) ] :=
  (C15_regulator_order (frequencySteps.headD step900) nominalClkState).1 (by decide)

theorem beforeConfigurePlls_eq (step : FrequencyStep) (st : ClkState) :
    beforeConfigurePlls step st =
      { st with
        smps := smpsDuringConfigure step st
        CPUCLKSource := .RCC_CPUCLKSOURCE_IC1
        SYSCLKSource := .RCC_SYSCLKSOURCE_IC2_IC6_IC11
        IC1 := { ClockSelection := .RCC_ICCLKSOURCE_PLL1, ClockDivider := 2 }
        IC6 := { ClockSelection := .RCC_ICCLKSOURCE_PLL1, ClockDivider := 200 }
        IC11 := { ClockSelection := .RCC_ICCLKSOURCE_PLL1, ClockDivider := 200 } } := by
  unfold beforeConfigurePlls smpsDuringConfigure
  rw [clockConfig_switch]
  by_cases h : step.npufreq = 1000 <;> simp [h, BSP_SMPS_Init]

theorem afterOscConfig_eq (step : FrequencyStep) (st : ClkState) :
    afterOscConfig step st =
      { st with
        smps := smpsDuringConfigure step st
        PLL2 := pllAfter step.pll2Cfg st.PLL2
        PLL3 := pllAfter step.pll3Cfg st.PLL3
        CPUCLKSource := .RCC_CPUCLKSOURCE_IC1
        SYSCLKSource := .RCC_SYSCLKSOURCE_IC2_IC6_IC11
        IC1 := { ClockSelection := .RCC_ICCLKSOURCE_PLL1, ClockDivider := 2 }
        IC6 := { ClockSelection := .RCC_ICCLKSOURCE_PLL1, ClockDivider := 200 }
        IC11 := { ClockSelection := .RCC_ICCLKSOURCE_PLL1, ClockDivider := 200 } } := by
  unfold afterOscConfig
  rw [beforeConfigurePlls_eq]
  simp [HAL_RCC_OscConfig, stepOscInit, RCC_OscInitTypeDef.zero, RCC_PLLInitTypeDef.zero,
    pllAfter]

theorem afterConfigurePlls_eq (step : FrequencyStep) (st : ClkState) :
    afterConfigurePlls step st =
      { st with
        smps := smpsDuringConfigure step st
        PLL2 := pllAfter step.pll2Cfg st.PLL2
        PLL3 := pllAfter step.pll3Cfg st.PLL3
        CPUCLKSource := .RCC_CPUCLKSOURCE_IC1
        SYSCLKSource := .RCC_SYSCLKSOURCE_IC2_IC6_IC11
        IC1 := { ClockSelection := step.cpuClkSrc, ClockDivider := 1 }
        IC6 := { ClockSelection := step.npuClkSrc, ClockDivider := 1 }
        IC11 := { ClockSelection := step.npuRamsClkSrc, ClockDivider := 1 } } := by
  unfold afterConfigurePlls
  rw [clockConfig_step, afterOscConfig_eq]

theorem afterStep_eq (step : FrequencyStep) (st : ClkState) :
    afterStep step st =
      { st with
        smps := smpsAfterStep step st
        PLL2 := pllAfter step.pll2Cfg st.PLL2
        PLL3 := pllAfter step.pll3Cfg st.PLL3
        CPUCLKSource := .RCC_CPUCLKSOURCE_IC1
        SYSCLKSource := .RCC_SYSCLKSOURCE_IC2_IC6_IC11
        IC1 := { ClockSelection := step.cpuClkSrc, ClockDivider := 1 }
        IC6 := { ClockSelection := step.npuClkSrc, ClockDivider := 1 }
        IC11 := { ClockSelection := step.npuRamsClkSrc, ClockDivider := 1 } } := by
  unfold afterStep smpsAfterStep
  rw [afterConfigurePlls_eq]
  by_cases h : step.npufreq < 1000 <;> simp [h, BSP_SMPS_Init]

/-- C19 (table frequencies). In the static table the `npufreq` values are
1000, 800, 600, 400, 200, 100; every row takes the NPU clock from PLL2, which
it switches on from the HSE with no fractional part, and `48 * PLLN / (PLLM *
PLLP1 * PLLP2)` of that PLL equals the row's `npufreq`, the division being
exact; the CPU source is PLL1 (800 MHz, as `sysclk_SystemClockConfig` programs
it) in the first row and PLL3 at 600 MHz in the others, again exactly. After
`sysclk_NpuFreqScaling` of a row, from any clock tree with that PLL1, the NPU
runs at the row's `npufreq` through a divider of 1 and the CPU at 800 MHz for
the 1000 MHz row and 600 MHz otherwise. -/
theorem C19_table_frequencies :
    frequencySteps.map (fun s => s.npufreq) = [1000, 800, 600, 400, 200, 100] ∧
    frequencySteps.map (fun s => s.stepName) =
      [ "nn_inference_1GHz", "nn_inference_800MHz", "nn_inference_600MHz",
        "nn_inference_400MHz", "nn_inference_200MHz", "nn_inference_100MHz" ] ∧
    (∀ s ∈ frequencySteps,
      s.npuClkSrc = .RCC_ICCLKSOURCE_PLL2 ∧
      s.pll2Cfg.PLLState = .RCC_PLL_ON ∧
      s.pll2Cfg.PLLSource = .RCC_PLLSOURCE_HSE ∧
      s.pll2Cfg.PLLFractional = 0 ∧
      48 * s.pll2Cfg.PLLN / (s.pll2Cfg.PLLM * s.pll2Cfg.PLLP1 * s.pll2Cfg.PLLP2) = s.npufreq ∧
      (48 * s.pll2Cfg.PLLN) % (s.pll2Cfg.PLLM * s.pll2Cfg.PLLP1 * s.pll2Cfg.PLLP2) = 0) ∧
    frequencySteps.map (fun s => s.cpuClkSrc) =
      [ .RCC_ICCLKSOURCE_PLL1, .RCC_ICCLKSOURCE_PLL3, .RCC_ICCLKSOURCE_PLL3,
        .RCC_ICCLKSOURCE_PLL3, .RCC_ICCLKSOURCE_PLL3, .RCC_ICCLKSOURCE_PLL3 ] ∧
    pllMHz systemPLL1 = 800 ∧ pllExact systemPLL1 = true ∧
    (∀ s ∈ frequencySteps,
      s.pll3Cfg.PLLState = .RCC_PLL_ON ∧ s.pll3Cfg.PLLSource = .RCC_PLLSOURCE_HSE ∧
      s.pll3Cfg.PLLFractional = 0 ∧ pllExact s.pll3Cfg = true ∧
      (s.cpuClkSrc = .RCC_ICCLKSOURCE_PLL3 → pllMHz s.pll3Cfg = 600)) ∧
    (∀ s ∈ frequencySteps, ∀ st : ClkState, st.PLL1 = systemPLL1 →
      (afterStep s st).npuMHz = s.npufreq ∧
      (afterStep s st).IC6.ClockDivider = 1 ∧
      (afterStep s st).IC1.ClockDivider = 1 ∧
      (afterStep s st).cpuMHz = (if s.npufreq = 1000 then 800 else 600)) := by
  refine ⟨by decide, by decide, by decide, by decide, by decide, by decide, by decide, ?_⟩
  intro s hs st hst
  rw [afterStep_eq]
  simp only [frequencySteps, List.mem_cons, List.mem_singleton, List.not_mem_nil, or_false] at hs
  rcases hs with rfl | rfl | rfl | rfl | rfl | rfl <;>
    simp [ClkState.npuMHz, ClkState.cpuMHz, ClkState.icMHz, ClkState.pllOf, pllAfter, pllMHz,
      HSE_MHZ, hst, systemPLL1]

theorem expandSweep_append (a b : List Ev) (st : ClkState) :
    expandSweep (a ++ b) st = expandSweep a st ++ expandSweep b (clkAfter a st) := by
  induction a generalizing st with
  | nil => rfl
  | cons e t ih => cases e <;> simp [expandSweep, clkAfter, ih]

theorem clkAfter_append (a b : List Ev) (st : ClkState) :
    clkAfter (a ++ b) st = clkAfter b (clkAfter a st) := by
  induction a generalizing st with
  | nil => rfl
  | cons e t ih => cases e <;> simp [clkAfter, ih]

theorem expandSweep_freqScalingStep (step : FrequencyStep) (st : ClkState) :
    expandSweep (freqScalingStep step) st =
      (sysclk_NpuFreqScaling step st).map (fun p => (SweepEv.clk p.1, p.2)) ++
      (afterScalingEvents step).map (fun e => (e, afterStep step st)) := by
  simp [freqScalingStep, expandSweep, lastClk_freqScaling, afterScalingEvents]

theorem clkAfter_freqScalingStep (step : FrequencyStep) (st : ClkState) :
    clkAfter (freqScalingStep step) st = afterStep step st := by
  simp [freqScalingStep, clkAfter, lastClk_freqScaling]

theorem expandSweep_steps_cons (s : FrequencyStep) (rest : List FrequencyStep)
    (st : ClkState) :
    expandSweep ((s :: rest).map freqScalingStep).flatten st =
      expandSweep (freqScalingStep s) st ++
      expandSweep (rest.map freqScalingStep).flatten (afterStep s st) := by
  rw [List.map_cons, List.flatten_cons, expandSweep_append, clkAfter_freqScalingStep]

/-- C20 (order within a sweep step). One iteration of the loop of
`runInference_freqScaling` performs, in this order: `HAL_RCC_GetClockConfig`
and the `HAL_RCC_ClockConfig` that puts the CPU (IC1), NPU (IC6) and NPU-RAM
(IC11) muxes on PLL1; for a 1000 MHz step the regulator call; the
`HAL_RCC_OscConfig` that programs PLL2 and PLL3 with the step's settings (and
asks nothing of PLL1 and PLL4), called while the three muxes select PLL1;
`HAL_RCC_GetClockConfig` and the `HAL_RCC_ClockConfig` that puts the three
muxes on the step's sources with divider 1; below 1000 MHz the regulator call;
then `npu_cache_invalidate`, `SCB_CleanInvalidateDCache`,
`SCB_InvalidateICache`, the log of "config npu clock scaling", one
`LL_ATON_RT_Main` between `HAL_SuspendTick` and `HAL_ResumeTick`, and the log
of the step's name. The steps of a table follow one another, each starting in
the clock state the previous one left. -/
theorem C20_step_order (step : FrequencyStep) (st : ClkState) :
    expandSweep (freqScalingStep step) st =
      [ (.clk .HAL_RCC_GetClockConfig, st),
        (.clk (.HAL_RCC_ClockConfig (switchClkInit st)), afterSwitch st) ] ++
      (if step.npufreq = 1000 then
        [ (.clk (.BSP_SMPS_Init .SMPS_VOLTAGE_OVERDRIVE), beforeConfigurePlls step st),
          (.clk (.HAL_Delay 10), beforeConfigurePlls step st) ]
      else []) ++
      [ (.clk (.HAL_RCC_OscConfig (stepOscInit step)), afterOscConfig step st),
        (.clk .HAL_RCC_GetClockConfig, afterOscConfig step st),
        (.clk (.HAL_RCC_ClockConfig (stepClkInit step (afterOscConfig step st))),
          afterConfigurePlls step st) ] ++
      (if step.npufreq < 1000 then
        [ (.clk (.BSP_SMPS_Init .SMPS_VOLTAGE_NOMINAL), afterStep step st),
          (.clk (.HAL_Delay 10), afterStep step st) ]
      else []) ++
      [ (.ev (.call "npu_cache_invalidate"), afterStep step st),
        (.ev (.call "SCB_CleanInvalidateDCache"), afterStep step st),
        (.ev (.call "SCB_InvalidateICache"), afterStep step st),
        (.ev (.pwr_timestamp_log "config npu clock scaling"), afterStep step st),
        (.ev (.call "HAL_SuspendTick"), afterStep step st),
        (.ev (.call "LL_ATON_RT_Main"), afterStep step st),
        (.ev (.call "HAL_ResumeTick"), afterStep step st),
        (.ev (.pwr_timestamp_log step.stepName), afterStep step st) ] ∧
    ((switchClkInit st).IC1Selection.ClockSelection = .RCC_ICCLKSOURCE_PLL1 ∧
      (switchClkInit st).IC6Selection.ClockSelection = .RCC_ICCLKSOURCE_PLL1 ∧
      (switchClkInit st).IC11Selection.ClockSelection = .RCC_ICCLKSOURCE_PLL1) ∧
    (afterOscConfig step st =
        HAL_RCC_OscConfig (stepOscInit step) (beforeConfigurePlls step st) ∧
      (beforeConfigurePlls step st).CPUCLKSource = .RCC_CPUCLKSOURCE_IC1 ∧
      (beforeConfigurePlls step st).SYSCLKSource = .RCC_SYSCLKSOURCE_IC2_IC6_IC11 ∧
      (beforeConfigurePlls step st).IC1.ClockSelection = .RCC_ICCLKSOURCE_PLL1 ∧
      (beforeConfigurePlls step st).IC6.ClockSelection = .RCC_ICCLKSOURCE_PLL1 ∧
      (beforeConfigurePlls step st).IC11.ClockSelection = .RCC_ICCLKSOURCE_PLL1 ∧
      (beforeConfigurePlls step st).IC2 = st.IC2) ∧
    ((stepOscInit step).PLL2 = step.pll2Cfg ∧
      (stepOscInit step).PLL3 = step.pll3Cfg ∧
      (stepOscInit step).PLL1.PLLState = .RCC_PLL_NONE ∧
      (stepOscInit step).PLL4.PLLState = .RCC_PLL_NONE ∧
      (afterOscConfig step st).PLL1 = st.PLL1 ∧
      (afterOscConfig step st).PLL2 = pllAfter step.pll2Cfg st.PLL2 ∧
      (afterOscConfig step st).PLL3 = pllAfter step.pll3Cfg st.PLL3 ∧
      (afterOscConfig step st).PLL4 = st.PLL4) ∧
    ((afterConfigurePlls step st).IC1 =
        { ClockSelection := step.cpuClkSrc, ClockDivider := 1 } ∧
      (afterConfigurePlls step st).IC6 =
        { ClockSelection := step.npuClkSrc, ClockDivider := 1 } ∧
      (afterConfigurePlls step st).IC11 =
        { ClockSelection := step.npuRamsClkSrc, ClockDivider := 1 } ∧
      (afterConfigurePlls step st).PLL2 = pllAfter step.pll2Cfg st.PLL2 ∧
      (afterConfigurePlls step st).PLL3 = pllAfter step.pll3Cfg st.PLL3) ∧
    (∀ rest : List FrequencyStep,
      expandSweep (runInference_freqScaling (step :: rest)) st =
        (.ev (.enter "runInference_freqScaling"), st) ::
          (expandSweep (freqScalingStep step) st ++
            expandSweep (rest.map freqScalingStep).flatten (afterStep step st))) := by
  refine ⟨?_, ⟨rfl, rfl, rfl⟩, ?_, ?_, ?_, ?_⟩
  · rw [expandSweep_freqScalingStep, freqScaling_trace]
    by_cases h : step.npufreq < 1000 <;> by_cases h2 : step.npufreq = 1000 <;>
      simp [h, h2, afterScalingEvents]
  · refine ⟨rfl, ?_⟩
    rw [beforeConfigurePlls_eq]
    exact ⟨rfl, rfl, rfl, rfl, rfl, rfl⟩
  · refine ⟨rfl, rfl, rfl, rfl, ?_⟩
    rw [afterOscConfig_eq]
    exact ⟨rfl, rfl, rfl, rfl⟩
  · rw [afterConfigurePlls_eq]
    exact ⟨rfl, rfl, rfl, rfl, rfl⟩
  · intro rest
    unfold runInference_freqScaling
    rw [← expandSweep_steps_cons]
    rfl

/-! ## Regulator safety: auxiliary facts -/

theorem assert_one {σ : Type} (s : σ) : assert 1 s = .ret s := rfl

/-- C17 (pipe pitch). `DCMIPP_PipeInitDisplay` returns normally whenever
`CMW_CAMERA_SetPipeConfig` reports `HAL_OK`, whatever pitch it gives back: when
the pitch differs from `output_width * output_bpp` the function reaches
`assert(1)`, which never fails. -/
theorem C17_pitch_mismatch_returns (camConf : CMW_CameraInit_t)
    (setPipeConfig : CMW_DCMIPP_Conf_t → PipeConfigAnswer)
    (hret : (setPipeConfig (displayPipeConf camConf)).ret = HAL_OK) :
    DCMIPP_PipeInitDisplay camConf setPipeConfig = .ret (displayPipeConf camConf) := by
  unfold DCMIPP_PipeInitDisplay
  simp only [hret, decide_True, cBool, if_true]
  have h : assert (1 : Int) (displayPipeConf camConf) = .ret (displayPipeConf camConf) := rfl
  rw [h, andThen_ret, assert_one]
  split <;> rfl

/-- For a 2592 x 1944 camera the display pipe is 480 pixels of 2 bytes wide,
960 bytes per line; a middleware that answers `HAL_OK` with a pitch of 1024
makes `DCMIPP_PipeInitDisplay` return normally. -/
theorem C17_pitch_mismatch_returns_witness :
    (pitch1024 (displayPipeConf sampleCamera)).ret = HAL_OK ∧
    (displayPipeConf sampleCamera).output_width * (displayPipeConf sampleCamera).output_bpp
      = 960 ∧
    (pitch1024 (displayPipeConf sampleCamera)).pitch = 1024 ∧
    DCMIPP_PipeInitDisplay sampleCamera pitch1024 = .ret (displayPipeConf sampleCamera) :=
  ⟨rfl, by decide, rfl, C17_pitch_mismatch_returns sampleCamera pitch1024 rfl⟩

/-! ## Instances of the claims without a side condition of their own -/

/-- The NPU RAM domain in the default build. -/
theorem C13_domain_balance_witness :
    (Ev.enter "NPURam_enable", Ev.enter "NPURam_disable") ∈ domainPairs defaultBuild ∧
    (appLoopBody defaultBuild sampleEnv).count (.enter "NPURam_enable") = 1 ∧
    (appLoopBody defaultBuild sampleEnv).count (.enter "NPURam_disable") = 1 ∧
    occursBefore (.enter "NPURam_enable") (.enter "NPURam_disable")
      (appLoopBody defaultBuild sampleEnv) = true :=
  have h := (C13_domain_balance defaultBuild sampleEnv).2.1
    (.enter "NPURam_enable", .enter "NPURam_disable") (by decide)
  ⟨by decide, h.1, h.2.1, h.2.2.1⟩

/-- The first row of the static table, from the clock tree of
`sysclk_SystemClockConfig`. -/
theorem C19_table_frequencies_witness :
    frequencySteps.headD step900 ∈ frequencySteps ∧
    nominalClkState.PLL1 = systemPLL1 ∧
    (afterStep (frequencySteps.headD step900) nominalClkState).npuMHz = 1000 ∧
    (afterStep (frequencySteps.headD step900) nominalClkState).cpuMHz = 800 :=
  have h := C19_table_frequencies.2.2.2.2.2.2.2 (frequencySteps.headD step900) (by decide)
    nominalClkState rfl
  ⟨by decide, rfl, h.1, h.2.2.2.trans (by decide)⟩

/-! ## NPU controls: the claim -/

theorem ramDisable_controls (c : NpuControls) :
    observe NpuControls.step c NPURam_disable = c.afterRamDisable := by
  rfl

/-- C21, as stated, fails: `NPURam_disable` calls `__HAL_RCC_NPU_FORCE_RESET`
and, right after it, `__HAL_RCC_NPU_RELEASE_RESET`; from the controls all
switched on, the reset line of the NPU is asserted only when the release call
is made and is released when `NPURam_disable` returns. -/
theorem C21_counterexample :
    (observe NpuControls.step .allOn NPURam_disable).npuReset = false ∧
    (annotate NpuControls.step .allOn NPURam_disable).filter (fun p => p.1.npuReset) =
      [ ({ NpuControls.allOn with
            axisram3 := false, axisram4 := false, axisram5 := false, axisram6 := false,
            npuReset := true },
         Ev.call "__HAL_RCC_NPU_RELEASE_RESET") ] ∧
    occursBefore (.call "__HAL_RCC_NPU_FORCE_RESET") (.call "__HAL_RCC_NPU_RELEASE_RESET")
      NPURam_disable = true := by
  decide

/-- C21 (amended). From any setting of the controls, when `NPURam_disable`
returns: the reset line of the NPU is released (it was asserted by
`__HAL_RCC_NPU_FORCE_RESET` and released by the next call, before the clocks
are disabled), the active and sleep clocks of the NPU are disabled, the four
banks AXISRAM3..6 are disabled, their active and sleep clocks are disabled, and
so are the clocks of the RAM controller, whose reset line is not touched. -/
theorem C21_ram_disable (c : NpuControls) :
    (observe NpuControls.step c NPURam_disable).npuReset = false ∧
    ((observe NpuControls.step c NPURam_disable).npuClk = false ∧
      (observe NpuControls.step c NPURam_disable).npuClkSleep = false) ∧
    ((observe NpuControls.step c NPURam_disable).axisram3 = false ∧
      (observe NpuControls.step c NPURam_disable).axisram4 = false ∧
      (observe NpuControls.step c NPURam_disable).axisram5 = false ∧
      (observe NpuControls.step c NPURam_disable).axisram6 = false) ∧
    ((observe NpuControls.step c NPURam_disable).axisram3Clk = false ∧
      (observe NpuControls.step c NPURam_disable).axisram4Clk = false ∧
      (observe NpuControls.step c NPURam_disable).axisram5Clk = false ∧
      (observe NpuControls.step c NPURam_disable).axisram6Clk = false) ∧
    ((observe NpuControls.step c NPURam_disable).axisram3ClkSleep = false ∧
      (observe NpuControls.step c NPURam_disable).axisram4ClkSleep = false ∧
      (observe NpuControls.step c NPURam_disable).axisram5ClkSleep = false ∧
      (observe NpuControls.step c NPURam_disable).axisram6ClkSleep = false) ∧
    ((observe NpuControls.step c NPURam_disable).ramcfgClk = false ∧
      (observe NpuControls.step c NPURam_disable).ramcfgClkSleep = false ∧
      (observe NpuControls.step c NPURam_disable).ramcfgReset = c.ramcfgReset) ∧
    (occursBefore (.call "__HAL_RCC_NPU_FORCE_RESET") (.call "__HAL_RCC_NPU_RELEASE_RESET")
        NPURam_disable = true ∧
      occursBefore (.call "__HAL_RCC_NPU_RELEASE_RESET") (.call "__HAL_RCC_NPU_CLK_DISABLE")
        NPURam_disable = true ∧
      occursBefore (.call "__HAL_RCC_NPU_RELEASE_RESET") (.call "__HAL_RCC_NPU_FORCE_RESET")
        NPURam_disable = false ∧
      NPURam_disable.count (.call "__HAL_RCC_NPU_FORCE_RESET") = 1 ∧
      NPURam_disable.count (.call "__HAL_RCC_NPU_RELEASE_RESET") = 1) := by
  rw [ramDisable_controls]
  refine ⟨rfl, ⟨rfl, rfl⟩, ⟨rfl, rfl, rfl, rfl⟩, ⟨rfl, rfl, rfl, rfl⟩, ⟨rfl, rfl, rfl, rfl⟩,
    ⟨rfl, rfl, rfl⟩, ?_⟩
  decide

/-! ## Order inside `nn_inference`: auxiliary facts -/

theorem nnOrderTrace_append (a b : List Ev) :
    nnOrderTrace (a ++ b) = nnOrderTrace a ++ nnOrderTrace b := by
  simp [nnOrderTrace]

theorem nnOrderTrace_freqScaling (steps : List FrequencyStep) :
    nnOrderTrace (runInference_freqScaling steps) =
      List.replicate steps.length (.call "LL_ATON_RT_Main") := by
  have hstep : ∀ st : FrequencyStep,
      nnOrderTrace (freqScalingStep st) = [.call "LL_ATON_RT_Main"] := by
    intro st
    simp [nnOrderTrace, freqScalingStep, nnOrderEvents]
  show nnOrderTrace ([Ev.enter "runInference_freqScaling"] ++ (steps.map freqScalingStep).flatten) = _
  rw [nnOrderTrace_append]
  have : nnOrderTrace [Ev.enter "runInference_freqScaling"] = [] := by decide
  rw [this, List.nil_append]
  induction steps with
  | nil => rfl
  | cons s rest ih =>
    rw [List.map_cons, List.flatten_cons, nnOrderTrace_append, hstep, ih]
    rfl

theorem nn_inference_parts (cfg : BuildConfig) (steps : List FrequencyStep) :
    nn_inference cfg steps =
      nnPrologue cfg ++ (NPURam_enable ++ (NPUCache_enable ++
        (nnBody cfg steps ++ nnEpilogue cfg))) := by
  unfold nn_inference nnPrologue nnBody nnEpilogue
  simp only [List.append_assoc]

theorem nnOrderTrace_body (cfg : BuildConfig) (steps : List FrequencyStep) :
    nnOrderTrace (nnBody cfg steps) =
      .enter "externMem_config" ::
        List.replicate (if cfg.NPU_FRQ_SCALING then steps.length else 2)
          (.call "LL_ATON_RT_Main") := by
  obtain ⟨od, sd, sc, ps⟩ := cfg
  unfold nnBody externMem_config
  simp only [nnOrderTrace_append]
  cases od <;> cases sd <;> cases sc <;> cases ps <;>
    simp only [Bool.false_eq_true, if_false, if_true, nnOrderTrace_freqScaling] <;>
    first | decide | simp [nnOrderTrace, nnOrderEvents]

/-! ## Order inside `nn_inference`: the claim -/

/-- C22 (order inside `nn_inference`). For every build and every step table,
`nn_inference` is: a prologue, `NPURam_enable`, `NPUCache_enable`, a body, and
an epilogue. The prologue contains none of the events below; the two enable
functions run to their last call; the body starts `externMem_config` and holds
every `LL_ATON_RT_Main` call (two without frequency scaling, one per table row
with it); the epilogue is `sysclk_NpuClockDisable`, `BSP_XSPI_NOR_DeInit`,
`BSP_XSPI_RAM_DeInit` when `USE_PSRAM = 1`, `__HAL_RCC_XSPIM_CLK_DISABLE`, in
this order, and is the end of `nn_inference`. -/
theorem C22_inference_order (cfg : BuildConfig) (steps : List FrequencyStep) :
    nn_inference cfg steps =
      nnPrologue cfg ++ (NPURam_enable ++ (NPUCache_enable ++
        (nnBody cfg steps ++ nnEpilogue cfg))) ∧
    nnOrderTrace (nnPrologue cfg) = [] ∧
    nnOrderTrace (NPURam_enable ++ NPUCache_enable) =
      [ .enter "NPURam_enable", .callWith "HAL_RAMCFG_EnableAXISRAM" "RAMCFG_SRAM6_AXI",
        .enter "NPUCache_enable", .call "npu_cache_enable" ] ∧
    (NPURam_enable.getLast? = some (.callWith "HAL_RAMCFG_EnableAXISRAM" "RAMCFG_SRAM6_AXI") ∧
      NPUCache_enable.getLast? = some (.call "npu_cache_enable")) ∧
    nnOrderTrace (nnBody cfg steps) =
      .enter "externMem_config" ::
        List.replicate (if cfg.NPU_FRQ_SCALING then steps.length else 2)
          (.call "LL_ATON_RT_Main") ∧
    (nnOrderTrace (nnEpilogue cfg) = nnEpilogue cfg ∧
      nnEpilogue cfg =
        [ .call "sysclk_NpuClockDisable", .call "BSP_XSPI_NOR_DeInit" ] ++
        (if cfg.USE_PSRAM then [ .call "BSP_XSPI_RAM_DeInit" ] else []) ++
        [ .call "__HAL_RCC_XSPIM_CLK_DISABLE" ]) ∧
    nnOrderTrace (nn_inference cfg steps) =
      [ .enter "NPURam_enable", .callWith "HAL_RAMCFG_EnableAXISRAM" "RAMCFG_SRAM6_AXI",
        .enter "NPUCache_enable", .call "npu_cache_enable", .enter "externMem_config" ] ++
      List.replicate (if cfg.NPU_FRQ_SCALING then steps.length else 2)
        (.call "LL_ATON_RT_Main") ++
      [ .call "sysclk_NpuClockDisable", .call "BSP_XSPI_NOR_DeInit" ] ++
      (if cfg.USE_PSRAM then [ .call "BSP_XSPI_RAM_DeInit" ] else []) ++
      [ .call "__HAL_RCC_XSPIM_CLK_DISABLE" ] := by
  have hpro : nnOrderTrace (nnPrologue cfg) = [] := by
    unfold nnPrologue
    cases cfg.CPU_FRQ_SCALE_DOWN <;> decide
  have hen : nnOrderTrace (NPURam_enable ++ NPUCache_enable) =
      [ .enter "NPURam_enable", .callWith "HAL_RAMCFG_EnableAXISRAM" "RAMCFG_SRAM6_AXI",
        .enter "NPUCache_enable", .call "npu_cache_enable" ] := by decide
  have hepi : nnOrderTrace (nnEpilogue cfg) = nnEpilogue cfg := by
    unfold nnEpilogue
    cases cfg.USE_PSRAM <;> decide
  refine ⟨nn_inference_parts cfg steps, hpro, hen, ⟨by decide, by decide⟩,
    nnOrderTrace_body cfg steps, ⟨hepi, rfl⟩, ?_⟩
  rw [nn_inference_parts, nnOrderTrace_append, hpro, List.nil_append, ← List.append_assoc,
    nnOrderTrace_append, hen, nnOrderTrace_append, nnOrderTrace_body, hepi]
  unfold nnEpilogue
  simp only [List.append_assoc, List.cons_append, List.nil_append]

/-! ## Console UART: auxiliary facts -/

theorem tsOpsOf_replicate_call {hw : TimerInitEffect} (n : Nat) (fn : String) :
    tsOpsOf hw (List.replicate n (.call fn)) = [] := by
  induction n with
  | zero => rfl
  | succ n ih =>
    rw [List.replicate_succ]
    show tsOpsOf hw ([Ev.call fn] ++ List.replicate n (Ev.call fn)) = []
    rw [tsOpsOf_append, ih]
    rfl

theorem appLoopBody_beforeSend (cfg : BuildConfig) (env : CycleEnv) :
    appLoopBody cfg env = beforeSend cfg env ++ (sendTimestamp ++ deInitIPs cfg) := by
  unfold appLoopBody beforeSend
  simp only [List.append_assoc]

theorem beforeSend_quiet (cfg : BuildConfig) (env : CycleEnv) :
    ∀ e ∈ beforeSend cfg env, e.touchesUart = false := by
  have hall : (beforeSend cfg env).all (fun e => !e.touchesUart) = true := by
    obtain ⟨od, sd, sc, ps⟩ := cfg
    unfold beforeSend cameraCapture postProcessing
    simp only [List.all_append,
      all_replicate_of (fun e => !e.touchesUart) _ (Ev.call "HAL_PWR_EnterSLEEPMode")
        (by decide),
      all_replicate_of (fun e => !e.touchesUart) _ (Ev.call "SCB_InvalidateDCache_by_Addr")
        (by decide)]
    cases od <;> cases sd <;> cases sc <;> cases ps <;> decide
  intro e he
  have := List.all_eq_true.mp hall e he
  simpa using this

theorem uartStep_quiet (e : Ev) (h : e.touchesUart = false) (v : UartView) :
    v.step e = v := by
  simp only [Ev.touchesUart, Bool.or_eq_false_iff, decide_eq_false_iff_not] at h
  simp [UartView.step, h.1.2, h.2]

theorem afterSend_noLog (cfg : BuildConfig) :
    ∀ e ∈ sendTimestamp ++ deInitIPs cfg, e.isLog = false ∧ e ≠ .pwr_timestamp_stop := by
  have hall : (sendTimestamp ++ deInitIPs cfg).all
      (fun e => !e.isLog && decide (e ≠ .pwr_timestamp_stop)) = true := by
    unfold deInitIPs
    cases cfg.CPU_FRQ_SCALE_DOWN <;> decide
  intro e he
  have := List.all_eq_true.mp hall e he
  simpa using this

theorem tsOpsOf_beforeSend {hw : TimerInitEffect} (cfg : BuildConfig) (env : CycleEnv) :
    tsOpsOf hw (beforeSend cfg env) =
      [.init .allOk hw, .start] ++ (loggedLabels (beforeSend cfg env)).map TsOp.log ++ [.stop] := by
  obtain ⟨od, sd, sc, ps⟩ := cfg
  unfold beforeSend cameraCapture postProcessing
  simp only [tsOpsOf_append, loggedLabels_append, tsOpsOf_replicate_call,
    loggedLabels_replicate_call]
  cases od <;> cases sd <;> cases sc <;> cases ps <;> rfl

theorem tsOpsOf_afterSend (hw : TimerInitEffect) (cfg : BuildConfig) :
    tsOpsOf hw (sendTimestamp ++ deInitIPs cfg) = [.sendOverUart] ∧
    loggedLabels (sendTimestamp ++ deInitIPs cfg) = [] := by
  unfold deInitIPs
  cases cfg.CPU_FRQ_SCALE_DOWN <;> exact ⟨rfl, rfl⟩

theorem loggedLabels_cycle_length (cfg : BuildConfig) (env : CycleEnv) :
    (loggedLabels (appLoopBody cfg env)).length =
      (if cfg.NPU_FRQ_SCALING then 9 + 2 * frequencySteps.length else 11) +
      (if cfg.USE_PSRAM then 1 else 0) := by
  obtain ⟨od, sd, sc, ps⟩ := cfg
  unfold appLoopBody cameraCapture postProcessing
  simp only [loggedLabels_append, loggedLabels_replicate_call]
  cases od <;> cases sd <;> cases sc <;> cases ps <;> decide

theorem uart_in_beforeSend (cfg : BuildConfig) (env : CycleEnv) :
    (∀ p ∈ annotate UartView.step { configured := false } (beforeSend cfg env),
      p.1.configured = false) ∧
    (observe UartView.step { configured := false } (beforeSend cfg env)).configured = false :=
  annotate_invariant UartView.step (fun v => v.configured = false) (beforeSend cfg env)
    { configured := false } rfl
    (fun e he v hv => by rw [uartStep_quiet e (beforeSend_quiet cfg env e he) v]; exact hv)

/-! ## Console UART: the claim -/

/-- C23 (console window). In one cycle, in any build: the cycle is what comes
before `sendTimestamp`, followed by `sendTimestamp` and `deInitIPs`. The first
part does not touch the console and its timestamp operations end with the
checkpoints of the cycle followed by `pwr_timestamp_stop`; the second part
logs no checkpoint, and brings the console up once (`Console_Config`, whose
`HAL_UART_Init` precedes the dump of the log) and down once (`HAL_UART_DeInit`
in `deInitIPs`). So, the console being down when the cycle starts, it is down
at every `pwr_timestamp_log` call and down again when the cycle ends, that is
before `waitForUserTrigger` is entered again. -/
theorem C23_console_window (hw : TimerInitEffect) (cfg : BuildConfig) (env : CycleEnv) :
    appLoopBody cfg env = beforeSend cfg env ++ (sendTimestamp ++ deInitIPs cfg) ∧
    (∀ e ∈ beforeSend cfg env, e.touchesUart = false) ∧
    tsOpsOf hw (beforeSend cfg env) =
      [.init .allOk hw, .start] ++ (loggedLabels (appLoopBody cfg env)).map TsOp.log ++ [.stop] ∧
    (∀ e ∈ sendTimestamp ++ deInitIPs cfg, e.isLog = false ∧ e ≠ .pwr_timestamp_stop) ∧
    uartTrace sendTimestamp =
      [ .enter "Console_Config", .callWith "HAL_UART_Init" "huart1",
        .pwr_timestamp_sendOverUart ] ∧
    uartTrace (deInitIPs cfg) = [ .callWith "HAL_UART_DeInit" "huart1" ] ∧
    uartTrace (appLoopBody cfg env) =
      [ .enter "Console_Config", .callWith "HAL_UART_Init" "huart1",
        .pwr_timestamp_sendOverUart, .callWith "HAL_UART_DeInit" "huart1" ] ∧
    (∀ p ∈ annotate UartView.step { configured := false } (appLoopBody cfg env),
      p.2.isLog = true → p.1.configured = false) ∧
    observe UartView.step { configured := false } (appLoopBody cfg env) =
      { configured := false } ∧
    (appLoopBody cfg env).head? = some (.enter "waitForUserTrigger") := by
  have hsplit := appLoopBody_beforeSend cfg env
  have hquiet := beforeSend_quiet cfg env
  have hafter := tsOpsOf_afterSend hw cfg
  have hdeinit : uartTrace (deInitIPs cfg) = [ .callWith "HAL_UART_DeInit" "huart1" ] := by
    unfold deInitIPs
    cases cfg.CPU_FRQ_SCALE_DOWN <;> decide
  have hbefore : uartTrace (beforeSend cfg env) = [] := by
    unfold uartTrace
    rw [List.filter_eq_nil_iff]
    intro e he
    have h1 := hquiet e he
    have h2 : e ≠ .pwr_timestamp_sendOverUart := by
      intro hc
      have hin : TsOp.sendOverUart ∈ tsOpsOf hw (beforeSend cfg env) := by
        unfold tsOpsOf
        rw [List.mem_filterMap]
        exact ⟨e, he, by rw [hc]; rfl⟩
      rw [tsOpsOf_beforeSend] at hin
      simp at hin
    simp [h1, h2]
  have hlabels : loggedLabels (appLoopBody cfg env) = loggedLabels (beforeSend cfg env) := by
    rw [hsplit, loggedLabels_append, hafter.2, List.append_nil]
  refine ⟨hsplit, hquiet, ?_, afterSend_noLog cfg, by decide, hdeinit, ?_, ?_, ?_, rfl⟩
  · rw [hlabels]
    exact tsOpsOf_beforeSend cfg env
  · have happ : ∀ a b, uartTrace (a ++ b) = uartTrace a ++ uartTrace b := by
      intro a b
      simp [uartTrace]
    rw [hsplit, happ, happ, hbefore, hdeinit]
    decide
  · intro p hp hlog
    rw [hsplit, annotate_append] at hp
    rcases List.mem_append.mp hp with h | h
    · exact (uart_in_beforeSend cfg env).1 p h
    · have hmem := annotate_snd_mem _ _ _ p h
      have := (afterSend_noLog cfg p.2 hmem).1
      rw [this] at hlog
      exact absurd hlog (by decide)
  · rw [hsplit, observe_append]
    have h0 : observe UartView.step { configured := false } (beforeSend cfg env) =
        { configured := false } := by
      have := (uart_in_beforeSend cfg env).2
      cases hobs : observe UartView.step { configured := false } (beforeSend cfg env) with
      | mk c =>
        rw [hobs] at this
        simp only at this
        rw [this]
    rw [h0]
    unfold deInitIPs
    cases cfg.CPU_FRQ_SCALE_DOWN <;> decide

/-! ## Waiting for the frame: auxiliary facts -/

theorem wrapInt32_succ (c : Int) (hlo : -2147483648 ≤ c) (hhi : c < INT32_MAX) :
    wrapInt32 (c + 1) = c + 1 := by
  unfold wrapInt32
  unfold INT32_MAX at hhi
  omega

/-- The wait loop exits only with a nonzero counter, after at most as many
sleeps as there are wake-ups. -/
theorem waitFrameLoop_exit (wakes : List (List Nat)) :
    ∀ (c : Int) (n : Nat) (c1 : Int), waitFrameLoop c wakes = some (n, c1) →
      c1 ≠ 0 ∧ n ≤ wakes.length ∧ (c ≠ 0 → n = 0 ∧ c1 = c) := by
  induction wakes with
  | nil =>
    intro c n c1 h
    unfold waitFrameLoop at h
    by_cases hc : c ≠ 0
    · rw [if_pos hc] at h
      simp only [Option.some.injEq, Prod.mk.injEq] at h
      obtain ⟨rfl, rfl⟩ := h
      exact ⟨hc, le_refl _, fun _ => ⟨rfl, rfl⟩⟩
    · rw [if_neg hc] at h
      exact absurd h (by simp)
  | cons w rest ih =>
    intro c n c1 h
    unfold waitFrameLoop at h
    by_cases hc : c ≠ 0
    · rw [if_pos hc] at h
      simp only [Option.some.injEq, Prod.mk.injEq] at h
      obtain ⟨rfl, rfl⟩ := h
      exact ⟨hc, Nat.zero_le _, fun _ => ⟨rfl, rfl⟩⟩
    · rw [if_neg hc] at h
      cases hr : waitFrameLoop (deliverFrameEvents w c) rest with
      | none => rw [hr] at h; exact absurd h (by simp)
      | some r =>
        rw [hr] at h
        simp only [Option.map_some', Option.some.injEq, Prod.mk.injEq] at h
        obtain ⟨rfl, rfl⟩ := h
        obtain ⟨h1, h2, _⟩ := ih _ r.1 r.2 hr
        exact ⟨h1, by simp only [List.length_cons]; omega, fun h0 => absurd h0 hc⟩

/-- After any number of wake-ups without a frame of pipe 2, the first wake-up
that brings one ends the loop with the counter at 1. -/
theorem waitFrameLoop_frame (k : Nat) (rest : List (List Nat)) :
    waitFrameLoop 0 (List.replicate k [] ++ [DCMIPP_PIPE2] :: rest) = some (k + 1, 1) := by
  induction k with
  | zero =>
    cases rest <;> rfl
  | succ k ih =>
    rw [List.replicate_succ, List.cons_append]
    unfold waitFrameLoop
    have : deliverFrameEvents [] 0 = 0 := rfl
    rw [if_neg (by decide), this, ih]
    rfl

theorem count_replicate_of_ne (n : Nat) (a b : Ev) (h : a ≠ b) :
    (List.replicate n a).count b = 0 := by
  rw [List.count_replicate]
  have : (a == b) = false := by simpa using h
  rw [this]
  rfl

/-! ## Waiting for the frame: the claim -/

/-- C24 (frame capture). `cameraCapture` stores 0 in `cameraFrameReceived` as
its first action, before `CAM_NNPipe_Start`, which it calls once, in snapshot
mode on `nn_in_buffer` (224 x 224 x 3 = 150528 bytes), and which is called
once per cycle. Whenever `cameraCapture` gets to log "wait frame" the counter
is nonzero, and the sleeps it took are as many as the `HAL_PWR_EnterSLEEPMode`
calls of its trace; it does get there when a frame event of pipe 2 arrives,
after any number of wake-ups without one. The frame event callback returns 0,
leaves the counter as it is for every pipe other than `DCMIPP_PIPE2` and, for
`DCMIPP_PIPE2`, adds one to it (a counter below `INT32_MAX`; the 32-bit result
in general). -/
theorem C24_frame_capture (cfg : BuildConfig) (env : CycleEnv) (irqs : FrameIrqs)
    (number_output : Nat) :
    ((cameraCapture env).take 2 = [.enter "cameraCapture", .assign "cameraFrameReceived" 0] ∧
      occursBefore (.assign "cameraFrameReceived" 0)
        (.callWith "CAM_NNPipe_Start" "nn_in_buffer, CMW_MODE_SNAPSHOT")
        (cameraCapture env) = true ∧
      occursBefore (.callWith "CAM_NNPipe_Start" "nn_in_buffer, CMW_MODE_SNAPSHOT")
        (.assign "cameraFrameReceived" 0) (cameraCapture env) = false) ∧
    ((cameraCapture env).count (.callWith "CAM_NNPipe_Start" "nn_in_buffer, CMW_MODE_SNAPSHOT")
        = 1 ∧
      (appLoopBody cfg env).count
        (.callWith "CAM_NNPipe_Start" "nn_in_buffer, CMW_MODE_SNAPSHOT") = 1 ∧
      (appLoopBody cfg env).count (.call "CAM_NNPipe_Start") = 0 ∧
      nn_in_buffer_size = 150528) ∧
    (∀ t c, cameraCaptureRun irqs number_output = some (t, c) →
      c ≠ 0 ∧
      Ev.pwr_timestamp_log "wait frame" ∈ t ∧
      ∃ n, n ≤ irqs.wakes.length ∧
        t = cameraCapture { frameWaitSleeps := n, number_output := number_output } ∧
        t.count (.call "HAL_PWR_EnterSLEEPMode") = n) ∧
    (∀ k rest, cameraCaptureRun { early := [], wakes := List.replicate k [] ++
        [DCMIPP_PIPE2] :: rest } number_output =
      some (cameraCapture { frameWaitSleeps := k + 1, number_output := number_output }, 1)) ∧
    (∀ pipe c,
      (CMW_CAMERA_PIPE_FrameEventCallback pipe c).2 = 0 ∧
      (pipe ≠ DCMIPP_PIPE2 → (CMW_CAMERA_PIPE_FrameEventCallback pipe c).1 = c) ∧
      (pipe = DCMIPP_PIPE2 →
        (CMW_CAMERA_PIPE_FrameEventCallback pipe c).1 = wrapInt32 (c + 1)) ∧
      (pipe = DCMIPP_PIPE2 → -2147483648 ≤ c → c < INT32_MAX →
        (CMW_CAMERA_PIPE_FrameEventCallback pipe c).1 = c + 1)) := by
  have hcount : ∀ n : Nat, ∀ k : Nat,
      (cameraCapture { frameWaitSleeps := n, number_output := k }).count
        (.call "HAL_PWR_EnterSLEEPMode") = n := by
    intro n k
    unfold cameraCapture
    simp only [List.count_append, List.count_replicate_self]
    have h1 : List.count (Ev.call "HAL_PWR_EnterSLEEPMode")
        [ .enter "cameraCapture", .assign "cameraFrameReceived" 0,
          .call "__HAL_RCC_DCMIPP_CLK_SLEEP_ENABLE", .call "__HAL_RCC_CSI_CLK_SLEEP_ENABLE",
          .call "__HAL_RCC_AXISRAM1_MEM_CLK_SLEEP_ENABLE",
          .call "__HAL_RCC_AXISRAM2_MEM_CLK_SLEEP_ENABLE",
          .call "__HAL_RCC_FLEXRAM_MEM_CLK_SLEEP_ENABLE", .call "__HAL_RCC_TIM2_CLK_SLEEP_ENABLE",
          .call "__HAL_RCC_I2C1_CLK_SLEEP_ENABLE", .call "__HAL_RCC_I2C2_CLK_SLEEP_ENABLE",
          .callWith "CAM_NNPipe_Start" "nn_in_buffer, CMW_MODE_SNAPSHOT",
          .pwr_timestamp_log "camera started", .call "HAL_SuspendTick" ] = 0 := by decide
    have h2 : List.count (Ev.call "HAL_PWR_EnterSLEEPMode")
        [ .call "HAL_ResumeTick", .pwr_timestamp_log "wait frame", .call "CAM_IspUpdate",
          .pwr_timestamp_log "ISP update" ] = 0 := by decide
    rw [h1, h2]
    omega
  have hstart : ∀ e : CycleEnv,
      (cameraCapture e).count (.callWith "CAM_NNPipe_Start" "nn_in_buffer, CMW_MODE_SNAPSHOT")
        = 1 := by
    intro e
    unfold cameraCapture
    rw [List.count_append, List.count_append,
      count_replicate_of_ne _ (Ev.call "HAL_PWR_EnterSLEEPMode")
        (Ev.callWith "CAM_NNPipe_Start" "nn_in_buffer, CMW_MODE_SNAPSHOT") (by decide)]
    decide
  have hmem : ∀ e : CycleEnv, Ev.pwr_timestamp_log "wait frame" ∈ cameraCapture e := by
    intro e
    unfold cameraCapture
    simp
  refine ⟨⟨rfl, ?_, ?_⟩, ⟨hstart env, ?_, ?_, by decide⟩, ?_, ?_, ?_⟩
  · unfold cameraCapture
    simp [occursBefore]
  · unfold cameraCapture
    simp [occursBefore]
  · obtain ⟨od, sd, sc, ps⟩ := cfg
    unfold appLoopBody postProcessing
    simp only [List.count_append, hstart env,
      count_replicate_of_ne _ (Ev.call "SCB_InvalidateDCache_by_Addr")
        (Ev.callWith "CAM_NNPipe_Start" "nn_in_buffer, CMW_MODE_SNAPSHOT") (by decide)]
    cases od <;> cases sd <;> cases sc <;> cases ps <;> decide
  · obtain ⟨od, sd, sc, ps⟩ := cfg
    unfold appLoopBody postProcessing cameraCapture
    simp only [List.count_append,
      count_replicate_of_ne _ (Ev.call "SCB_InvalidateDCache_by_Addr")
        (Ev.call "CAM_NNPipe_Start") (by decide),
      count_replicate_of_ne _ (Ev.call "HAL_PWR_EnterSLEEPMode")
        (Ev.call "CAM_NNPipe_Start") (by decide)]
    cases od <;> cases sd <;> cases sc <;> cases ps <;> decide
  · intro t c h
    unfold cameraCaptureRun at h
    simp only [] at h
    cases hr : waitFrameLoop (deliverFrameEvents irqs.early 0) irqs.wakes with
    | none => rw [hr] at h; exact absurd h (by simp)
    | some r =>
      rw [hr] at h
      simp only [Option.map_some', Option.some.injEq, Prod.mk.injEq] at h
      obtain ⟨rfl, rfl⟩ := h
      obtain ⟨h1, h2, _⟩ := waitFrameLoop_exit _ _ r.1 r.2 hr
      exact ⟨h1, hmem _, r.1, h2, rfl, hcount _ _⟩
  · intro k rest
    unfold cameraCaptureRun
    simp only []
    have : deliverFrameEvents [] 0 = 0 := rfl
    rw [this, waitFrameLoop_frame]
    rfl
  · intro pipe c
    refine ⟨rfl, ?_, ?_, ?_⟩
    · intro h
      simp [CMW_CAMERA_PIPE_FrameEventCallback, h]
    · intro h
      simp [CMW_CAMERA_PIPE_FrameEventCallback, h]
    · intro h hlo hhi
      simp only [CMW_CAMERA_PIPE_FrameEventCallback, h, if_true]
      exact wrapInt32_succ c hlo hhi

/-- C24, instantiated: one wake-up without a frame, then the frame of pipe 2;
`cameraCapture` sleeps twice and logs "wait frame" with the counter at 1. -/
theorem C24_frame_capture_witness :
    cameraCaptureRun oneFrameIrqs 1 =
      some (cameraCapture { frameWaitSleeps := 2, number_output := 1 }, 1) ∧
    (1 : Int) ≠ 0 ∧
    Ev.pwr_timestamp_log "wait frame" ∈
      cameraCapture { frameWaitSleeps := 2, number_output := 1 } :=
  have h := (C24_frame_capture defaultBuild sampleEnv oneFrameIrqs 1).2.2.1
    (cameraCapture { frameWaitSleeps := 2, number_output := 1 }) 1 (by decide)
  ⟨by decide, h.1, h.2.1⟩

/-! ## `postProcessing`: the claims -/

/-- C25, as stated, fails: in the default build, which is an overdrive build,
`sysclk_NpuRamsOverDriveClockDeinit` is called after `app_postprocess_run`,
not before it; only `sysclk_NpuOverDrivePllDeinit` comes first. -/
theorem C25_counterexample :
    defaultBuild.POWER_OVERDRIVE = true ∧ defaultBuild.overdrive = true ∧
    occursBefore (.call "sysclk_NpuOverDrivePllDeinit") (.call "app_postprocess_run")
      (postProcessing defaultBuild sampleEnv) = true ∧
    occursBefore (.call "app_postprocess_run") (.call "sysclk_NpuRamsOverDriveClockDeinit")
      (postProcessing defaultBuild sampleEnv) = true ∧
    occursBefore (.call "sysclk_NpuRamsOverDriveClockDeinit") (.call "app_postprocess_run")
      (postProcessing defaultBuild sampleEnv) = false ∧
    (postProcessing defaultBuild sampleEnv).getLast? =
      some (.call "sysclk_NpuRamsOverDriveClockDeinit") := by
  decide

/-- C25 (amended). In a build compiled with overdrive (`POWER_OVERDRIVE = 1`
and `NPU_FRQ_SCALING = 0`), `postProcessing` is exactly: read the clock
configuration, `sysclk_NpuOverDrivePllDeinit`, `app_postprocess_run`, the
checkpoint "post processing", `pwr_timestamp_stop`, one cache invalidation per
network output, and only then `sysclk_NpuRamsOverDriveClockDeinit`. -/
theorem C25_overdrive_teardown (cfg : BuildConfig) (env : CycleEnv)
    (h : cfg.overdrive = true) :
    postProcessing cfg env =
      [ .enter "postProcessing",
        .call "HAL_RCC_GetClockConfig",
        .call "sysclk_NpuOverDrivePllDeinit",
        .call "app_postprocess_run",
        .pwr_timestamp_log "post processing",
        .pwr_timestamp_stop ] ++
      List.replicate env.number_output (.call "SCB_InvalidateDCache_by_Addr") ++
      [ .call "sysclk_NpuRamsOverDriveClockDeinit" ] := by
  have hsc : cfg.NPU_FRQ_SCALING = false := by
    unfold BuildConfig.overdrive at h
    cases hs : cfg.NPU_FRQ_SCALING with
    | false => rfl
    | true => rw [hs] at h; simp at h
  unfold postProcessing
  rw [h, hsc]
  simp

/-- C25, instantiated at the default build with one network output. -/
theorem C25_overdrive_teardown_witness :
    postProcessing defaultBuild sampleEnv =
      [ .enter "postProcessing",
        .call "HAL_RCC_GetClockConfig",
        .call "sysclk_NpuOverDrivePllDeinit",
        .call "app_postprocess_run",
        .pwr_timestamp_log "post processing",
        .pwr_timestamp_stop ] ++
      List.replicate sampleEnv.number_output (.call "SCB_InvalidateDCache_by_Addr") ++
      [ .call "sysclk_NpuRamsOverDriveClockDeinit" ] :=
  C25_overdrive_teardown defaultBuild sampleEnv (by decide)

/-- C26 (clock calls of `postProcessing`). In a scaling build `postProcessing`
ends with: the reading of the clock configuration and the `HAL_RCC_ClockConfig`
that puts the NPU and NPU-RAM clocks back on PLL1 / 200, leaving the CPU clock
alone; then, when `CPU_FRQ_SCALE_DOWN = 1`, `sysclk_SetCpuMinFreq` (CPU on the
HSE) and a `HAL_RCC_OscConfig` that switches off PLL2 and PLL3; then, in either
case, the `HAL_RCC_OscConfig` that switches off PLL2, which the source places
after the `#endif` of an empty `#else`. So with `CPU_FRQ_SCALE_DOWN = 1` both
blocks run and `HAL_RCC_OscConfig` is invoked twice, the second call changing
nothing; with 0 it is invoked once. At the end PLL2 is off; with
`CPU_FRQ_SCALE_DOWN = 1` PLL3 is off and the CPU runs from the HSE, with 0 PLL3
and the CPU clock are as before. -/
theorem C26_restore_clocks (cfg : BuildConfig) (env : CycleEnv) (st : ClkState)
    (h : cfg.NPU_FRQ_SCALING = true) :
    postProcessing cfg env =
      [ .enter "postProcessing", .call "app_postprocess_run",
        .pwr_timestamp_log "post processing", .pwr_timestamp_stop ] ++
      List.replicate env.number_output (.call "SCB_InvalidateDCache_by_Addr") ++
      [ .call "HAL_RCC_GetClockConfig", .call "HAL_RCC_ClockConfig" ] ++
      (if cfg.CPU_FRQ_SCALE_DOWN then
        [ .call "sysclk_SetCpuMinFreq", .oscConfigPllOff true true ] else []) ++
      [ .oscConfigPllOff true false ] ∧
    (postProcessing cfg env).filter Ev.isOscConfig =
      (if cfg.CPU_FRQ_SCALE_DOWN then [ Ev.oscConfigPllOff true true ] else []) ++
      [ .oscConfigPllOff true false ] ∧
    (postProcessingClocks cfg st).map (fun p => p.1) =
      [ .HAL_RCC_GetClockConfig, .HAL_RCC_ClockConfig (restoreClkInit st) ] ++
      (if cfg.CPU_FRQ_SCALE_DOWN then
        [ ClkAction.HAL_RCC_ClockConfig minFreqClkInit,
          .HAL_RCC_OscConfig (pllOffOscInit true true) ] else []) ++
      [ .HAL_RCC_OscConfig (pllOffOscInit true false) ] ∧
    ((postProcessing cfg env).map clkKindOf).flatten =
      (postProcessingClocks cfg st).map (fun p => p.1.kind) ∧
    ((postProcessingClocks cfg st).map (fun p => p.1.kind)).count .oscConfig =
      (if cfg.CPU_FRQ_SCALE_DOWN then 2 else 1) ∧
    ((afterRestore st).IC6 = { ClockSelection := .RCC_ICCLKSOURCE_PLL1, ClockDivider := 200 } ∧
      (afterRestore st).IC11 = { ClockSelection := .RCC_ICCLKSOURCE_PLL1, ClockDivider := 200 } ∧
      (afterRestore st).SYSCLKSource = .RCC_SYSCLKSOURCE_IC2_IC6_IC11 ∧
      (afterRestore st).CPUCLKSource = st.CPUCLKSource ∧
      (afterRestore st).IC1 = st.IC1) ∧
    (lastClk st (postProcessingClocks cfg st)).PLL2.PLLState = .RCC_PLL_OFF ∧
    (cfg.CPU_FRQ_SCALE_DOWN = true →
      (lastClk st (postProcessingClocks cfg st)).PLL3.PLLState = .RCC_PLL_OFF ∧
      (lastClk st (postProcessingClocks cfg st)).CPUCLKSource = .RCC_CPUCLKSOURCE_HSE ∧
      lastClk st (postProcessingClocks cfg st) = afterScaleDownBlock cfg st) ∧
    (cfg.CPU_FRQ_SCALE_DOWN = false →
      (lastClk st (postProcessingClocks cfg st)).PLL3 = st.PLL3 ∧
      (lastClk st (postProcessingClocks cfg st)).CPUCLKSource = st.CPUCLKSource ∧
      (lastClk st (postProcessingClocks cfg st)).IC1 = st.IC1) := by
  obtain ⟨od, sd, sc, ps⟩ := cfg
  simp only at h
  subst h
  have hrest : afterRestore st =
      { st with
        SYSCLKSource := .RCC_SYSCLKSOURCE_IC2_IC6_IC11
        IC6 := { ClockSelection := .RCC_ICCLKSOURCE_PLL1, ClockDivider := 200 }
        IC11 := { ClockSelection := .RCC_ICCLKSOURCE_PLL1, ClockDivider := 200 } } := by
    simp [afterRestore, HAL_RCC_ClockConfig, restoreClkInit, HAL_RCC_GetClockConfig]
  refine ⟨?_, ?_, ?_, ?_, ?_, ?_, ?_, ?_, ?_⟩
  · cases sd <;> simp [postProcessing, BuildConfig.overdrive]
  · cases sd <;>
      simp [postProcessing, BuildConfig.overdrive, List.filter_append, Ev.isOscConfig,
        List.filter_replicate]
  · cases sd <;> simp [postProcessingClocks, sysclk_SetCpuMinFreq]
  · cases sd <;>
      simp [postProcessing, BuildConfig.overdrive, postProcessingClocks, sysclk_SetCpuMinFreq,
        clkKindOf, ClkAction.kind]
  · cases sd <;>
      simp [postProcessingClocks, sysclk_SetCpuMinFreq, ClkAction.kind]
  · rw [hrest]
    exact ⟨rfl, rfl, rfl, rfl, rfl⟩
  · cases sd <;>
      simp [postProcessingClocks, sysclk_SetCpuMinFreq, lastClk, HAL_RCC_OscConfig,
        pllOffOscInit, RCC_OscInitTypeDef.zero, RCC_PLLInitTypeDef.zero]
  · intro hsd
    simp only at hsd
    subst hsd
    simp [postProcessingClocks, sysclk_SetCpuMinFreq, lastClk, HAL_RCC_OscConfig,
      pllOffOscInit, RCC_OscInitTypeDef.zero, RCC_PLLInitTypeDef.zero, afterScaleDownBlock,
      HAL_RCC_ClockConfig, minFreqClkInit, RCC_ClkInitTypeDef.zero]
  · intro hsd
    simp only at hsd
    subst hsd
    simp [postProcessingClocks, lastClk, HAL_RCC_OscConfig,
      pllOffOscInit, RCC_OscInitTypeDef.zero, RCC_PLLInitTypeDef.zero, hrest]

/-- C26, evaluated in a scaling build with `CPU_FRQ_SCALE_DOWN = 1`, after the
sweep of the static table: two `HAL_RCC_OscConfig` calls, for PLL2 and PLL3
and then for PLL2 again; the second leaves the clock tree as the first left
it. -/
theorem C26_restore_clocks_witness :
    scaleDownScalingBuild.NPU_FRQ_SCALING = true ∧
    scaleDownScalingBuild.CPU_FRQ_SCALE_DOWN = true ∧
    (postProcessing scaleDownScalingBuild sampleEnv).filter Ev.isOscConfig =
      (if scaleDownScalingBuild.CPU_FRQ_SCALE_DOWN then [ Ev.oscConfigPllOff true true ]
        else []) ++
      [ .oscConfigPllOff true false ] ∧
    (postProcessing scaleDownScalingBuild sampleEnv).filter Ev.isOscConfig =
      [ .oscConfigPllOff true true, .oscConfigPllOff true false ] ∧
    (postProcessingClocks scaleDownScalingBuild afterSweepClkState).map (fun p => p.1) =
      [ .HAL_RCC_GetClockConfig,
        .HAL_RCC_ClockConfig (restoreClkInit afterSweepClkState),
        .HAL_RCC_ClockConfig minFreqClkInit,
        .HAL_RCC_OscConfig (pllOffOscInit true true),
        .HAL_RCC_OscConfig (pllOffOscInit true false) ] ∧
    ((postProcessingClocks scaleDownScalingBuild afterSweepClkState).map
      (fun p => p.1.kind)).count .oscConfig = 2 ∧
    lastClk afterSweepClkState (postProcessingClocks scaleDownScalingBuild afterSweepClkState) =
      afterScaleDownBlock scaleDownScalingBuild afterSweepClkState :=
  ⟨rfl, rfl, (C26_restore_clocks scaleDownScalingBuild sampleEnv afterSweepClkState rfl).2.1,
    by decide, by decide, by decide, by decide⟩

/-! ## Timestamp log in the application loop: auxiliary facts -/

theorem tsOpsOf_cycle {hw : TimerInitEffect} (cfg : BuildConfig) (env : CycleEnv) :
    tsOpsOf hw (appLoopBody cfg env) =
      [.init .allOk hw, .start] ++
        ((loggedLabels (appLoopBody cfg env)).map TsOp.log ++ [.stop]) ++ [.sendOverUart] := by
  have hl : loggedLabels (appLoopBody cfg env) = loggedLabels (beforeSend cfg env) := by
    rw [appLoopBody_beforeSend, loggedLabels_append, (tsOpsOf_afterSend hw cfg).2, List.append_nil]
  rw [hl, appLoopBody_beforeSend, tsOpsOf_append, tsOpsOf_beforeSend, (tsOpsOf_afterSend hw cfg).1]
  simp only [List.append_assoc]

theorem loggedLabels_cycle_le (cfg : BuildConfig) (env : CycleEnv) :
    (loggedLabels (appLoopBody cfg env)).length ≤ 22 := by
  rw [loggedLabels_cycle_length]
  have : frequencySteps.length = 6 := rfl
  rw [this]
  cases cfg.NPU_FRQ_SCALING <;> cases cfg.USE_PSRAM <;> decide

/-- From any state of the timestamp module, the operations of one cycle return:
the cursor is back at 0 and the flag clear. -/
theorem cycle_returns {hw : TimerInitEffect} (cfg : BuildConfig) (env : CycleEnv) (s0 : TsState) :
    ∃ s1, runOps (tsOpsOf hw (appLoopBody cfg env)) s0 = .ret s1 ∧
      s1.logIndex = 0 ∧ s1.tim_started = 0 := by
  have hle := loggedLabels_cycle_le cfg env
  have hb : ∀ op ∈ (loggedLabels (appLoopBody cfg env)).map TsOp.log ++ [.stop],
      op.inBracket = true := by
    intro op hop
    rcases List.mem_append.mp hop with h | h
    · exact inBracket_map_log _ op h
    · rw [List.mem_singleton.mp h]
      rfl
  have hcount : logCount ((loggedLabels (appLoopBody cfg env)).map TsOp.log ++ [.stop]) =
      (loggedLabels (appLoopBody cfg env)).length := by
    have hstop : ∀ l : List TsOp, logLabels (l ++ [.stop]) = logLabels l := by
      intro l
      induction l with
      | nil => rfl
      | cons o l ih => cases o <;> simp [logLabels, ih]
    rw [logCount, hstop, logLabels_map_log]
  rw [tsOpsOf_cycle, runOps_append, runOps_append]
  have hinit : runOps [.init .allOk hw, .start] s0 =
      .ret (pwr_timestamp_start
        { s0 with
          RCC := HAL_RCC_TIM2_CLK_ENABLE s0.RCC
          htim2Init := { Prescaler := PRESCALER_VALUE, CounterMode := .TIM_COUNTERMODE_UP,
                         Period := 0xffffffff }
          CNT := hw.CNT
          CEN := hw.CEN
          logBuffer := fun _ => LogEntry_t.zero }) := by
    simp only [runOps, TsOp.exec, init_allOk, andThen_ret]
  obtain ⟨s1, h1, hidx, _, _⟩ := runOps_after_start _ _ hb
    (by rw [hcount]; unfold MAX_LOG_ENTRIES; omega)
  rw [hinit, andThen_ret, h1, andThen_ret]
  have hs1 : s1.logIndex ≤ MAX_LOG_ENTRIES := by
    rw [hidx, hcount]
    unfold MAX_LOG_ENTRIES
    omega
  refine ⟨{ s1 with
      CEN := false
      tim_started := 0
      uart := s1.uart ++ (s1.entries.map printRecord).flatten ++ sentinelLine
      logIndex := 0 }, ?_, rfl, rfl⟩
  simp only [runOps, TsOp.exec, sendOverUart_spec s1 hs1, andThen_ret]

theorem appLoop_returns {hw : TimerInitEffect} (cfg : BuildConfig) (envs : List CycleEnv) :
    ∀ s0 : TsState, ∃ s1, runOps (tsOpsOf hw (appLoop cfg envs)) s0 = .ret s1 := by
  induction envs with
  | nil => intro s0; exact ⟨s0, rfl⟩
  | cons env envs ih =>
    intro s0
    obtain ⟨s1, h1, _, _⟩ := cycle_returns cfg env s0
    obtain ⟨s2, h2⟩ := ih s1
    refine ⟨s2, ?_⟩
    show runOps (tsOpsOf hw (appLoopBody cfg env ++ appLoop cfg envs)) s0 = _
    rw [tsOpsOf_append, runOps_append, h1, andThen_ret, h2]

/-! ## Timestamp log in the application loop: the claim -/

/-- C27 (log count). In every build one cycle makes 11 + p calls of
`pwr_timestamp_log` without frequency scaling and 9 + 2 N + p with it, where p
is 1 with PSRAM and 0 without and N = 6 is the number of rows of
`frequencySteps`; that is at most 22. The timestamp operations of a cycle are
`init`, `start`, these checkpoints, `stop`, `sendOverUart`; from any state of
the module (the HAL calls of `init` succeeding, whatever they leave in the
timer) they all return, so no call
stops at the capacity assertion, and so do those of any number of cycles in a
row. -/
theorem C27_log_count (hw : TimerInitEffect) (cfg : BuildConfig) (env : CycleEnv) :
    (loggedLabels (appLoopBody cfg env)).length =
      (if cfg.NPU_FRQ_SCALING then 9 + 2 * frequencySteps.length else 11) +
      (if cfg.USE_PSRAM then 1 else 0) ∧
    frequencySteps.length = 6 ∧
    (loggedLabels (appLoopBody cfg env)).length ≤ 22 ∧
    logCount (tsOpsOf hw (appLoopBody cfg env)) = (loggedLabels (appLoopBody cfg env)).length ∧
    tsOpsOf hw (appLoopBody cfg env) =
      [.init .allOk hw, .start] ++
        ((loggedLabels (appLoopBody cfg env)).map TsOp.log ++ [.stop]) ++ [.sendOverUart] ∧
    (∀ s0 : TsState, ∃ s1, runOps (tsOpsOf hw (appLoopBody cfg env)) s0 = .ret s1 ∧
      s1.logIndex = 0 ∧ s1.tim_started = 0) ∧
    (∀ (envs : List CycleEnv) (s0 : TsState),
      ∃ s1, runOps (tsOpsOf hw (appLoop cfg envs)) s0 = .ret s1) := by
  refine ⟨loggedLabels_cycle_length cfg env, rfl, loggedLabels_cycle_le cfg env, ?_,
    tsOpsOf_cycle cfg env, cycle_returns cfg env, appLoop_returns cfg⟩
  rw [tsOpsOf_cycle]
  have hnolog : ∀ (l : List TsOp) (o : TsOp), (∀ n, o ≠ .log n) →
      logLabels (l ++ [o]) = logLabels l := by
    intro l o ho
    induction l with
    | nil => cases o <;> first | rfl | exact absurd rfl (ho _)
    | cons a l ih => cases a <;> simp [logLabels, ih]
  generalize loggedLabels (appLoopBody cfg env) = ls
  rw [logCount, hnolog _ _ (by intro n; simp)]
  show (logLabels (ls.map TsOp.log ++ [.stop])).length = ls.length
  rw [hnolog _ _ (by intro n; simp), logLabels_map_log]

/-! ## Start flag and `init`: auxiliary facts -/

theorem sendLoop_tim_started (n : Nat) :
    ∀ (i : Nat) (s : TsState), (sendLoop n i s).state.tim_started = s.tim_started := by
  induction n with
  | zero => intro i s; rfl
  | succ n ih =>
    intro i s
    unfold sendLoop
    by_cases h : i < MAX_LOG_ENTRIES
    · rw [dif_pos h, ih]
    · rw [dif_neg h]
      rfl

theorem sendOverUart_tim_started (s : TsState) :
    (pwr_timestamp_sendOverUart s).state.tim_started = 0 := by
  unfold pwr_timestamp_sendOverUart
  simp only []
  have h := sendLoop_tim_started
    ({ pwr_timestamp_stop s with tim_started := 0 } : TsState).logIndex 0
    { pwr_timestamp_stop s with tim_started := 0 }
  cases hr : sendLoop ({ pwr_timestamp_stop s with tim_started := 0 } : TsState).logIndex 0
      { pwr_timestamp_stop s with tim_started := 0 } with
  | ret s3 =>
    rw [hr] at h
    exact h
  | halt why s3 =>
    rw [hr] at h
    exact h

theorem start_of_clear (s : TsState) (h : s.tim_started = 0) :
    (pwr_timestamp_start s).CNT = 0 ∧ (pwr_timestamp_start s).tim_started = 1 := by
  simp [pwr_timestamp_start, HAL_TIM_Base_Start, HAL_TIM_SET_COUNTER, h]

theorem start_of_set (s : TsState) (h : s.tim_started ≠ 0) :
    (pwr_timestamp_start s).CNT = s.CNT ∧
    (pwr_timestamp_start s).tim_started = s.tim_started := by
  simp [pwr_timestamp_start, HAL_TIM_Base_Start, h]

theorem init_frame (st : TimerInitStatus) (hw : TimerInitEffect) (s s1 : TsState)
    (h : pwr_timestamp_init st hw s = .ret s1) :
    s1.logIndex = s.logIndex ∧ s1.tim_started = s.tim_started ∧ s1.CNT = hw.CNT ∧
    s1.CEN = hw.CEN ∧ s1.uart = s.uart ∧ s1.logBuffer = fun _ => LogEntry_t.zero := by
  unfold pwr_timestamp_init timer_init at h
  simp only [] at h
  split at h
  · exact absurd h (by simp [Outcome.andThen])
  · split at h
    · exact absurd h (by simp [Outcome.andThen])
    · split at h
      · exact absurd h (by simp [Outcome.andThen])
      · simp only [Outcome.andThen, Outcome.ret.injEq] at h
        subst h
        exact ⟨rfl, rfl, rfl, rfl, rfl, rfl⟩

theorem entries_of_zero (s : TsState) (h : s.logBuffer = fun _ => LogEntry_t.zero) :
    s.entries = List.replicate s.logIndex LogEntry_t.zero := by
  unfold TsState.entries
  rw [List.eq_replicate_iff]
  refine ⟨by simp, ?_⟩
  intro e he
  obtain ⟨i, _, rfl⟩ := List.mem_map.mp he
  unfold TsState.slot
  split
  · rw [h]
  · rfl

set_option maxRecDepth 100000 in
theorem recordText_zero :
    recordText LogEntry_t.zero =
      ("[SLP_SOL](null):0:us:DIVENR=0:MISCENR=0:MEMENR=0:AHB1ENR=0:AHB2ENR=0:AHB3ENR=0:" ++
        "AHB4ENR=0:AHB5ENR=0:APB1LENR=0:APB1HENR=0:APB2ENR=0:APB3ENR=0:APB4LENR=0:" ++
        "APB4HENR=0:APB5ENR=0[SLP_EOL]\n").toList := by
  decide

/-! ## Start flag and `init`: the claims -/

/-- C28 (start flag). `pwr_timestamp_start` writes 0 to the counter when the
flag `tim_started` is clear and leaves the counter as it is when the flag is
set; in both cases it resets the cursor, starts the counter and leaves the
flag set. `pwr_timestamp_stop` and `pwr_timestamp_sendOverUart` leave the flag
clear. Hence a second `start()` with no `stop()` or `sendOverUart()` in
between keeps the count, whatever time has passed, and a `start()` after
`stop()` or after `sendOverUart()` zeroes it. -/
theorem C28_start_flag (s : TsState) :
    (s.tim_started = 0 → (pwr_timestamp_start s).CNT = 0) ∧
    (s.tim_started ≠ 0 → (pwr_timestamp_start s).CNT = s.CNT) ∧
    ((pwr_timestamp_start s).logIndex = 0 ∧
      (pwr_timestamp_start s).CEN = true ∧
      (pwr_timestamp_start s).tim_started ≠ 0) ∧
    ((pwr_timestamp_stop s).tim_started = 0 ∧
      (pwr_timestamp_sendOverUart s).state.tim_started = 0) ∧
    (∀ d : Nat,
      (pwr_timestamp_start (elapse d (pwr_timestamp_start s))).CNT =
        (elapse d (pwr_timestamp_start s)).CNT ∧
      (pwr_timestamp_start (elapse d (pwr_timestamp_start s))).logIndex = 0) ∧
    (∀ d : Nat, (pwr_timestamp_start (elapse d (pwr_timestamp_stop s))).CNT = 0) ∧
    (∀ (s1 : TsState) (d : Nat), pwr_timestamp_sendOverUart s = .ret s1 →
      (pwr_timestamp_start (elapse d s1)).CNT = 0) ∧
    (s.logIndex ≤ 100 → ∃ s1, pwr_timestamp_sendOverUart s = .ret s1 ∧
      s1.tim_started = 0 ∧ (pwr_timestamp_start s1).CNT = 0) := by
  have hflag : (pwr_timestamp_start s).tim_started ≠ 0 := by
    by_cases h : s.tim_started = 0
    · rw [(start_of_clear s h).2]
      decide
    · rw [(start_of_set s h).2]
      exact h
  have helapse : ∀ (d : Nat) (x : TsState), (elapse d x).tim_started = x.tim_started := by
    intro d x
    unfold elapse
    split <;> rfl
  refine ⟨fun h => (start_of_clear s h).1, fun h => (start_of_set s h).1, ⟨rfl, rfl, hflag⟩,
    ⟨rfl, sendOverUart_tim_started s⟩, ?_, ?_, ?_, ?_⟩
  · intro d
    exact ⟨(start_of_set _ (by rw [helapse]; exact hflag)).1, rfl⟩
  · intro d
    exact (start_of_clear _ (by rw [helapse]; rfl)).1
  · intro s1 d h
    have := sendOverUart_tim_started s
    rw [h] at this
    exact (start_of_clear _ (by rw [helapse]; exact this)).1
  · intro hk
    refine ⟨_, sendOverUart_spec s hk, rfl, ?_⟩
    exact (start_of_clear _ rfl).1

/-- C28, instantiated: in a state reached by `init`, `start` and five ticks the
flag is set and the counter reads 5; a second `start` keeps the 5. -/
theorem C28_start_flag_witness :
    startedState.tim_started ≠ 0 ∧ startedState.CNT = 5 ∧
    (pwr_timestamp_start startedState).CNT = startedState.CNT :=
  ⟨by decide, by decide, (C28_start_flag startedState).2.1 (by decide)⟩

/-- C29 (frame of `init`). Whenever `pwr_timestamp_init` returns, it has
zeroed every slot of the buffer and left the cursor, the flag and the output as
they were, whatever its HAL calls report and leave in the timer (`hw`, which is
then what the counter and its enable bit hold); with the HAL calls succeeding
it does return. So from a state with cursor `k ≤ 100`, `init()` followed by
`sendOverUart()` prints `k` records of an all-zero entry, then the sentinel. -/
theorem C29_init_frame (hw : TimerInitEffect) (s : TsState) (st : TimerInitStatus) :
    (∀ s1, pwr_timestamp_init st hw s = .ret s1 →
      s1.logIndex = s.logIndex ∧ s1.tim_started = s.tim_started ∧ s1.CNT = hw.CNT ∧
      s1.CEN = hw.CEN ∧ s1.uart = s.uart ∧
      (∀ i, s1.slot i = LogEntry_t.zero)) ∧
    (∃ s1, pwr_timestamp_init .allOk hw s = .ret s1) ∧
    (s.logIndex ≤ 100 →
      ∃ s1 s2, pwr_timestamp_init .allOk hw s = .ret s1 ∧
        pwr_timestamp_sendOverUart s1 = .ret s2 ∧
        s2.uart = s.uart ++
          (List.replicate s.logIndex (recordText LogEntry_t.zero)).flatten ++ sentinelLine ∧
        s2.logIndex = 0) ∧
    recordText LogEntry_t.zero =
      ("[SLP_SOL](null):0:us:DIVENR=0:MISCENR=0:MEMENR=0:AHB1ENR=0:AHB2ENR=0:AHB3ENR=0:" ++
        "AHB4ENR=0:AHB5ENR=0:APB1LENR=0:APB1HENR=0:APB2ENR=0:APB3ENR=0:APB4LENR=0:" ++
        "APB4HENR=0:APB5ENR=0[SLP_EOL]\n").toList := by
  refine ⟨?_, ⟨_, init_allOk hw s⟩, ?_, recordText_zero⟩
  · intro s1 h
    obtain ⟨h1, h2, h3, h4, h5, h6⟩ := init_frame st hw s s1 h
    refine ⟨h1, h2, h3, h4, h5, ?_⟩
    intro i
    unfold TsState.slot
    split
    · rw [h6]
    · rfl
  · intro hk
    obtain ⟨h1, _, _, _, h5, h6⟩ := init_frame .allOk hw s _ (init_allOk hw s)
    refine ⟨_, _, init_allOk hw s, sendOverUart_spec _ (by rw [h1]; exact hk), ?_, rfl⟩
    show _ ++ _ ++ sentinelLine = _
    rw [entries_of_zero _ h6, h1, h5, List.map_replicate, printRecord_eq]

/-- C29, instantiated: a state with two appended entries. -/
theorem C29_init_frame_witness :
    twoLoggedState.logIndex ≤ 100 ∧
    ∃ s1 s2, pwr_timestamp_init .allOk sampleInitEffect twoLoggedState = .ret s1 ∧
      pwr_timestamp_sendOverUart s1 = .ret s2 ∧
      s2.uart = twoLoggedState.uart ++
        (List.replicate twoLoggedState.logIndex (recordText LogEntry_t.zero)).flatten ++
        sentinelLine ∧
      s2.logIndex = 0 :=
  ⟨by decide, (C29_init_frame sampleInitEffect twoLoggedState .allOk).2.2.1 (by decide)⟩

/-! ## Trace pins: auxiliary facts -/

theorem trace_enable_eq (s : TraceGpio) : trace_gpio_enable s = traceStart := rfl

theorem trace_reset_eq (s : TraceGpio) : trace_reset_state s = traceStart := rfl

theorem wrapInt32_natSucc (k : Nat) (hhi : k < 2147483647) :
    wrapInt32 ((k : Int) + 1) = ((k + 1 : Nat) : Int) := by
  unfold wrapInt32
  omega

/-- From the sixteenth call on, a call only increments the state. -/
theorem next_state_past (m : Nat) (hhi : m + 15 < 2147483647) :
    trace_gpio_next_state
      { trace_state := ((m + 15 : Nat) : Int), pin0 := .GPIO_PIN_RESET,
        pin1 := .GPIO_PIN_RESET, pin2 := .GPIO_PIN_RESET, pin3 := .GPIO_PIN_SET } =
      { trace_state := ((m + 15 + 1 : Nat) : Int), pin0 := .GPIO_PIN_RESET,
        pin1 := .GPIO_PIN_RESET, pin2 := .GPIO_PIN_RESET, pin3 := .GPIO_PIN_SET } := by
  have hw := wrapInt32_natSucc (m + 15) hhi
  have hne : ∀ j : Int, j ≤ 15 → ¬ ((m + 15 + 1 : Nat) : Int) = j := by
    intro j hj
    omega
  unfold trace_gpio_next_state
  simp only [hw, hne 1 (by decide), hne 2 (by decide), hne 3 (by decide), hne 4 (by decide),
    hne 5 (by decide), hne 6 (by decide), hne 7 (by decide), hne 8 (by decide),
    hne 9 (by decide), hne 10 (by decide), hne 11 (by decide), hne 12 (by decide),
    hne 13 (by decide), hne 14 (by decide), hne 15 (by decide), if_false]

set_option maxRecDepth 100000 in
theorem traceAfter_15 :
    traceAfter 15 traceStart =
      { trace_state := ((0 + 15 : Nat) : Int), pin0 := .GPIO_PIN_RESET,
        pin1 := .GPIO_PIN_RESET, pin2 := .GPIO_PIN_RESET, pin3 := .GPIO_PIN_SET } := by
  decide

theorem traceAfter_past (m : Nat) (hm : m + 15 ≤ 2147483647) :
    traceAfter (m + 15) traceStart =
      { trace_state := ((m + 15 : Nat) : Int), pin0 := .GPIO_PIN_RESET,
        pin1 := .GPIO_PIN_RESET, pin2 := .GPIO_PIN_RESET, pin3 := .GPIO_PIN_SET } := by
  induction m with
  | zero => exact traceAfter_15
  | succ m ih =>
    have h1 : m + 1 + 15 = (m + 15) + 1 := by omega
    rw [h1]
    show trace_gpio_next_state (traceAfter (m + 15) traceStart) = _
    rw [ih (by omega), next_state_past m (by omega)]

set_option maxRecDepth 100000 in
theorem traceAfter_gray :
    ∀ n, n < 16 → (traceAfter n traceStart).trace_state = (n : Int) ∧
      (traceAfter n traceStart).pins = grayCode n ∧
      (n < 15 → pinsChanged (traceAfter n traceStart) (traceAfter (n + 1) traceStart) = 1) := by
  decide

/-! ## Trace pins: the claim -/

/-- C30 (amended). `trace_gpio_enable` and `trace_reset_state` both leave
state 0 with the four pins low, whatever came before. After `n` further calls
of `trace_gpio_next_state`, for every `n` up to `INT_MAX = 2147483647`,
`trace_state` is `n` and the pins, read with pin 0 as least significant bit,
hold `g XOR (g >> 1)` for `g = min n 15`: the Gray code of `n` for `n ≤ 15`,
each of the first 15 calls changing exactly one pin, and from `n = 15` on only
pin 3 high, the state still counting. -/
theorem C30_gray_trace (s0 : TraceGpio) (n : Nat) (hn : n ≤ 2147483647) :
    (trace_gpio_enable s0 = traceStart ∧ trace_reset_state s0 = traceStart ∧
      traceStart.trace_state = 0 ∧ traceStart.pins = 0) ∧
    ((traceAfter n (trace_gpio_enable s0)).trace_state = (n : Int) ∧
      (traceAfter n (trace_gpio_enable s0)).pins = grayCode (min n 15)) ∧
    ((traceAfter n (trace_reset_state s0)).trace_state = (n : Int) ∧
      (traceAfter n (trace_reset_state s0)).pins = grayCode (min n 15)) ∧
    (n < 15 →
      pinsChanged (traceAfter n (trace_gpio_enable s0))
        (traceAfter (n + 1) (trace_gpio_enable s0)) = 1) ∧
    (15 ≤ n →
      traceAfter n (trace_gpio_enable s0) =
        { trace_state := (n : Int), pin0 := .GPIO_PIN_RESET, pin1 := .GPIO_PIN_RESET,
          pin2 := .GPIO_PIN_RESET, pin3 := .GPIO_PIN_SET }) := by
  rw [trace_enable_eq, trace_reset_eq]
  have hmain : (traceAfter n traceStart).trace_state = (n : Int) ∧
      (traceAfter n traceStart).pins = grayCode (min n 15) := by
    by_cases h : n < 16
    · have hmin : min n 15 = n := by omega
      rw [hmin]
      exact ⟨(traceAfter_gray n h).1, (traceAfter_gray n h).2.1⟩
    · obtain ⟨m, rfl⟩ : ∃ m, n = m + 15 := ⟨n - 15, by omega⟩
      have hmin : min (m + 15) 15 = 15 := by omega
      rw [traceAfter_past m hn, hmin]
      have hg : grayCode 15 = 8 := by decide
      rw [hg]
      exact ⟨rfl, rfl⟩
  refine ⟨⟨rfl, rfl, rfl, rfl⟩, hmain, hmain, ?_, ?_⟩
  · intro h
    exact (traceAfter_gray n (by omega)).2.2 h
  · intro h
    obtain ⟨m, rfl⟩ : ∃ m, n = m + 15 := ⟨n - 15, by omega⟩
    exact traceAfter_past m hn

/-- C30, instantiated: twenty calls after `trace_gpio_enable`, from a state
with all pins high. -/
theorem C30_gray_trace_witness :
    (20 : Nat) ≤ 2147483647 ∧
    (traceAfter 20 (trace_gpio_enable sampleTraceGpio)).trace_state = ((20 : Nat) : Int) ∧
    (traceAfter 20 (trace_gpio_enable sampleTraceGpio)).pins = grayCode (min 20 15) :=
  ⟨by decide, (C30_gray_trace sampleTraceGpio 20 (by decide)).2.1⟩

/-- C23, instantiated: in the default build the console is down when "wait
frame" is logged. -/
theorem C23_console_window_witness :
    (({ configured := false } : UartView), Ev.pwr_timestamp_log "wait frame") ∈
      annotate UartView.step { configured := false } (appLoopBody defaultBuild sampleEnv) ∧
    (Ev.pwr_timestamp_log "wait frame").isLog = true ∧
    ({ configured := false } : UartView).configured = false :=
  ⟨by decide, rfl,
    (C23_console_window sampleInitEffect defaultBuild sampleEnv).2.2.2.2.2.2.2.1
      ({ configured := false }, .pwr_timestamp_log "wait frame") (by decide) rfl⟩

/-! ## Trace pins: the range of the state counter -/

theorem traceAfter_succ (n : Nat) (s : TraceGpio) :
    traceAfter (n + 1) s = trace_gpio_next_state (traceAfter n s) := rfl

set_option maxRecDepth 100000 in
theorem next_state_int_max :
    trace_gpio_next_state
      { trace_state := ((2147483632 + 15 : Nat) : Int), pin0 := .GPIO_PIN_RESET,
        pin1 := .GPIO_PIN_RESET, pin2 := .GPIO_PIN_RESET, pin3 := .GPIO_PIN_SET } =
      { trace_state := -2147483648, pin0 := .GPIO_PIN_RESET,
        pin1 := .GPIO_PIN_RESET, pin2 := .GPIO_PIN_RESET, pin3 := .GPIO_PIN_SET } := by
  decide

theorem traceAfter_overflow :
    traceAfter (2147483632 + 15 + 1) traceStart =
      { trace_state := -2147483648, pin0 := .GPIO_PIN_RESET,
        pin1 := .GPIO_PIN_RESET, pin2 := .GPIO_PIN_RESET, pin3 := .GPIO_PIN_SET } := by
  rw [traceAfter_succ, traceAfter_past 2147483632 (by decide), next_state_int_max]

/-- C30, as stated, fails for `n = 2147483648`: `trace_state` is an `int`, and
the call made with `trace_state = INT_MAX` cannot increment it; stored in 32
bits it reads `-2147483648` afterwards, not `n`. -/
theorem C30_counterexample :
    (2147483632 + 15 + 1 : Nat) = 2147483648 ∧
    (traceAfter (2147483632 + 15) (trace_gpio_enable sampleTraceGpio)).trace_state =
      2147483647 ∧
    (traceAfter (2147483632 + 15 + 1) (trace_gpio_enable sampleTraceGpio)).trace_state =
      -2147483648 ∧
    (traceAfter (2147483632 + 15 + 1) (trace_gpio_enable sampleTraceGpio)).trace_state ≠
      ((2147483632 + 15 + 1 : Nat) : Int) := by
  rw [trace_enable_eq, traceAfter_overflow, traceAfter_past 2147483632 (by decide)]
  decide

end N6Power
